import Mathlib

/-!
# Vertical canvas: geometry and interaction core of `multi-canvas.cpp`

A shallow embedding of the hit-testing, selection, item movement, snapping and
aspect clamping code of `CanvasDock`, with the properties proved about it.

Conventions of the embedding.

* `float` values are exact rationals (`ℚ`); `fabsf` is `abs`, `std::round` is
  `roundf` (halves away from zero).
* A scene item pointer is the `id` carried by the item; the null pointer is
  `none`.
* `obs_scene_enum_items` / `obs_sceneitem_group_enum_items` visit a list of
  items front to back (scene order is back-to-front on screen) and stop as
  soon as the callback answers `false`.
* Functions of libobs whose bodies are not part of the repository (cached
  transforms, matrix inversion) and the contents of uninitialised locals are
  fields of `Libobs`; every theorem holds for all of their values.
-/

namespace MultiCanvas

/-! ## Vectors and matrices -/

/-- Two floats, as `struct vec2`. -/
structure vec2 where
  x : ℚ
  y : ℚ
deriving DecidableEq

/-- Three floats, as `struct vec3` (the padding lane is left out). -/
structure vec3 where
  x : ℚ
  y : ℚ
  z : ℚ
deriving DecidableEq

/-- Four floats, as `struct vec4`. -/
structure vec4 where
  x : ℚ
  y : ℚ
  z : ℚ
  w : ℚ
deriving DecidableEq

/-- Four rows, as `struct matrix4`. -/
structure matrix4 where
  x : vec4
  y : vec4
  z : vec4
  t : vec4
deriving DecidableEq

/-- The least value of the C type `int`, which has 32 bits. -/
def INT_MIN : Int := -2147483648

/-- The greatest value of the C type `int`. -/
def INT_MAX : Int := 2147483647

/-- The value an `int` holds after an addition, subtraction or negation whose
exact result is `z`: the number congruent to `z` modulo `2^32` that lies
between `INT_MIN` and `INT_MAX`. -/
def wrap_int (z : Int) : Int := (z + 2147483648) % 4294967296 - 2147483648

/-- The conversion to `int` of a float whose value is the integer `z`. C++
leaves the conversion of a value outside the range of `int` undefined; it is
given the value that the conversion instruction of x86 processors delivers in
that case, `INT_MIN`. -/
def float_to_int (z : Int) : Int :=
  if INT_MIN ≤ z ∧ z ≤ INT_MAX then z else INT_MIN

/-- Crop of an item in integer pixels, as `struct obs_sceneitem_crop`. The four
fields have the C type `int`: the values they hold lie between `INT_MIN` and
`INT_MAX` (`crop_in_int_range`), and every integer operation of the code on
them is modelled with `wrap_int` or modulo `2^32`. -/
structure obs_sceneitem_crop where
  left : Int
  top : Int
  right : Int
  bottom : Int
deriving DecidableEq

/-- The four fields of a crop are values of the C type `int`. -/
def crop_in_int_range (crop : obs_sceneitem_crop) : Prop :=
  (INT_MIN ≤ crop.left ∧ crop.left ≤ INT_MAX) ∧ (INT_MIN ≤ crop.top ∧ crop.top ≤ INT_MAX) ∧
  (INT_MIN ≤ crop.right ∧ crop.right ≤ INT_MAX) ∧
  (INT_MIN ≤ crop.bottom ∧ crop.bottom ≤ INT_MAX)

instance crop_in_int_range_decidable (crop : obs_sceneitem_crop) :
    Decidable (crop_in_int_range crop) := by
  unfold crop_in_int_range
  exact inferInstance

def vec2_zero : vec2 := ⟨0, 0⟩

def vec3_zero : vec3 := ⟨0, 0, 0⟩

def vec2_add (a b : vec2) : vec2 := ⟨a.x + b.x, a.y + b.y⟩

def vec2_sub (a b : vec2) : vec2 := ⟨a.x - b.x, a.y - b.y⟩

def vec3_set (x y z : ℚ) : vec3 := ⟨x, y, z⟩

def vec3_min (a b : vec3) : vec3 := ⟨min a.x b.x, min a.y b.y, min a.z b.z⟩

def vec3_max (a b : vec3) : vec3 := ⟨max a.x b.x, max a.y b.y, max a.z b.z⟩

/-- Row-vector times matrix with `w = 1`, keeping the first three lanes
(`vec3_transform` of libobs, which goes through `vec4_transform`). -/
def vec3_transform (v : vec3) (m : matrix4) : vec3 :=
  ⟨m.x.x * v.x + m.y.x * v.y + m.z.x * v.z + m.t.x,
   m.x.y * v.x + m.y.y * v.y + m.z.y * v.z + m.t.y,
   m.x.z * v.x + m.y.z * v.y + m.z.z * v.z + m.t.z⟩

/-- The source rounds with `std::round`: to the nearest integer, halves away
from zero. -/
def roundf (q : ℚ) : ℚ :=
  if 0 ≤ q then (⌊q + 1 / 2⌋ : ℤ) else (⌈q - 1 / 2⌉ : ℤ)

/-! ## Scene items -/

/-- The bounds types of libobs (`enum obs_bounds_type`); the canvas code only
asks whether the type is `OBS_BOUNDS_NONE`. -/
inductive obs_bounds_type where
  | OBS_BOUNDS_NONE | OBS_BOUNDS_STRETCH | OBS_BOUNDS_SCALE_INNER | OBS_BOUNDS_SCALE_OUTER
  | OBS_BOUNDS_SCALE_TO_WIDTH | OBS_BOUNDS_SCALE_TO_HEIGHT | OBS_BOUNDS_MAX_ONLY
deriving DecidableEq

/-- The fields of a scene item that the canvas code reads or writes through
the libobs accessors; `source_width` and `source_height` are the size of the
source of the item (`obs_source_get_width`, `obs_source_get_height`). -/
structure ItemData where
  id : Nat
  hasVideo : Bool
  locked : Bool
  visible : Bool
  selected : Bool
  is_group : Bool
  pos : vec2
  rot : ℚ
  scale : vec2
  crop : obs_sceneitem_crop
  bounds_type : obs_bounds_type
  bounds : vec2
  alignment : Nat
  source_width : Nat
  source_height : Nat
deriving DecidableEq

/-- A scene item with the items of its group scene (only visited when
`is_group` is set). -/
inductive SceneItem where
  | mk (d : ItemData) (children : List SceneItem)

namespace SceneItem

def data : SceneItem → ItemData
  | mk d _ => d

def children : SceneItem → List SceneItem
  | mk _ cs => cs

end SceneItem

/-- What the code obtains from libobs without the repository defining it. -/
structure Libobs where
  /-- Result of `obs_sceneitem_get_box_transform`. -/
  box_transform : SceneItem → matrix4
  /-- Result of `obs_sceneitem_get_draw_transform`. -/
  draw_transform : SceneItem → matrix4
  /-- Result of `matrix4_inv`: the inverse, or `none` when it reports failure and
  leaves the destination untouched. -/
  matrix4_inv : matrix4 → Option matrix4
  /-- Contents of a `matrix4` local that was never written. -/
  uninit_matrix4 : matrix4
  /-- Contents of a `vec3` local that was never written. -/
  uninit_vec3 : vec3
  /-- The constant `EPSILON` of the libobs math headers. -/
  EPSILON : ℚ

/-- `SceneItemHasVideo`: the source of the item has the video output flag. -/
def SceneItemHasVideo (item : SceneItem) : Bool := item.data.hasVideo

def obs_sceneitem_locked (item : SceneItem) : Bool := item.data.locked

def obs_sceneitem_visible (item : SceneItem) : Bool := item.data.visible

def obs_sceneitem_selected (item : SceneItem) : Bool := item.data.selected

def obs_sceneitem_is_group (item : SceneItem) : Bool := item.data.is_group

/-- `CloseFloat` with its default epsilon `0.01f`. -/
def CloseFloat (a b : ℚ) (epsilon : ℚ := 1 / 100) : Bool :=
  decide (abs (a - b) ≤ epsilon)

/-- `GetTransformedPos`. -/
def GetTransformedPos (x y : ℚ) (mat : matrix4) : vec3 :=
  vec3_transform (vec3_set x y 0) mat

/-- Enumeration of a list of items with a callback that threads its `param`
state and answers whether to go on (`obs_scene_enum_items`). -/
def obs_scene_enum_items {σ : Type} (callback : SceneItem → σ → σ × Bool) :
    List SceneItem → σ → σ
  | [], s => s
  | item :: rest, s =>
    let r := callback item s
    if r.2 then obs_scene_enum_items callback rest r.1 else r.1

/-! ## Hit testing -/

/-- The `param` of `FindItemAtPos` and `CheckItemSelected`. -/
structure SceneFindData where
  pos : vec2
  item : Option SceneItem
  selectBelow : Bool

/-- The test shared by `FindItemAtPos` and `FindItemsInBox`: `pos` goes
through the inverse box transform into the closed unit square and comes back
to itself through the box transform. -/
def pointInItem (lib : Libobs) (item : SceneItem) (pos : vec2) : Bool :=
  let pos3 := vec3_set pos.x pos.y 0
  let transform := lib.box_transform item
  let invTransform := (lib.matrix4_inv transform).getD lib.uninit_matrix4
  let transformedPos := vec3_transform pos3 invTransform
  let pos3_ := vec3_transform transformedPos transform
  CloseFloat pos3.x pos3_.x && CloseFloat pos3.y pos3_.y &&
    decide (transformedPos.x ≥ 0) && decide (transformedPos.x ≤ 1) &&
    decide (transformedPos.y ≥ 0) && decide (transformedPos.y ≤ 1)

/-- `FindItemAtPos`, the enumeration callback of `GetItemAtPos`. -/
def FindItemAtPos (lib : Libobs) (item : SceneItem) (data : SceneFindData) :
    SceneFindData × Bool :=
  if !SceneItemHasVideo item then (data, true)
  else if obs_sceneitem_locked item then (data, true)
  else if pointInItem lib item data.pos then
    if data.selectBelow && obs_sceneitem_selected item then
      if data.item.isSome then (data, false)
      else ({ data with selectBelow := false, item := some item }, true)
    else ({ data with item := some item }, true)
  else (data, true)

/-- `CanvasDock::GetItemAtPos` on a non-null scene. -/
def GetItemAtPos (lib : Libobs) (scene : List SceneItem) (pos : vec2)
    (selectBelow : Bool) : Option SceneItem :=
  (obs_scene_enum_items (FindItemAtPos lib) scene ⟨pos, none, selectBelow⟩).item

/-! ## Selection -/

mutual
/-- `select_one`: visits the children of a group, then sets the selected flag
of the item to whether it is the item passed as `param`. -/
def select_one (selectedItem : Option Nat) : SceneItem → SceneItem
  | .mk d cs =>
    .mk { d with selected := decide (selectedItem = some d.id) }
      (if d.is_group then select_one_items selectedItem cs else cs)
/-- The enumeration `select_one` is run under; it never stops early. -/
def select_one_items (selectedItem : Option Nat) : List SceneItem → List SceneItem
  | [] => []
  | c :: cs => select_one selectedItem c :: select_one_items selectedItem cs
end

/-- `CanvasDock::DoSelect`. -/
def DoSelect (lib : Libobs) (scene : List SceneItem) (pos : vec2) : List SceneItem :=
  let item := GetItemAtPos lib scene pos true
  select_one_items (item.map fun i => i.data.id) scene

/-- `CanvasDock::DoCtrlSelect`: toggles the selected flag of the top-level
item under `pos`, if any. -/
def DoCtrlSelect (lib : Libobs) (scene : List SceneItem) (pos : vec2) : List SceneItem :=
  match GetItemAtPos lib scene pos false with
  | none => scene
  | some item =>
    scene.map fun it =>
      if it.data.id = item.data.id then
        .mk { it.data with selected := !obs_sceneitem_selected item } it.children
      else it

/-- `CanvasDock::ProcessClick`; `ctrl` is the control modifier. -/
def ProcessClick (lib : Libobs) (ctrl : Bool) (scene : List SceneItem) (pos : vec2) :
    List SceneItem :=
  if ctrl then DoCtrlSelect lib scene pos else DoSelect lib scene pos

mutual
/-- Every item reachable by enumerating the scene and, below groups, their
group scenes. -/
def sceneItemsOf : SceneItem → List SceneItem
  | .mk d cs => .mk d cs :: (if d.is_group then allSceneItems cs else [])
/-- The items of a list of scene items together with all nested items. -/
def allSceneItems : List SceneItem → List SceneItem
  | [] => []
  | c :: cs => sceneItemsOf c ++ allSceneItems cs
end

/-- An item that `FindItemAtPos` records: it has video, is not locked and
passes the point test. -/
def isHit (lib : Libobs) (pos : vec2) (item : SceneItem) : Bool :=
  SceneItemHasVideo item && !obs_sceneitem_locked item && pointInItem lib item pos

/-- The item data with the selected flag blanked, to compare scenes up to
selection. -/
def withoutSelection (item : SceneItem) : ItemData :=
  { item.data with selected := false }

/-! ## Marquee hit testing -/

def vec2_min (a b : vec2) : vec2 := ⟨min a.x b.x, min a.y b.y⟩

def vec2_max (a b : vec2) : vec2 := ⟨max a.x b.x, max a.y b.y⟩

/-- `CounterClockwise`. -/
def CounterClockwise (x1 x2 x3 y1 y2 y3 : ℚ) : Bool :=
  decide ((y3 - y1) * (x2 - x1) > (y2 - y1) * (x3 - x1))

/-- `IntersectLine`. -/
def IntersectLine (x1 x2 x3 x4 y1 y2 y3 y4 : ℚ) : Bool :=
  let a := CounterClockwise x1 x2 x3 y1 y2 y3
  let b := CounterClockwise x1 x2 x4 y1 y2 y4
  let c := CounterClockwise x3 x4 x1 y3 y4 y1
  let d := CounterClockwise x3 x4 x2 y3 y4 y2
  (a != b) && (c != d)

/-- The four calls of `IntersectLine` that `IntersectBox` makes for one edge
`(x3, y3) – (x4, y4)` of the item against the four sides of the rectangle. -/
def edgeIntersectsRect (x1 x2 y1 y2 x3 x4 y3 y4 : ℚ) : Bool :=
  IntersectLine x1 x1 x3 x4 y1 y2 y3 y4 ||
  IntersectLine x1 x2 x3 x4 y1 y1 y3 y4 ||
  IntersectLine x2 x2 x3 x4 y1 y2 y3 y4 ||
  IntersectLine x1 x2 x3 x4 y2 y2 y3 y4

/-- `IntersectBox`: the four edges of the transformed unit square, in the
order of the source. -/
def IntersectBox (transform : matrix4) (x1 x2 y1 y2 : ℚ) : Bool :=
  (let x3 := transform.t.x
   let y3 := transform.t.y
   let x4 := x3 + transform.x.x
   let y4 := y3 + transform.x.y
   edgeIntersectsRect x1 x2 y1 y2 x3 x4 y3 y4) ||
  (let x3 := transform.t.x
   let y3 := transform.t.y
   let x4 := x3 + transform.y.x
   let y4 := y3 + transform.y.y
   edgeIntersectsRect x1 x2 y1 y2 x3 x4 y3 y4) ||
  (let x3 := transform.t.x + transform.x.x
   let y3 := transform.t.y + transform.x.y
   let x4 := x3 + transform.y.x
   let y4 := y3 + transform.y.y
   edgeIntersectsRect x1 x2 y1 y2 x3 x4 y3 y4) ||
  (let x3 := transform.t.x + transform.y.x
   let y3 := transform.t.y + transform.y.y
   let x4 := x3 + transform.x.x
   let y4 := y3 + transform.x.y
   edgeIntersectsRect x1 x2 y1 y2 x3 x4 y3 y4)

/-- The `param` of `FindItemsInBox` and `FindSelected`. -/
structure SceneFindBoxData where
  startPos : vec2
  pos : vec2
  sceneItems : List SceneItem

/-- The point `(px, py)` lies strictly inside the rectangle. -/
def strictlyInRect (x1 x2 y1 y2 px py : ℚ) : Bool :=
  decide (px > x1) && decide (px < x2) && decide (py > y1) && decide (py < y2)

/-- The geometric tests of `FindItemsInBox`, tried in the order of the source:
the point test at `pos`, the four corners, the centre, the edge crossing. -/
def itemTouchesBox (lib : Libobs) (item : SceneItem) (startPos pos : vec2) : Bool :=
  let pos_min := vec2_min startPos pos
  let pos_max := vec2_max startPos pos
  let x1 := pos_min.x
  let x2 := pos_max.x
  let y1 := pos_min.y
  let y2 := pos_max.y
  let transform := lib.box_transform item
  pointInItem lib item pos ||
  strictlyInRect x1 x2 y1 y2 transform.t.x transform.t.y ||
  strictlyInRect x1 x2 y1 y2 (transform.t.x + transform.x.x) (transform.t.y + transform.x.y) ||
  strictlyInRect x1 x2 y1 y2 (transform.t.x + transform.y.x) (transform.t.y + transform.y.y) ||
  strictlyInRect x1 x2 y1 y2 (transform.t.x + transform.x.x + transform.y.x)
    (transform.t.y + transform.x.y + transform.y.y) ||
  strictlyInRect x1 x2 y1 y2 (transform.t.x + (1 / 2) * (transform.x.x + transform.y.x))
    (transform.t.y + (1 / 2) * (transform.x.y + transform.y.y)) ||
  IntersectBox transform x1 x2 y1 y2

/-- `FindItemsInBox`, the enumeration callback of `BoxItems`. -/
def FindItemsInBox (lib : Libobs) (item : SceneItem) (data : SceneFindBoxData) :
    SceneFindBoxData × Bool :=
  if !SceneItemHasVideo item then (data, true)
  else if obs_sceneitem_locked item then (data, true)
  else if !obs_sceneitem_visible item then (data, true)
  else if itemTouchesBox lib item data.startPos data.pos then
    ({ data with sceneItems := data.sceneItems ++ [item] }, true)
  else (data, true)

/-- `CanvasDock::BoxItems` on a non-null scene: the new `hoveredPreviewItems`. -/
def BoxItems (lib : Libobs) (scene : List SceneItem) (startPos pos : vec2) :
    List SceneItem :=
  (obs_scene_enum_items (FindItemsInBox lib) scene ⟨startPos, pos, []⟩).sceneItems

/-! ## Snapping -/

/-- The `BasicWindow` section of the global configuration that the snapping
code reads. -/
structure BasicWindowConfig where
  SnappingEnabled : Bool
  ScreenSnapping : Bool
  CenterSnapping : Bool
  SourceSnapping : Bool
  SnapDistance : ℚ

/-- `CanvasDock::GetSnapOffset`; `base_width` and `base_height` are the base
size of the canvas source. The fields `clampOffset.x` and `clampOffset.y` are
the variables `clampOffset_x` and `clampOffset_y`; `clampOffset.z` stays zero. -/
def GetSnapOffset (lib : Libobs) (cfg : BasicWindowConfig) (base_width base_height : Nat)
    (tl br : vec3) : vec3 :=
  let screenSize : vec2 := ⟨(base_width : ℚ), (base_height : ℚ)⟩
  let snap := cfg.SnappingEnabled
  if snap == false then vec3_zero
  else
    let screenSnap := cfg.ScreenSnapping
    let centerSnap := cfg.CenterSnapping
    let clampDist := cfg.SnapDistance
    let centerX := br.x - (br.x - tl.x) / 2
    let centerY := br.y - (br.y - tl.y) / 2
    let clampOffset_x : ℚ := 0
    let clampOffset_y : ℚ := 0
    -- Left screen edge.
    let clampOffset_x :=
      if screenSnap && decide (abs tl.x < clampDist) then -tl.x else clampOffset_x
    -- Right screen edge.
    let clampOffset_x :=
      if screenSnap && decide (abs clampOffset_x < lib.EPSILON) &&
          decide (abs (screenSize.x - br.x) < clampDist) then
        screenSize.x - br.x else clampOffset_x
    -- Horizontal center.
    let clampOffset_x :=
      if centerSnap && decide (abs (screenSize.x - (br.x - tl.x)) > clampDist) &&
          decide (abs (screenSize.x / 2 - centerX) < clampDist) then
        screenSize.x / 2 - centerX else clampOffset_x
    -- Top screen edge.
    let clampOffset_y :=
      if screenSnap && decide (abs tl.y < clampDist) then -tl.y else clampOffset_y
    -- Bottom screen edge.
    let clampOffset_y :=
      if screenSnap && decide (abs clampOffset_y < lib.EPSILON) &&
          decide (abs (screenSize.y - br.y) < clampDist) then
        screenSize.y - br.y else clampOffset_y
    -- Vertical center.
    let clampOffset_y :=
      if centerSnap && decide (abs (screenSize.y - (br.y - tl.y)) > clampDist) &&
          decide (abs (screenSize.y / 2 - centerY) < clampDist) then
        screenSize.y / 2 - centerY else clampOffset_y
    ⟨clampOffset_x, clampOffset_y, 0⟩

/-- The accumulator of `AddItemBounds`. -/
structure SelectedItemBounds where
  first : Bool
  tl : vec3
  br : vec3

/-- The lambda `add_bounds` of `AddItemBounds`, over the points `t`. -/
def add_bounds (data : SelectedItemBounds) (t : List vec3) : SelectedItemBounds :=
  t.foldl (fun d v =>
    if d.first then { d with tl := v, br := v, first := false }
    else { d with tl := vec3_min d.tl v, br := vec3_max d.br v }) data

/-- The four corners of the unit square through a box transform, in the order
the source lists them. -/
def boxCorners (boxTransform : matrix4) : List vec3 :=
  [GetTransformedPos 0 0 boxTransform, GetTransformedPos 1 0 boxTransform,
   GetTransformedPos 0 1 boxTransform, GetTransformedPos 1 1 boxTransform]

mutual
/-- `AddItemBounds`: accumulates the bounding box of the selected items, a
group contributing the transformed bounds of its selected children. -/
def AddItemBounds (lib : Libobs) : SceneItem → SelectedItemBounds → SelectedItemBounds
  | .mk d cs, data =>
    let data :=
      if d.is_group then
        let sib := AddItemBounds_items lib cs ⟨true, lib.uninit_vec3, lib.uninit_vec3⟩
        if !sib.first then
          let xform := lib.draw_transform (.mk d cs)
          add_bounds data
            [vec3_transform (vec3_set sib.tl.x sib.tl.y 0) xform,
             vec3_transform (vec3_set sib.tl.x sib.br.y 0) xform,
             vec3_transform (vec3_set sib.br.x sib.tl.y 0) xform,
             vec3_transform (vec3_set sib.br.x sib.br.y 0) xform]
        else data
      else data
    if !d.selected then data
    else add_bounds data (boxCorners (lib.box_transform (.mk d cs)))
/-- The enumeration `AddItemBounds` is run under; it never stops early. -/
def AddItemBounds_items (lib : Libobs) : List SceneItem → SelectedItemBounds → SelectedItemBounds
  | [], data => data
  | c :: cs, data => AddItemBounds_items lib cs (AddItemBounds lib c data)
end

/-- The `param` of `GetSourceSnapOffset`. -/
structure OffsetData where
  clampDist : ℚ
  tl : vec3
  br : vec3
  offset : vec3

/-- One expansion of the `EDGE_SNAP(l, r, x, y)` macro, on the components it
names: `l` is `l.x`, `r` is `data->r.x`, `offset` is `data->offset.x`, and the
overlap test reads `data->tl.y < br.y && data->br.y > tl.y`. The result is
the new `data->offset.x`. -/
def EDGE_SNAP (lib : Libobs) (clampDist l r offset data_tl_y br_y data_br_y tl_y : ℚ) : ℚ :=
  let dist := abs (l - r)
  if decide (dist < clampDist) && decide (abs offset < lib.EPSILON) &&
      decide (data_tl_y < br_y) && decide (data_br_y > tl_y) &&
      (decide (abs offset > dist) || decide (offset < lib.EPSILON)) then
    l - r
  else offset

/-- `GetSourceSnapOffset`, the enumeration callback run by `SnapItemMovement`
after the screen snap. -/
def GetSourceSnapOffset (lib : Libobs) (item : SceneItem) (data : OffsetData) :
    OffsetData × Bool :=
  if obs_sceneitem_selected item then (data, true)
  else
    let b := add_bounds ⟨true, vec3_zero, vec3_zero⟩ (boxCorners (lib.box_transform item))
    let tl := b.tl
    let br := b.br
    -- EDGE_SNAP(tl, br, x, y)
    let data := { data with offset := { data.offset with
      x := EDGE_SNAP lib data.clampDist tl.x data.br.x data.offset.x data.tl.y br.y data.br.y tl.y } }
    -- EDGE_SNAP(tl, br, y, x)
    let data := { data with offset := { data.offset with
      y := EDGE_SNAP lib data.clampDist tl.y data.br.y data.offset.y data.tl.x br.x data.br.x tl.x } }
    -- EDGE_SNAP(br, tl, x, y)
    let data := { data with offset := { data.offset with
      x := EDGE_SNAP lib data.clampDist br.x data.tl.x data.offset.x data.tl.y br.y data.br.y tl.y } }
    -- EDGE_SNAP(br, tl, y, x)
    let data := { data with offset := { data.offset with
      y := EDGE_SNAP lib data.clampDist br.y data.tl.y data.offset.y data.tl.x br.x data.br.x tl.x } }
    (data, true)

/-- `CanvasDock::SnapItemMovement`: the movement offset after snapping. -/
def SnapItemMovement (lib : Libobs) (cfg : BasicWindowConfig) (base_width base_height : Nat)
    (scene : List SceneItem) (offset : vec2) : vec2 :=
  let data := AddItemBounds_items lib scene ⟨true, lib.uninit_vec3, lib.uninit_vec3⟩
  let data : SelectedItemBounds :=
    { data with
      tl := { data.tl with x := data.tl.x + offset.x, y := data.tl.y + offset.y },
      br := { data.br with x := data.br.x + offset.x, y := data.br.y + offset.y } }
  let snapOffset := GetSnapOffset lib cfg base_width base_height data.tl data.br
  let snap := cfg.SnappingEnabled
  let sourcesSnap := cfg.SourceSnapping
  if snap == false then offset
  else if sourcesSnap == false then ⟨offset.x + snapOffset.x, offset.y + snapOffset.y⟩
  else
    let clampDist := cfg.SnapDistance
    let offsetData : OffsetData := ⟨clampDist, data.tl, data.br, snapOffset⟩
    let offsetData := obs_scene_enum_items (GetSourceSnapOffset lib) scene offsetData
    if decide (abs offsetData.offset.x > lib.EPSILON) ||
        decide (abs offsetData.offset.y > lib.EPSILON) then
      ⟨offset.x + offsetData.offset.x, offset.y + offsetData.offset.y⟩
    else ⟨offset.x + snapOffset.x, offset.y + snapOffset.y⟩

/-! ## Moving items -/

mutual
/-- `move_items`: a locked item is skipped with its children; an unselected
group hands the offset, taken into its own space, to its children; a selected
item has the offset added to its position. -/
def move_items (lib : Libobs) : vec2 → SceneItem → SceneItem
  | offset, .mk d cs =>
    if d.locked then .mk d cs
    else
      let selected := d.selected
      let cs :=
        if d.is_group && !selected then
          let transform := lib.draw_transform (.mk d cs)
          let transform : matrix4 := { transform with t := ⟨0, 0, 0, 1⟩ }
          let transform := (lib.matrix4_inv transform).getD transform
          let new_offset := vec3_transform (vec3_set offset.x offset.y 0) transform
          move_items_items lib ⟨new_offset.x, new_offset.y⟩ cs
        else cs
      if selected then .mk { d with pos := vec2_add d.pos offset } cs
      else .mk d cs
/-- The enumeration `move_items` is run under; it never stops early. -/
def move_items_items (lib : Libobs) : vec2 → List SceneItem → List SceneItem
  | _, [] => []
  | offset, c :: cs => move_items lib offset c :: move_items_items lib offset cs
end

/-- The members of `CanvasDock` that a move drag reads and writes. -/
structure MoveSession where
  scene : List SceneItem
  startPos : vec2
  lastMoveOffset : vec2

/-- `CanvasDock::MoveItems`; `ctrl` is the control modifier, which switches
snapping off for the call. -/
def MoveItems (lib : Libobs) (cfg : BasicWindowConfig) (base_width base_height : Nat)
    (ctrl : Bool) (dock : MoveSession) (pos : vec2) : MoveSession :=
  let offset := vec2_sub pos dock.startPos
  let moveOffset := vec2_sub offset dock.lastMoveOffset
  let moveOffset :=
    if !ctrl then SnapItemMovement lib cfg base_width base_height dock.scene moveOffset
    else moveOffset
  { dock with
    lastMoveOffset := vec2_add dock.lastMoveOffset moveOffset,
    scene := move_items_items lib moveOffset dock.scene }

/-- A press at `startPos` (which zeroes `lastMoveOffset`) followed by pointer
moves, each with the state of the control modifier, all dispatched to
`MoveItems`. -/
def dragMoves (lib : Libobs) (cfg : BasicWindowConfig) (base_width base_height : Nat)
    (scene : List SceneItem) (startPos : vec2) (moves : List (vec2 × Bool)) : MoveSession :=
  moves.foldl (fun dock m => MoveItems lib cfg base_width base_height m.2 dock m.1)
    ⟨scene, startPos, vec2_zero⟩

/-! ## Aspect clamping -/

/-- Modelled from the spec: the declaration of `ItemHandle` (header
`multi-canvas.hpp`) is not among the sources; the handles are the eight resize
handles the source names, the rotate handle and `None`. -/
inductive ItemHandle where
  | None | TopLeft | TopCenter | TopRight | CenterLeft | CenterRight
  | BottomLeft | BottomCenter | BottomRight | Rot
deriving DecidableEq

def ITEM_LEFT : Nat := 1

def ITEM_RIGHT : Nat := 2

def ITEM_TOP : Nat := 4

def ITEM_BOTTOM : Nat := 8

def ITEM_ROT : Nat := 16

/-- Modelled from the spec: the values of the handles (header
`multi-canvas.hpp`) are not among the sources; each handle is the union of the
side flags in its name, so that `(uint32_t)stretchHandle & ITEM_LEFT` holds for
the three handles on the left side, and so on. -/
def ItemHandle.flags : ItemHandle → Nat
  | .None => 0
  | .TopLeft => ITEM_TOP ||| ITEM_LEFT
  | .TopCenter => ITEM_TOP
  | .TopRight => ITEM_TOP ||| ITEM_RIGHT
  | .CenterLeft => ITEM_LEFT
  | .CenterRight => ITEM_RIGHT
  | .BottomLeft => ITEM_BOTTOM ||| ITEM_LEFT
  | .BottomCenter => ITEM_BOTTOM
  | .BottomRight => ITEM_BOTTOM ||| ITEM_RIGHT
  | .Rot => ITEM_ROT

/-- The test `stretchFlags & flag` of the source. -/
def hasFlag (stretchFlags flag : Nat) : Bool := (stretchFlags &&& flag) != 0

/-- The sign test that `ClampAspect` repeats in each branch. -/
def sameSign (size : vec2) : Bool :=
  (decide (size.y ≥ 0) && decide (size.x ≥ 0)) || (decide (size.y ≤ 0) && decide (size.x ≤ 0))

/-- What `ClampAspect` leaves in its three reference parameters. -/
structure ClampResult where
  tl : vec3
  br : vec3
  size : vec2

/-- `CanvasDock::ClampAspect` for the active handle `stretchHandle`. -/
def ClampAspect (stretchHandle : ItemHandle) (tl br : vec3) (size baseSize : vec2) :
    ClampResult :=
  let baseAspect := baseSize.x / baseSize.y
  let aspect := size.x / size.y
  let stretchFlags := stretchHandle.flags
  let size : vec2 :=
    if stretchHandle = .TopLeft ∨ stretchHandle = .TopRight ∨
        stretchHandle = .BottomLeft ∨ stretchHandle = .BottomRight then
      if aspect < baseAspect then
        if sameSign size then { size with x := size.y * baseAspect }
        else { size with x := size.y * baseAspect * -1 }
      else
        if sameSign size then { size with y := size.x / baseAspect }
        else { size with y := size.x / baseAspect * -1 }
    else if stretchHandle = .TopCenter ∨ stretchHandle = .BottomCenter then
      if sameSign size then { size with x := size.y * baseAspect }
      else { size with x := size.y * baseAspect * -1 }
    else if stretchHandle = .CenterLeft ∨ stretchHandle = .CenterRight then
      if sameSign size then { size with y := size.x / baseAspect }
      else { size with y := size.x / baseAspect * -1 }
    else size
  let size : vec2 := ⟨roundf size.x, roundf size.y⟩
  let tl : vec3 :=
    if hasFlag stretchFlags ITEM_LEFT then { tl with x := br.x - size.x } else tl
  let br : vec3 :=
    if hasFlag stretchFlags ITEM_LEFT then br
    else if hasFlag stretchFlags ITEM_RIGHT then { br with x := tl.x + size.x } else br
  let tl : vec3 :=
    if hasFlag stretchFlags ITEM_TOP then { tl with y := br.y - size.y } else tl
  let br : vec3 :=
    if hasFlag stretchFlags ITEM_TOP then br
    else if hasFlag stretchFlags ITEM_BOTTOM then { br with y := tl.y + size.y } else br
  ⟨tl, br, size⟩

/-! ## Rotation snapping -/

/-- What the code obtains from the C math library and from the libobs math
headers without the repository defining it. -/
structure FloatMath where
  /-- Result of `atan2(y, x)`. -/
  atan2 : ℚ → ℚ → ℚ
  /-- Result of `cos`. -/
  cos : ℚ → ℚ
  /-- Result of `sin`. -/
  sin : ℚ → ℚ
  /-- The factor of the macro `RAD(val)`, radians per degree. -/
  RAD_factor : ℚ
  /-- The factor of the macro `DEG(val)`, degrees per radian. -/
  DEG_factor : ℚ
  /-- Result of `matrix4_mul(dst, m1, m2)`. -/
  matrix4_mul : matrix4 → matrix4 → matrix4
  /-- Result of `matrix4_rotate_aa4f(dst, m, x, y, z, rot)`. -/
  matrix4_rotate_aa4f : matrix4 → ℚ → ℚ → ℚ → ℚ → matrix4
  /-- Result of `matrix4_translate3f(dst, m, x, y, z)`. -/
  matrix4_translate3f : matrix4 → ℚ → ℚ → ℚ → matrix4

/-- The macro `RAD(val)`. -/
def RAD (m : FloatMath) (val : ℚ) : ℚ := val * m.RAD_factor

/-- The macro `DEG(val)`. -/
def DEG (m : FloatMath) (val : ℚ) : ℚ := val * m.DEG_factor

/-- The macro `ROT_SNAP(rot, thresh)` of `RotateItem`, as the new value of the
local `angle`; `abs` is taken on floats. -/
def ROT_SNAP (m : FloatMath) (rot thresh angle : ℚ) : ℚ :=
  if abs (angle - RAD m rot) < RAD m thresh then RAD m rot else angle

/-- The snapping block of `CanvasDock::RotateItem`: the value of the local
`angle` when the block is left, from its value `angle` when the block is
entered (`atan2(...) + RAD(90)`), the modifiers, and the member `rotateAngle`. -/
def RotateItem_angle (m : FloatMath) (shiftDown ctrlDown : Bool) (rotateAngle angle : ℚ) : ℚ :=
  if shiftDown then
    (List.range (360 / 15 + 1)).foldl
      (fun angle (i : ℕ) => ROT_SNAP m ((i : ℚ) * 15 - 90) (15 / 2) angle) angle
  else if !ctrlDown then
    let angle := ROT_SNAP m rotateAngle 5 angle
    let angle := ROT_SNAP m (-90) 5 angle
    let angle := ROT_SNAP m (-45) 5 angle
    let angle := ROT_SNAP m 0 5 angle
    let angle := ROT_SNAP m 45 5 angle
    let angle := ROT_SNAP m 90 5 angle
    let angle := ROT_SNAP m 135 5 angle
    let angle := ROT_SNAP m 180 5 angle
    let angle := ROT_SNAP m 225 5 angle
    let angle := ROT_SNAP m 270 5 angle
    let angle := ROT_SNAP m 315 5 angle
    angle
  else angle

/-- The fixed candidates of the normal mode, in the order the source tries
them. -/
def fixedRotations : List ℚ := [-90, -45, 0, 45, 90, 135, 180, 225, 270, 315]

/-- A run of `ROT_SNAP` over the candidates `l` with one threshold. -/
def snapRun (m : FloatMath) (thresh : ℚ) (l : List ℚ) (angle : ℚ) : ℚ :=
  l.foldl (fun angle rot => ROT_SNAP m rot thresh angle) angle

/-! ## The dock state -/

/-- `matrix4_identity`. -/
def matrix4_identity : matrix4 :=
  ⟨⟨1, 0, 0, 0⟩, ⟨0, 1, 0, 0⟩, ⟨0, 0, 1, 0⟩, ⟨0, 0, 0, 1⟩⟩

/-- A record of what the canvas asked of its collaborators, kept to state
properties over sequences of events: the handle operations with the drag
target they were run on, and the group resize notifications. -/
inductive Call where
  | RotateItem (target : Option Nat)
  | CropItem (target : Option Nat)
  | StretchItem (target : Option Nat)
  | defer_group_resize_begin (group : Nat)
  | defer_group_resize_end (group : Nat)
deriving DecidableEq

/-- The members of `CanvasDock` that the mouse handlers read or write. Item
pointers are ids, `none` being the null pointer; `calls` is the record of
`Call`s made so far and is not a member of the source. The cursor shape is
left out. -/
structure CanvasDock where
  scene : List SceneItem
  locked : Bool
  scrollMode : Bool
  mouseDown : Bool
  mouseMoved : Bool
  mouseOverItems : Bool
  cropping : Bool
  selectionBox : Bool
  changed : Bool
  stretchHandle : ItemHandle
  stretchItem : Option Nat
  stretchGroup : Option Nat
  selectedItems : List Nat
  hoveredPreviewItems : List (Option Nat)
  startPos : vec2
  mousePos : vec2
  lastMoveOffset : vec2
  scrollingFrom : vec2
  scrollingOffset : vec2
  rotateAngle : ℚ
  rotatePoint : vec2
  offsetPoint : vec2
  stretchItemSize : vec2
  startCrop : obs_sceneitem_crop
  startItemPos : vec2
  cropSize : vec2
  itemToScreen : matrix4
  screenToItem : matrix4
  invGroupTransform : matrix4
  calls : List Call

/-- What surrounds the dock and does not change with the events: the library
functions, the snapping configuration, the base size of the canvas source and
the result of `IsFixedScaling()`. -/
structure CanvasEnv where
  lib : Libobs
  math : FloatMath
  cfg : BasicWindowConfig
  base_width : Nat
  base_height : Nat
  fixedScaling : Bool

mutual
/-- The item with the given id in an item or below it. -/
def findItem (id : Nat) : SceneItem → Option SceneItem
  | .mk d cs =>
    if d.id = id then some (.mk d cs)
    else if d.is_group then findItem_items id cs else none
/-- The first item with the given id in a list of items or below them. -/
def findItem_items (id : Nat) : List SceneItem → Option SceneItem
  | [] => none
  | c :: cs =>
    match findItem id c with
    | some item => some item
    | none => findItem_items id cs
end

mutual
/-- Applies `f` to the fields of the items with the given id. -/
def updateItem (id : Nat) (f : ItemData → ItemData) : SceneItem → SceneItem
  | .mk d cs =>
    .mk (if d.id = id then f d else d) (if d.is_group then updateItem_items id f cs else cs)
/-- Applies `f` to the fields of the items with the given id in a list. -/
def updateItem_items (id : Nat) (f : ItemData → ItemData) : List SceneItem → List SceneItem
  | [] => []
  | c :: cs => updateItem id f c :: updateItem_items id f cs
end

/-- The item an item pointer refers to; nothing for the null pointer. -/
def itemOfPointer (scene : List SceneItem) (item : Option Nat) : Option SceneItem :=
  item.bind fun id => findItem_items id scene

/-- `obs_sceneitem_select(item, select)`; the null pointer is ignored. -/
def obs_sceneitem_select (item : Option Nat) (select : Bool) (scene : List SceneItem) :
    List SceneItem :=
  match item with
  | none => scene
  | some id => updateItem_items id (fun d => { d with selected := select }) scene

/-- `obs_sceneitem_selected(item)` on a pointer: false for the null pointer. -/
def pointerSelected (scene : List SceneItem) (item : Option Nat) : Bool :=
  match itemOfPointer scene item with
  | none => false
  | some i => obs_sceneitem_selected i

/-- `obs_sceneitem_locked(item)` on a pointer: false for the null pointer. -/
def pointerLocked (scene : List SceneItem) (item : Option Nat) : Bool :=
  match itemOfPointer scene item with
  | none => false
  | some i => obs_sceneitem_locked i

/-- `obs_sceneitem_get_group(scene, item)`: the top-level group the item is a
direct child of; null for the null pointer and for a group. -/
def obs_sceneitem_get_group (scene : List SceneItem) (item : Option Nat) : Option SceneItem :=
  match itemOfPointer scene item with
  | none => none
  | some i =>
    if obs_sceneitem_is_group i then none
    else scene.find? fun g =>
      obs_sceneitem_is_group g && g.children.any fun c => decide (c.data.id = i.data.id)

/-- Runs an operation given on the fields of an item on the item a pointer
refers to; with the null pointer the getters of libobs return without a result
and its setters do nothing, so the scene is left as it is. -/
def updatePointer (scene : List SceneItem) (item : Option Nat) (f : ItemData → ItemData) :
    List SceneItem :=
  match item with
  | none => scene
  | some id => updateItem_items id f scene

/-! ## Handle operations: crop, stretch, rotate -/

def OBS_ALIGN_LEFT : Nat := 1

def OBS_ALIGN_RIGHT : Nat := 2

def OBS_ALIGN_TOP : Nat := 4

def OBS_ALIGN_BOTTOM : Nat := 8

def vec3_add (a b : vec3) : vec3 := ⟨a.x + b.x, a.y + b.y, a.z + b.z⟩

def vec3_sub (a b : vec3) : vec3 := ⟨a.x - b.x, a.y - b.y, a.z - b.z⟩

def vec2_abs (v : vec2) : vec2 := ⟨abs v.x, abs v.y⟩

def vec2_div (a b : vec2) : vec2 := ⟨a.x / b.x, a.y / b.y⟩

/-- `maxfunc`. -/
def maxfunc (x y : ℚ) : ℚ := if x > y then x else y

/-- `minfunc`. -/
def minfunc (x y : ℚ) : ℚ := if x < y then x else y

/-- The conversion `int(std::round(q))`: `std::round` rounds halves away from
zero, and the result is converted to the 32 bit type `int`. -/
def roundToInt (q : ℚ) : Int :=
  float_to_int (if 0 ≤ q then ⌊q + 1 / 2⌋ else ⌈q - 1 / 2⌉)

/-- The expression `float(width - a - b)` with `width` a `uint32_t` and `a`, `b`
of type `int`: the subtraction is done modulo `2^32`. -/
def uint32_minus (width : Nat) (a b : Int) : ℚ :=
  ((((width : Int) - a - b) % 2 ^ 32 : Int) : ℚ)

/-- `GetItemSize` on the fields of an item. -/
def GetItemSize (item : ItemData) : vec2 :=
  if item.bounds_type ≠ .OBS_BOUNDS_NONE then item.bounds
  else
    ⟨uint32_minus item.source_width item.crop.left item.crop.right * item.scale.x,
     uint32_minus item.source_height item.crop.top item.crop.bottom * item.scale.y⟩

/-- The locals `tl.x`, `br.x`, `pos3.x`, `tl.y`, `br.y`, `pos3.y` of `CropItem`
once the pointer has been clamped. -/
structure CropEdges where
  tl_x : ℚ
  br_x : ℚ
  pos3_x : ℚ
  tl_y : ℚ
  br_y : ℚ
  pos3_y : ℚ

/-- The first part of `CanvasDock::CropItem`, up to the clamping of the
pointer against the crop of the opposite side and the 2 pixel minimum. -/
def CropItem_clamp (dock : CanvasDock) (pos : vec2) (item : ItemData) : CropEdges :=
  let stretchFlags := dock.stretchHandle.flags
  let pos3 := vec3_transform (vec3_set pos.x pos.y 0) dock.screenToItem
  let crop := dock.startCrop
  let scale := item.scale
  let max_tl : vec2 :=
    ⟨(wrap_int (-crop.left) : ℚ) * scale.x, (wrap_int (-crop.top) : ℚ) * scale.y⟩
  let max_br : vec2 :=
    ⟨dock.stretchItemSize.x + (crop.right : ℚ) * scale.x,
     dock.stretchItemSize.y + (crop.bottom : ℚ) * scale.y⟩
  let min_x := if scale.x < 0 then maxfunc else minfunc
  let min_y := if scale.y < 0 then maxfunc else minfunc
  let max_x := if scale.x < 0 then minfunc else maxfunc
  let max_y := if scale.y < 0 then minfunc else maxfunc
  let pos3_x := min_x pos3.x max_br.x
  let pos3_x := max_x pos3_x max_tl.x
  let pos3_y := min_y pos3.y max_br.y
  let pos3_y := max_y pos3_y max_tl.y
  let tl_x : ℚ :=
    if hasFlag stretchFlags ITEM_LEFT then min_x pos3_x (dock.stretchItemSize.x - 2 * scale.x)
    else 0
  let br_x : ℚ :=
    if hasFlag stretchFlags ITEM_LEFT then dock.stretchItemSize.x
    else if hasFlag stretchFlags ITEM_RIGHT then max_x pos3_x (2 * scale.x)
    else dock.stretchItemSize.x
  let pos3_x :=
    if hasFlag stretchFlags ITEM_LEFT then tl_x
    else if hasFlag stretchFlags ITEM_RIGHT then br_x else pos3_x
  let tl_y : ℚ :=
    if hasFlag stretchFlags ITEM_TOP then min_y pos3_y (dock.stretchItemSize.y - 2 * scale.y)
    else 0
  let br_y : ℚ :=
    if hasFlag stretchFlags ITEM_TOP then dock.stretchItemSize.y
    else if hasFlag stretchFlags ITEM_BOTTOM then max_y pos3_y (2 * scale.y)
    else dock.stretchItemSize.y
  let pos3_y :=
    if hasFlag stretchFlags ITEM_TOP then tl_y
    else if hasFlag stretchFlags ITEM_BOTTOM then br_y else pos3_y
  ⟨tl_x, br_x, pos3_x, tl_y, br_y, pos3_y⟩

/-- The part of `CanvasDock::CropItem` that computes `newPos`, the position
that keeps the uncropped edges anchored, rounded in screen space. -/
def CropItem_newPos (dock : CanvasDock) (item : ItemData) (e : CropEdges) : vec2 :=
  let stretchFlags := dock.stretchHandle.flags
  let align := item.alignment
  let align_x := align &&& (ITEM_LEFT ||| ITEM_RIGHT)
  let align_y := align &&& (ITEM_TOP ||| ITEM_BOTTOM)
  let newPos_x : ℚ :=
    if align_x = (stretchFlags &&& (ITEM_LEFT ||| ITEM_RIGHT)) ∧ align_x ≠ 0 then e.pos3_x
    else if hasFlag align ITEM_RIGHT then dock.stretchItemSize.x
    else if !hasFlag align ITEM_LEFT then dock.stretchItemSize.x * (1 / 2)
    else 0
  let newPos_y : ℚ :=
    if align_y = (stretchFlags &&& (ITEM_TOP ||| ITEM_BOTTOM)) ∧ align_y ≠ 0 then e.pos3_y
    else if hasFlag align ITEM_BOTTOM then dock.stretchItemSize.y
    else if !hasFlag align ITEM_TOP then dock.stretchItemSize.y * (1 / 2)
    else 0
  let newPos := vec3_transform (vec3_set newPos_x newPos_y 0) dock.itemToScreen
  ⟨roundf newPos.x, roundf newPos.y⟩

/-- The part of `CanvasDock::CropItem` that computes the new crop from the
snapshot `startCrop`. Each `+=` is an addition of the type `int`. -/
def CropItem_crop (dock : CanvasDock) (item : ItemData) (e : CropEdges) : obs_sceneitem_crop :=
  let stretchFlags := dock.stretchHandle.flags
  let scale := item.scale
  let crop := dock.startCrop
  let crop : obs_sceneitem_crop :=
    if hasFlag stretchFlags ITEM_LEFT then
      { crop with left := wrap_int (crop.left + roundToInt (e.tl_x / scale.x)) }
    else if hasFlag stretchFlags ITEM_RIGHT then
      { crop with
        right :=
          wrap_int (crop.right + roundToInt ((dock.stretchItemSize.x - e.br_x) / scale.x)) }
    else crop
  let crop : obs_sceneitem_crop :=
    if hasFlag stretchFlags ITEM_TOP then
      { crop with top := wrap_int (crop.top + roundToInt (e.tl_y / scale.y)) }
    else if hasFlag stretchFlags ITEM_BOTTOM then
      { crop with
        bottom :=
          wrap_int (crop.bottom + roundToInt ((dock.stretchItemSize.y - e.br_y) / scale.y)) }
    else crop
  crop

/-- `CanvasDock::CropItem` on the fields `item` of the drag target: the three
parts above in the order of the source, then the two setters. The crop is the
value handed to `obs_sceneitem_set_crop`; the position is only set for an item
without bounds. -/
def CropItem (dock : CanvasDock) (pos : vec2) (item : ItemData) : ItemData :=
  let boundsType := item.bounds_type
  let e := CropItem_clamp dock pos item
  let newPos := CropItem_newPos dock item e
  let crop := CropItem_crop dock item e
  if boundsType = .OBS_BOUNDS_NONE then { item with crop := crop, pos := newPos }
  else { item with crop := crop }

/-- `CanvasDock::CalculateStretchPos` for the alignment of the drag target. -/
def CalculateStretchPos (alignment : Nat) (tl br : vec3) : vec3 :=
  let pos_x : ℚ :=
    if hasFlag alignment OBS_ALIGN_LEFT then tl.x
    else if hasFlag alignment OBS_ALIGN_RIGHT then br.x
    else (br.x - tl.x) * (1 / 2) + tl.x
  let pos_y : ℚ :=
    if hasFlag alignment OBS_ALIGN_TOP then tl.y
    else if hasFlag alignment OBS_ALIGN_BOTTOM then br.y
    else (br.y - tl.y) * (1 / 2) + tl.y
  ⟨pos_x, pos_y, 0⟩

/-- `CanvasDock::SnapStretchingToScreen`: the new `tl` and `br`. -/
def SnapStretchingToScreen (env : CanvasEnv) (dock : CanvasDock) (tl br : vec3) :
    vec3 × vec3 :=
  let stretchFlags := dock.stretchHandle.flags
  let newTL := GetTransformedPos tl.x tl.y dock.itemToScreen
  let newTR := GetTransformedPos br.x tl.y dock.itemToScreen
  let newBL := GetTransformedPos tl.x br.y dock.itemToScreen
  let newBR := GetTransformedPos br.x br.y dock.itemToScreen
  let boundingTL := vec3_min (vec3_min (vec3_min newTL newTR) newBL) newBR
  let boundingBR := vec3_max (vec3_max (vec3_max newTL newTR) newBL) newBR
  let offset := GetSnapOffset env.lib env.cfg env.base_width env.base_height boundingTL boundingBR
  let offset := vec3_add offset newTL
  let offset := vec3_transform offset dock.screenToItem
  let offset := vec3_sub offset tl
  let tl_x := if hasFlag stretchFlags ITEM_LEFT then tl.x + offset.x else tl.x
  let br_x :=
    if hasFlag stretchFlags ITEM_LEFT then br.x
    else if hasFlag stretchFlags ITEM_RIGHT then br.x + offset.x else br.x
  let tl_y := if hasFlag stretchFlags ITEM_TOP then tl.y + offset.y else tl.y
  let br_y :=
    if hasFlag stretchFlags ITEM_TOP then br.y
    else if hasFlag stretchFlags ITEM_BOTTOM then br.y + offset.y else br.y
  (⟨tl_x, tl_y, tl.z⟩, ⟨br_x, br_y, br.z⟩)

/-- The corners `tl`, `br` that `StretchItem` derives from the pointer before
it computes the size: the dragged edges are put at the pointer position in item
space and, unless the control modifier is held, snapped. -/
def StretchItem_corners (env : CanvasEnv) (dock : CanvasDock) (ctrlDown : Bool) (pos : vec2) :
    vec3 × vec3 :=
  let stretchFlags := dock.stretchHandle.flags
  let pos3 := vec3_transform (vec3_set pos.x pos.y 0) dock.screenToItem
  let tl_x : ℚ := if hasFlag stretchFlags ITEM_LEFT then pos3.x else 0
  let br_x : ℚ :=
    if hasFlag stretchFlags ITEM_LEFT then dock.stretchItemSize.x
    else if hasFlag stretchFlags ITEM_RIGHT then pos3.x else dock.stretchItemSize.x
  let tl_y : ℚ := if hasFlag stretchFlags ITEM_TOP then pos3.y else 0
  let br_y : ℚ :=
    if hasFlag stretchFlags ITEM_TOP then dock.stretchItemSize.y
    else if hasFlag stretchFlags ITEM_BOTTOM then pos3.y else dock.stretchItemSize.y
  if !ctrlDown then SnapStretchingToScreen env dock ⟨tl_x, tl_y, 0⟩ ⟨br_x, br_y, 0⟩
  else (⟨tl_x, tl_y, 0⟩, ⟨br_x, br_y, 0⟩)

/-- `CanvasDock::StretchItem` on the fields `item` of the drag target;
`shiftDown` and `ctrlDown` are the keyboard modifiers. -/
def StretchItem (env : CanvasEnv) (dock : CanvasDock) (shiftDown ctrlDown : Bool) (pos : vec2)
    (item : ItemData) : ItemData :=
  let boundsType := item.bounds_type
  let corners := StretchItem_corners env dock ctrlDown pos
  let tl := corners.1
  let br := corners.2
  let baseSize : vec2 := ⟨(item.source_width : ℚ), (item.source_height : ℚ)⟩
  let size : vec2 := ⟨br.x - tl.x, br.y - tl.y⟩
  if boundsType ≠ .OBS_BOUNDS_NONE then
    let r : ClampResult :=
      if shiftDown then ClampAspect dock.stretchHandle tl br size baseSize else ⟨tl, br, size⟩
    let tl_x := if r.tl.x > r.br.x then r.br.x else r.tl.x
    let br_x := if r.tl.x > r.br.x then r.tl.x else r.br.x
    let tl_y := if r.tl.y > r.br.y then r.br.y else r.tl.y
    let br_y := if r.tl.y > r.br.y then r.tl.y else r.br.y
    let size := vec2_abs r.size
    let pos3 := CalculateStretchPos item.alignment ⟨tl_x, tl_y, r.tl.z⟩ ⟨br_x, br_y, r.br.z⟩
    let pos3 := vec3_transform pos3 dock.itemToScreen
    { item with bounds := size, pos := ⟨roundf pos3.x, roundf pos3.y⟩ }
  else
    let crop := item.crop
    let baseSize : vec2 :=
      ⟨baseSize.x - (wrap_int (crop.left + crop.right) : ℚ),
       baseSize.y - (wrap_int (crop.top + crop.bottom) : ℚ)⟩
    let r : ClampResult :=
      if !shiftDown then ClampAspect dock.stretchHandle tl br size baseSize else ⟨tl, br, size⟩
    let size := vec2_div r.size baseSize
    let pos3 := CalculateStretchPos item.alignment r.tl r.br
    let pos3 := vec3_transform pos3 dock.itemToScreen
    { item with scale := size, pos := ⟨roundf pos3.x, roundf pos3.y⟩ }

/-- `RotatePos`: the rotated vector. -/
def RotatePos (m : FloatMath) (pos : vec2) (rot : ℚ) : vec2 :=
  let cosR := m.cos rot
  let sinR := m.sin rot
  ⟨cosR * pos.x - sinR * pos.y, sinR * pos.x + cosR * pos.y⟩

/-- `CanvasDock::RotateItem` on the fields `item` of the drag target. -/
def RotateItem (m : FloatMath) (dock : CanvasDock) (shiftDown ctrlDown : Bool) (pos : vec2)
    (item : ItemData) : ItemData :=
  let angle :=
    m.atan2 (pos.y - dock.rotatePoint.y) (pos.x - dock.rotatePoint.x) + RAD m 90
  let angle := RotateItem_angle m shiftDown ctrlDown dock.rotateAngle angle
  let pos3 := RotatePos m dock.offsetPoint angle
  let pos3 : vec2 := ⟨pos3.x + dock.rotatePoint.x, pos3.y + dock.rotatePoint.y⟩
  { item with rot := DEG m angle, pos := pos3 }

/-! ## Handle lookup -/

def HANDLE_RADIUS : ℚ := 4

def HANDLE_SEL_RADIUS : ℚ := HANDLE_RADIUS * (3 / 2)

/-- The `param` of `FindHandleAtPos`. -/
structure HandleFindData where
  pos : vec2
  radius : ℚ
  parent_xform : matrix4
  item : Option Nat
  handle : ItemHandle
  angle : ℚ
  rotatePoint : vec2
  offsetPoint : vec2
  angleOffset : ℚ

/-- The square of `vec3_dist`. The source compares distances with the radius
and with each other only, so the squares are compared here; the two agree for
the positive radius `GetStretchHandleData` passes. -/
def vec3_dist_sq (a b : vec3) : ℚ :=
  (a.x - b.x) * (a.x - b.x) + (a.y - b.y) * (a.y - b.y) + (a.z - b.z) * (a.z - b.z)

/-- The lambda `TestHandle` of `FindHandleAtPos` for the item with id `item` and
box transform `transform`; the second component of the state is the square of
the local `closestHandle`. -/
def TestHandle (item : Nat) (transform : matrix4) (x y : ℚ) (handle : ItemHandle)
    (st : HandleFindData × ℚ) : HandleFindData × ℚ :=
  let pos3 := vec3_set st.1.pos.x st.1.pos.y 0
  let handlePos := GetTransformedPos x y transform
  let handlePos := vec3_transform handlePos st.1.parent_xform
  let dist := vec3_dist_sq handlePos pos3
  if dist < st.1.radius * st.1.radius then
    if dist < st.2 then ({ st.1 with handle := handle, item := some item }, dist) else st
  else st

/-- The rotate handle test at the end of `FindHandleAtPos`. -/
def TestRotHandle (m : FloatMath) (item : ItemData) (transform : matrix4)
    (st : HandleFindData × ℚ) : HandleFindData × ℚ :=
  let data := st.1
  let pos3 := vec3_set data.pos.x data.pos.y 0
  let rotHandleOffset : vec2 := ⟨0, HANDLE_RADIUS * data.radius * (3 / 2) - data.radius⟩
  let rotHandleOffset := RotatePos m rotHandleOffset (m.atan2 transform.x.y transform.x.x)
  let rotHandleOffset := RotatePos m rotHandleOffset (RAD m data.angleOffset)
  let handlePos := GetTransformedPos (1 / 2) 0 transform
  let handlePos := vec3_transform handlePos data.parent_xform
  let handlePos : vec3 :=
    ⟨handlePos.x - rotHandleOffset.x, handlePos.y - rotHandleOffset.y, handlePos.z⟩
  let dist := vec3_dist_sq handlePos pos3
  if dist < data.radius * data.radius then
    if dist < st.2 then
      let rotatePoint : vec2 :=
        ⟨transform.t.x + transform.x.x / 2 + transform.y.x / 2,
         transform.t.y + transform.x.y / 2 + transform.y.y / 2⟩
      let offsetPoint : vec2 := ⟨item.pos.x - rotatePoint.x, item.pos.y - rotatePoint.y⟩
      let offsetPoint := RotatePos m offsetPoint (-RAD m item.rot)
      ({ data with
          item := some item.id, angle := item.rot, handle := .Rot,
          rotatePoint := rotatePoint, offsetPoint := offsetPoint }, dist)
    else st
  else st

mutual
/-- `FindHandleAtPos`: an unselected group is searched with its draw transform
as parent transform and the result copied back; a selected item has its eight
resize handles and its rotate handle tested, `closestHandle` starting at the
radius for each item. The callback never stops the enumeration. -/
def FindHandleAtPos (env : CanvasEnv) : SceneItem → HandleFindData → HandleFindData
  | .mk d cs, data =>
    if !d.selected then
      if d.is_group then
        let newData : HandleFindData :=
          { data with
            parent_xform := env.lib.draw_transform (.mk d cs), angleOffset := d.rot }
        let newData := FindHandleAtPos_items env cs newData
        { data with
          item := newData.item, handle := newData.handle, angle := newData.angle,
          rotatePoint := newData.rotatePoint, offsetPoint := newData.offsetPoint }
      else data
    else
      let transform := env.lib.box_transform (.mk d cs)
      let st : HandleFindData × ℚ := (data, data.radius * data.radius)
      let st := TestHandle d.id transform 0 0 .TopLeft st
      let st := TestHandle d.id transform (1 / 2) 0 .TopCenter st
      let st := TestHandle d.id transform 1 0 .TopRight st
      let st := TestHandle d.id transform 0 (1 / 2) .CenterLeft st
      let st := TestHandle d.id transform 1 (1 / 2) .CenterRight st
      let st := TestHandle d.id transform 0 1 .BottomLeft st
      let st := TestHandle d.id transform (1 / 2) 1 .BottomCenter st
      let st := TestHandle d.id transform 1 1 .BottomRight st
      let st := TestRotHandle env.math d transform st
      st.1
/-- The enumeration `FindHandleAtPos` is run under. -/
def FindHandleAtPos_items (env : CanvasEnv) : List SceneItem → HandleFindData → HandleFindData
  | [], data => data
  | c :: cs, data => FindHandleAtPos_items env cs (FindHandleAtPos env c data)
end

/-- `CanvasDock::GetStretchHandleData` on a non-null scene. The device pixel
ratio is 1, as `GetDevicePixelRatio` returns; the two points of
`HandleFindData` the constructor leaves unwritten hold the contents of an
unwritten local. -/
def GetStretchHandleData (env : CanvasEnv) (dock : CanvasDock) (pos : vec2)
    (ignoreGroup : Bool) : CanvasDock :=
  let scale : ℚ := 1
  let scaled_pos : vec2 := ⟨pos.x / scale, pos.y / scale⟩
  let uninit : vec2 := ⟨env.lib.uninit_vec3.x, env.lib.uninit_vec3.y⟩
  let data : HandleFindData :=
    ⟨scaled_pos, HANDLE_SEL_RADIUS / scale, matrix4_identity, none, .None, 0, uninit, uninit, 0⟩
  let data := FindHandleAtPos_items env dock.scene data
  match (if data.handle ≠ .None then itemOfPointer dock.scene data.item else none) with
  | none =>
    { dock with
      stretchItem := data.item, stretchHandle := data.handle, rotateAngle := data.angle,
      rotatePoint := data.rotatePoint, offsetPoint := data.offsetPoint }
  | some item =>
    let boxTransform := env.lib.box_transform item
    let itemRot := item.data.rot
    let itemUL : vec3 := ⟨boxTransform.t.x, boxTransform.t.y, boxTransform.t.z⟩
    let itemToScreen := env.math.matrix4_rotate_aa4f matrix4_identity 0 0 1 (RAD env.math itemRot)
    let itemToScreen := env.math.matrix4_translate3f itemToScreen itemUL.x itemUL.y 0
    let screenToItem := env.math.matrix4_translate3f matrix4_identity (-itemUL.x) (-itemUL.y) 0
    let screenToItem := env.math.matrix4_rotate_aa4f screenToItem 0 0 1 (RAD env.math (-itemRot))
    let startCrop := item.data.crop
    let cropSize : vec2 :=
      ⟨uint32_minus item.data.source_width startCrop.left startCrop.right,
       uint32_minus item.data.source_height startCrop.top startCrop.bottom⟩
    let stretchGroup := obs_sceneitem_get_group dock.scene data.item
    let deferred := decide (stretchGroup.isSome ∧ ignoreGroup = false)
    let invGroupTransform :=
      match stretchGroup with
      | some g =>
        if deferred then
          (env.lib.matrix4_inv (env.lib.draw_transform g)).getD (env.lib.draw_transform g)
        else dock.invGroupTransform
      | none => dock.invGroupTransform
    let calls :=
      match stretchGroup with
      | some g =>
        if deferred then dock.calls ++ [Call.defer_group_resize_begin g.data.id] else dock.calls
      | none => dock.calls
    { dock with
      stretchItem := data.item, stretchHandle := data.handle, rotateAngle := data.angle,
      rotatePoint := data.rotatePoint, offsetPoint := data.offsetPoint,
      stretchItemSize := GetItemSize item.data,
      itemToScreen := itemToScreen, screenToItem := screenToItem,
      startCrop := startCrop, startItemPos := item.data.pos, cropSize := cropSize,
      stretchGroup := stretchGroup.map fun g => g.data.id,
      invGroupTransform := invGroupTransform, calls := calls }

/-! ## Mouse handlers -/

/-- The `param` of `CheckItemSelected`: `SceneFindData` with its member `group`. -/
structure SceneFindGroupData where
  pos : vec2
  item : Option SceneItem
  group : Option SceneItem

mutual
/-- `CheckItemSelected`: a group has its children checked first, with the group
noted in `data->group`, and stops the enumeration when one of them was found;
then the item itself is tested against the point (without the round trip) and,
when it is hit and selected, recorded. -/
def CheckItemSelected (env : CanvasEnv) :
    SceneItem → SceneFindGroupData → SceneFindGroupData × Bool
  | .mk d cs, data =>
    if !d.hasVideo then (data, true)
    else
      let data : SceneFindGroupData :=
        if d.is_group then
          { CheckItemSelected_items env cs { data with group := some (.mk d cs) } with
            group := none }
        else data
      if d.is_group && data.item.isSome then (data, false)
      else
        let pos3 := vec3_set data.pos.x data.pos.y 0
        let transform := env.lib.box_transform (.mk d cs)
        let transform :=
          match data.group with
          | some g => env.math.matrix4_mul transform (env.lib.draw_transform g)
          | none => transform
        let transform := (env.lib.matrix4_inv transform).getD transform
        let transformedPos := vec3_transform pos3 transform
        if decide (transformedPos.x ≥ 0) && decide (transformedPos.x ≤ 1) &&
            decide (transformedPos.y ≥ 0) && decide (transformedPos.y ≤ 1) && d.selected then
          ({ data with item := some (.mk d cs) }, false)
        else (data, true)
/-- The enumeration `CheckItemSelected` is run under, stopping when the
callback answers `false`. -/
def CheckItemSelected_items (env : CanvasEnv) :
    List SceneItem → SceneFindGroupData → SceneFindGroupData
  | [], data => data
  | c :: cs, data =>
    let r := CheckItemSelected env c data
    if r.2 then CheckItemSelected_items env cs r.1 else r.1
end

/-- `CanvasDock::SelectedAtPos` on a non-null scene. -/
def SelectedAtPos (env : CanvasEnv) (scene : List SceneItem) (pos : vec2) : Bool :=
  (CheckItemSelected_items env scene ⟨pos, none, none⟩).item.isSome

/-- The enumeration of `FindSelected`: the selected top-level items. -/
def FindSelected (scene : List SceneItem) : List Nat :=
  (scene.filter obs_sceneitem_selected).map fun item => item.data.id

inductive MouseButton where
  | Left | Right | Other
deriving DecidableEq

/-- What the handlers read from a mouse event and from the keyboard state at
the time of the event: `button()`, whether `buttons()` is the left button
alone, the widget position, the canvas position `GetMouseEventPos` computes
from it, and the modifiers. -/
structure MouseEvent where
  button : MouseButton
  buttonsLeft : Bool
  qtPos : vec2
  pos : vec2
  altDown : Bool
  shiftDown : Bool
  ctrlDown : Bool

/-- `CanvasDock::HandleMousePressEvent`, without its Boolean result. -/
def HandleMousePressEvent (env : CanvasEnv) (dock : CanvasDock) (event : MouseEvent) :
    CanvasDock :=
  if dock.scrollMode && env.fixedScaling && decide (event.button = .Left) then
    { dock with scrollingFrom := event.qtPos }
  else
    let scrollMode := if event.button = .Right then false else dock.scrollMode
    if dock.locked then { dock with scrollMode := scrollMode }
    else if event.button ≠ .Left ∧ event.button ≠ .Right then
      { dock with scrollMode := scrollMode }
    else
      let mouseDown := if event.button = .Left then true else dock.mouseDown
      let cropping := if event.altDown then true else dock.cropping
      let selectedItems : List Nat :=
        if event.altDown || event.shiftDown || event.ctrlDown then FindSelected dock.scene
        else []
      let startPos : vec2 := ⟨roundf event.pos.x, roundf event.pos.y⟩
      { dock with
        scrollMode := scrollMode, mouseDown := mouseDown, cropping := cropping,
        selectedItems := selectedItems, startPos := startPos,
        mouseOverItems := SelectedAtPos env dock.scene startPos,
        lastMoveOffset := vec2_zero, mousePos := startPos, changed := false }

/-- The marquee part of `HandleMouseReleaseEvent`: the retained items are
selected again when a modifier is held, then each marquee item is deselected
(alt), toggled (ctrl) or selected. -/
def resolveSelectionBox (event : MouseEvent) (selectedItems : List Nat)
    (hoveredPreviewItems : List (Option Nat)) (scene : List SceneItem) : List SceneItem :=
  let scene :=
    if event.altDown || event.ctrlDown || event.shiftDown then
      selectedItems.foldl (fun scene item => obs_sceneitem_select (some item) true scene) scene
    else scene
  hoveredPreviewItems.foldl (fun scene item =>
    let select :=
      if event.altDown then false
      else if event.ctrlDown then !pointerSelected scene item
      else true
    obs_sceneitem_select item select scene) scene

/-- `CanvasDock::HandleMouseReleaseEvent`, without its Boolean result; the
context menu of the right button is not modelled and leaves the dock alone. -/
def HandleMouseReleaseEvent (env : CanvasEnv) (dock : CanvasDock) (event : MouseEvent) :
    CanvasDock :=
  if !dock.mouseDown && decide (event.button = .Right) then dock
  else if dock.locked then dock
  else if !dock.mouseDown then dock
  else
    let pos := event.pos
    let scene :=
      if !dock.mouseMoved then ProcessClick env.lib event.ctrlDown dock.scene pos
      else dock.scene
    let scene :=
      if dock.selectionBox then
        resolveSelectionBox event dock.selectedItems dock.hoveredPreviewItems scene
      else scene
    let calls :=
      match dock.stretchGroup with
      | some g => dock.calls ++ [Call.defer_group_resize_end g]
      | none => dock.calls
    let item := GetItemAtPos env.lib scene pos true
    { dock with
      scene := scene, calls := calls, stretchItem := none, stretchGroup := none,
      mouseDown := false, mouseMoved := false, cropping := false, selectionBox := false,
      hoveredPreviewItems := [item.map fun i => i.data.id], selectedItems := [] }

/-- `CanvasDock::HandleMouseLeaveEvent`. -/
def HandleMouseLeaveEvent (dock : CanvasDock) : CanvasDock :=
  if !dock.selectionBox then { dock with hoveredPreviewItems := [] } else dock

/-- The branch of `HandleMouseMoveEvent` for a button held down. -/
def HandleMouseMoveEvent_drag (env : CanvasEnv) (dock : CanvasDock) (event : MouseEvent) :
    CanvasDock :=
  let pos := event.pos
  let click := !dock.mouseMoved && !dock.mouseOverItems && decide (dock.stretchHandle = .None)
  let scene :=
    if click then ProcessClick env.lib event.ctrlDown dock.scene dock.startPos else dock.scene
  let mouseOverItems :=
    if click then SelectedAtPos env scene dock.startPos else dock.mouseOverItems
  let pos : vec2 := ⟨roundf pos.x, roundf pos.y⟩
  if dock.stretchHandle ≠ .None then
    if pointerLocked scene dock.stretchItem then
      { dock with scene := scene, mouseOverItems := mouseOverItems }
    else
      let group := obs_sceneitem_get_group scene dock.stretchItem
      let pos : vec2 :=
        match group with
        | some _ =>
          let group_pos := vec3_transform (vec3_set pos.x pos.y 0) dock.invGroupTransform
          ⟨group_pos.x, group_pos.y⟩
        | none => pos
      if dock.stretchHandle = .Rot then
        { dock with
          scene := updatePointer scene dock.stretchItem
            (RotateItem env.math dock event.shiftDown event.ctrlDown pos),
          calls := dock.calls ++ [Call.RotateItem dock.stretchItem],
          mouseOverItems := mouseOverItems, selectionBox := false,
          mouseMoved := true, mousePos := pos }
      else if dock.cropping then
        { dock with
          scene := updatePointer scene dock.stretchItem (CropItem dock pos),
          calls := dock.calls ++ [Call.CropItem dock.stretchItem],
          mouseOverItems := mouseOverItems, selectionBox := false,
          mouseMoved := true, mousePos := pos }
      else
        { dock with
          scene := updatePointer scene dock.stretchItem
            (StretchItem env dock event.shiftDown event.ctrlDown pos),
          calls := dock.calls ++ [Call.StretchItem dock.stretchItem],
          mouseOverItems := mouseOverItems, selectionBox := false,
          mouseMoved := true, mousePos := pos }
  else if mouseOverItems then
    let moved := MoveItems env.lib env.cfg env.base_width env.base_height event.ctrlDown
      ⟨scene, dock.startPos, dock.lastMoveOffset⟩ pos
    { dock with
      scene := moved.scene, lastMoveOffset := moved.lastMoveOffset,
      mouseOverItems := mouseOverItems, selectionBox := false,
      mouseMoved := true, mousePos := pos }
  else
    let scene := if !dock.mouseMoved then DoSelect env.lib scene dock.startPos else scene
    { dock with
      scene := scene, mouseOverItems := mouseOverItems, selectionBox := true,
      hoveredPreviewItems :=
        (BoxItems env.lib scene dock.startPos pos).map fun i => some i.data.id,
      mouseMoved := true, mousePos := pos }

/-- `CanvasDock::HandleMouseMoveEvent`, without its Boolean result. -/
def HandleMouseMoveEvent (env : CanvasEnv) (dock : CanvasDock) (event : MouseEvent) :
    CanvasDock :=
  let dock := { dock with changed := true }
  if dock.scrollMode && event.buttonsLeft then
    { dock with
      scrollingOffset :=
        ⟨dock.scrollingOffset.x + 1 * (event.qtPos.x - dock.scrollingFrom.x),
         dock.scrollingOffset.y + 1 * (event.qtPos.y - dock.scrollingFrom.y)⟩,
      scrollingFrom := event.qtPos }
  else if dock.locked then dock
  else if dock.mouseDown then HandleMouseMoveEvent_drag env dock event
  else
    let pos := event.pos
    let item := GetItemAtPos env.lib dock.scene pos true
    let dock := { dock with hoveredPreviewItems := [item.map fun i => i.data.id] }
    if !dock.mouseMoved then
      GetStretchHandleData env { dock with mousePos := pos, startPos := pos } pos true
    else dock

/-- The four kinds of events the dock is sent. -/
inductive CanvasEvent where
  | press (event : MouseEvent)
  | move (event : MouseEvent)
  | release (event : MouseEvent)
  | leave

/-- One event handled. -/
def handleEvent (env : CanvasEnv) (dock : CanvasDock) : CanvasEvent → CanvasDock
  | .press event => HandleMousePressEvent env dock event
  | .move event => HandleMouseMoveEvent env dock event
  | .release event => HandleMouseReleaseEvent env dock event
  | .leave => HandleMouseLeaveEvent dock

/-- A sequence of events handled in order. -/
def handleEvents (env : CanvasEnv) (dock : CanvasDock) (events : List CanvasEvent) :
    CanvasDock :=
  events.foldl (handleEvent env) dock

/-! ## Spacing helpers -/

def SPACER_LABEL_MARGIN : ℚ := 6

def vec3_div (a b : vec3) : vec3 := ⟨a.x / b.x, a.y / b.y, a.z / b.z⟩

/-- The conversion `(int)q` of a float: the fraction is dropped, and the
result is converted to the 32 bit type `int`. -/
def truncToInt (q : ℚ) : Int :=
  float_to_int (if 0 ≤ q then ⌊q⌋ else ⌈q⌉)

/-- What `RenderSpacingHelper` obtains from libobs without the repository
defining it. -/
structure SpacingEnv where
  /-- Result of `vec3_dist(v1, v2)`. -/
  vec3_dist : vec3 → vec3 → ℚ
  /-- The member `base_width` that `obs_get_video_info` fills in. -/
  base_width : Nat
  /-- The member `base_height` that `obs_get_video_info` fills in. -/
  base_height : Nat
  /-- Result of `obs_source_get_width(spacerLabel[sourceIndex])`. -/
  label_width : Int → Nat
  /-- Result of `obs_source_get_height(spacerLabel[sourceIndex])`. -/
  label_height : Int → Nat

/-- The three calls at the end of `RenderSpacingHelper`: the end points handed
to `DrawSpacingLine`, the number handed to `SetLabelText`, and the position
handed to `DrawLabel`. -/
structure SpacingHelperCalls where
  line_start : vec3
  line_end : vec3
  px : Int
  labelPos : vec3

/-- `CanvasDock::RenderSpacingHelper`, with the parameter `end` named `endp`:
`none` when the function returns before drawing, else the arguments of the
three drawing calls. The label sources exist, as `DrawSpacingHelpers` creates
them before the call. -/
def RenderSpacingHelper (env : SpacingEnv) (sourceIndex : Int) (start endp viewport : vec3)
    (pixelRatio : ℚ) : Option SpacingHelperCalls :=
  let horizontal := decide (sourceIndex = 2 ∨ sourceIndex = 3)
  if !((horizontal && decide (endp.x ≥ start.x)) ||
      (!horizontal && decide (endp.y ≥ start.y))) then none
  else
    let length := env.vec3_dist start endp
    let px : ℚ :=
      if horizontal then length * (env.base_width : ℚ) else length * (env.base_height : ℚ)
    if px ≤ 0 then none
    else
      let labelSize : vec3 :=
        vec3_div ⟨(env.label_width sourceIndex : ℚ), (env.label_height sourceIndex : ℚ), 1⟩
          viewport
      let labelMargin : vec3 :=
        vec3_div ⟨SPACER_LABEL_MARGIN * pixelRatio, SPACER_LABEL_MARGIN * pixelRatio, 1⟩ viewport
      let labelPos : vec3 :=
        if horizontal then
          ⟨endp.x - (endp.x - start.x) / 2 - labelSize.x / 2,
           endp.y - (labelMargin.y + labelSize.y / 2 + HANDLE_RADIUS / viewport.y), endp.z⟩
        else
          ⟨endp.x + labelMargin.x, endp.y - (endp.y - start.y) / 2 - labelSize.y / 2, endp.z⟩
      some ⟨start, endp, truncToInt px, labelPos⟩

/-! ## Concrete scenes

A small instance of the library and of a scene, on which the definitions above
can be evaluated. -/

/-- A box transform that scales the unit square to `w` by `h` and moves it to
`(px, py)`. -/
def boxAt (px py w h : ℚ) : matrix4 :=
  ⟨⟨w, 0, 0, 0⟩, ⟨0, h, 0, 0⟩, ⟨0, 0, 1, 0⟩, ⟨px, py, 0, 1⟩⟩

/-- Inverse of a matrix whose upper-left block is diagonal, failing when the
scale vanishes. -/
def diagonalInv (m : matrix4) : Option matrix4 :=
  if m.x.x = 0 ∨ m.y.y = 0 then none
  else some ⟨⟨1 / m.x.x, 0, 0, 0⟩, ⟨0, 1 / m.y.y, 0, 0⟩, ⟨0, 0, 1, 0⟩,
    ⟨-m.t.x / m.x.x, -m.t.y / m.y.y, 0, 1⟩⟩

/-- A library instance in which every item is an axis-aligned box of 10 by 10
pixels at its position. -/
def gridLib : Libobs where
  box_transform := fun item => boxAt item.data.pos.x item.data.pos.y 10 10
  draw_transform := fun item => boxAt item.data.pos.x item.data.pos.y 1 1
  matrix4_inv := diagonalInv
  uninit_matrix4 := boxAt 0 0 0 0
  uninit_vec3 := vec3_zero
  EPSILON := 1 / 10000

/-- A plain video item: visible, not a group, unrotated, unscaled and
uncropped, without bounds, aligned top left, with a source of 10 by 10. -/
def plainItem (id : Nat) (locked selected : Bool) (px py : ℚ) : SceneItem :=
  .mk ⟨id, true, locked, true, selected, false, ⟨px, py⟩, 0, ⟨1, 1⟩, ⟨0, 0, 0, 0⟩,
    .OBS_BOUNDS_NONE, ⟨0, 0⟩, 5, 10, 10⟩ []

/-- A row vector times a matrix. -/
def rowTimes (v : vec4) (m : matrix4) : vec4 :=
  ⟨v.x * m.x.x + v.y * m.y.x + v.z * m.z.x + v.w * m.t.x,
   v.x * m.x.y + v.y * m.y.y + v.z * m.z.y + v.w * m.t.y,
   v.x * m.x.z + v.y * m.y.z + v.z * m.z.z + v.w * m.t.z,
   v.x * m.x.w + v.y * m.y.w + v.z * m.z.w + v.w * m.t.w⟩

/-- An instance of the math functions that is exact on unrotated scenes: the
trigonometric results are those at angle zero, a rotation by it leaves a matrix
alone, and the two conversion factors are inverse to each other. -/
def flatMath : FloatMath where
  atan2 := fun _ _ => 0
  cos := fun _ => 1
  sin := fun _ => 0
  RAD_factor := 71 / 4068
  DEG_factor := 4068 / 71
  matrix4_mul := fun m1 m2 => ⟨rowTimes m1.x m2, rowTimes m1.y m2, rowTimes m1.z m2,
    rowTimes m1.t m2⟩
  matrix4_rotate_aa4f := fun m _ _ _ _ => m
  matrix4_translate3f := fun m x y z =>
    { m with t := ⟨m.t.x + x, m.t.y + y, m.t.z + z, m.t.w⟩ }

/-- A dock over a scene with no interaction in progress: no button down, no
handle, no drag target, empty lists, item space equal to screen space. -/
def idleDock (scene : List SceneItem) : CanvasDock where
  scene := scene
  locked := false
  scrollMode := false
  mouseDown := false
  mouseMoved := false
  mouseOverItems := false
  cropping := false
  selectionBox := false
  changed := false
  stretchHandle := .None
  stretchItem := none
  stretchGroup := none
  selectedItems := []
  hoveredPreviewItems := []
  startPos := vec2_zero
  mousePos := vec2_zero
  lastMoveOffset := vec2_zero
  scrollingFrom := vec2_zero
  scrollingOffset := vec2_zero
  rotateAngle := 0
  rotatePoint := vec2_zero
  offsetPoint := vec2_zero
  stretchItemSize := vec2_zero
  startCrop := ⟨0, 0, 0, 0⟩
  startItemPos := vec2_zero
  cropSize := vec2_zero
  itemToScreen := matrix4_identity
  screenToItem := matrix4_identity
  invGroupTransform := matrix4_identity
  calls := []

/-- The fields of an item of 100 by 100 source pixels at the origin,
unrotated, unscaled and uncropped, aligned top left, with the given bounds. -/
def squareItem (bounds_type : obs_bounds_type) (bounds : vec2) : ItemData :=
  ⟨1, true, false, true, true, false, ⟨0, 0⟩, 0, ⟨1, 1⟩, ⟨0, 0, 0, 0⟩, bounds_type, bounds,
    5, 100, 100⟩

/-- The dock as `GetStretchHandleData` leaves it for a handle of an unrotated
item at the origin: the size and crop of the item recorded, item space equal
to screen space. -/
def dragDock (handle : ItemHandle) (item : ItemData) : CanvasDock :=
  { idleDock [.mk item []] with
    stretchHandle := handle, stretchItem := some item.id,
    stretchItemSize := GetItemSize item, startCrop := item.crop, startItemPos := item.pos }

/-- A surrounding with the flat math functions, a canvas of 1920 by 1080 and
all snapping enabled. -/
def gridEnv : CanvasEnv := ⟨gridLib, flatMath, ⟨true, true, true, true, 10⟩, 1920, 1080, false⟩

/-- The fields `d` with the selected flag set to `select` when the id is the
one given. -/
def selectData (id : Nat) (select : Bool) (d : ItemData) : ItemData :=
  if d.id = id then { d with selected := select } else d

/-- A mouse event of the left button at `pos`, the same in widget and canvas
coordinates, with the given modifiers; `held` tells whether the button is
down. -/
def leftEvent (held : Bool) (pos : vec2) (altDown shiftDown ctrlDown : Bool) : MouseEvent :=
  ⟨.Left, held, pos, pos, altDown, shiftDown, ctrlDown⟩

/-- The `HandleFindData` that `GetStretchHandleData` starts its search for
`pos` with. -/
def handleSearch (env : CanvasEnv) (pos : vec2) : HandleFindData :=
  ⟨⟨pos.x / 1, pos.y / 1⟩, HANDLE_SEL_RADIUS / 1, matrix4_identity, none, .None, 0,
    ⟨env.lib.uninit_vec3.x, env.lib.uninit_vec3.y⟩,
    ⟨env.lib.uninit_vec3.x, env.lib.uninit_vec3.y⟩, 0⟩

/-- Four events at the top left corner of an item: the pointer hovers onto the
corner, the left button is pressed and released, and pressed again. -/
def clickThenPress : List CanvasEvent :=
  [.move (leftEvent false ⟨0, 0⟩ false false false),
   .press (leftEvent true ⟨0, 0⟩ false false false),
   .release (leftEvent false ⟨0, 0⟩ false false false),
   .press (leftEvent true ⟨0, 0⟩ false false false)]

/-- The distance `RenderSpacingHelper` measures for a side: along x for the
sides 2 and 3 (left and right), along y for the others (top and bottom). -/
def measuredDistance (sourceIndex : Int) (start endp : vec3) : ℚ :=
  if sourceIndex = 2 ∨ sourceIndex = 3 then endp.x - start.x else endp.y - start.y

/-- The base extent that turns the measured distance into pixels. -/
def measuredExtent (env : SpacingEnv) (sourceIndex : Int) : Nat :=
  if sourceIndex = 2 ∨ sourceIndex = 3 then env.base_width else env.base_height

/-- An instance of the libobs results for the spacing helpers that is exact on
the end points `DrawSpacingHelpers` passes, which differ in one coordinate
only: the distance is the sum of the coordinate distances. The base size is
1920 by 1080 and the labels are 40 by 20. -/
def axisSpacing : SpacingEnv where
  vec3_dist := fun a b => abs (a.x - b.x) + abs (a.y - b.y) + abs (a.z - b.z)
  base_width := 1920
  base_height := 1080
  label_width := fun _ => 40
  label_height := fun _ => 20

/-- The items of a scene that `FindItemAtPos` records for `pos`, in
enumeration order (back to front). -/
def hitItems (lib : Libobs) (pos : vec2) (scene : List SceneItem) : List SceneItem :=
  scene.filter (isHit lib pos)

/-- The candidates of the fine mode, in the order the loop of the source tries
them: `i * 15 - 90` for `i` from 0 to 24. -/
def fineRotations : List ℚ := (List.range (360 / 15 + 1)).map fun (i : ℕ) => (i : ℚ) * 15 - 90

/-- The side of the line through `(x1, y1)` and `(x2, y2)` that the point
`(x, y)` lies on: positive on one side, negative on the other, zero when the
three points are collinear. -/
def sideOfLine (x1 y1 x2 y2 x y : ℚ) : ℚ :=
  (y - y1) * (x2 - x1) - (y2 - y1) * (x - x1)

/-- The segments `P1 P2` and `P3 P4` cross: `P3` and `P4` lie strictly on
opposite sides of the line `P1 P2`, and `P1` and `P2` strictly on opposite
sides of the line `P3 P4`. -/
def segmentsCross (x1 x2 x3 x4 y1 y2 y3 y4 : ℚ) : Prop :=
  sideOfLine x1 y1 x2 y2 x3 y3 * sideOfLine x1 y1 x2 y2 x4 y4 < 0 ∧
  sideOfLine x3 y3 x4 y4 x1 y1 * sideOfLine x3 y3 x4 y4 x2 y2 < 0

/-- The angle `RotateItem` applies, in radians: the value of its local `angle`
after the snapping block. -/
def RotateItem_applied (m : FloatMath) (dock : CanvasDock) (shiftDown ctrlDown : Bool)
    (pos : vec2) : ℚ :=
  RotateItem_angle m shiftDown ctrlDown dock.rotateAngle
    (m.atan2 (pos.y - dock.rotatePoint.y) (pos.x - dock.rotatePoint.x) + RAD m 90)

/-- The square of the distance of two points. -/
def vec2_dist_sq (a b : vec2) : ℚ :=
  (a.x - b.x) * (a.x - b.x) + (a.y - b.y) * (a.y - b.y)

/-- The rotation about the z axis by the angle with cosine `c` and sine `s`, as
a matrix acting on row vectors. -/
def zRotation (c s : ℚ) : matrix4 :=
  ⟨⟨c, s, 0, 0⟩, ⟨-s, c, 0, 0⟩, ⟨0, 0, 1, 0⟩, ⟨0, 0, 0, 1⟩⟩

/-- The cosine of a whole number of quarter turns; an angle in between counts
as the quarter turn below it. -/
def quarterCos (q : ℚ) : ℚ :=
  if ⌊q⌋ % 4 = 0 then 1 else if ⌊q⌋ % 4 = 2 then -1 else 0

/-- The sine of a whole number of quarter turns; an angle in between counts as
the quarter turn below it. -/
def quarterSin (q : ℚ) : ℚ :=
  if ⌊q⌋ % 4 = 1 then 1 else if ⌊q⌋ % 4 = 3 then -1 else 0

/-- An instance of the math functions that measures angles in quarter turns
(one degree is 1/90 of the unit) and is exact on whole quarter turns and on
directions along the axes. -/
def quarterMath : FloatMath where
  atan2 := fun y x =>
    if y = 0 then (if x < 0 then 2 else 0) else if x = 0 then (if y < 0 then -1 else 1) else 0
  cos := quarterCos
  sin := quarterSin
  RAD_factor := 1 / 90
  DEG_factor := 90
  matrix4_mul := flatMath.matrix4_mul
  matrix4_rotate_aa4f := fun mt _ _ _ rot =>
    flatMath.matrix4_mul mt (zRotation (quarterCos rot) (quarterSin rot))
  matrix4_translate3f := flatMath.matrix4_translate3f

/-- An unselected, unlocked group at the origin with the given children. -/
def groupItem (id : Nat) (children : List SceneItem) : SceneItem :=
  .mk ⟨id, true, false, true, false, true, ⟨0, 0⟩, 0, ⟨1, 1⟩, ⟨0, 0, 0, 0⟩,
    .OBS_BOUNDS_NONE, ⟨0, 0⟩, 5, 10, 10⟩ children

/-- Three events at the top left corner of an item: the pointer hovers onto the
corner, the left button is pressed and released. -/
def hoverThenClick : List CanvasEvent :=
  [.move (leftEvent false ⟨0, 0⟩ false false false),
   .press (leftEvent true ⟨0, 0⟩ false false false),
   .release (leftEvent false ⟨0, 0⟩ false false false)]

/-- The number of `obs_sceneitem_defer_group_resize_begin` calls for `group`
in a record of calls. -/
def beginCount (group : Nat) (calls : List Call) : Nat :=
  calls.count (Call.defer_group_resize_begin group)

/-- The number of `obs_sceneitem_defer_group_resize_end` calls for `group` in a
record of calls. -/
def endCount (group : Nat) (calls : List Call) : Nat :=
  calls.count (Call.defer_group_resize_end group)

/-- The square of the distance from the pointer to the resize handle at
`(x, y)` of the unit square of an item with box transform `transform`, as
`FindHandleAtPos` places it on the screen. -/
def handleDist (transform : matrix4) (x y : ℚ) (data : HandleFindData) : ℚ :=
  vec3_dist_sq (vec3_transform (GetTransformedPos x y transform) data.parent_xform)
    (vec3_set data.pos.x data.pos.y 0)

/-- The square of the distance from the pointer to the rotate handle of an item
with box transform `transform`, as `FindHandleAtPos` places it on the screen. -/
def rotHandleDist (m : FloatMath) (transform : matrix4) (data : HandleFindData) : ℚ :=
  let rotHandleOffset : vec2 := ⟨0, HANDLE_RADIUS * data.radius * (3 / 2) - data.radius⟩
  let rotHandleOffset := RotatePos m rotHandleOffset (m.atan2 transform.x.y transform.x.x)
  let rotHandleOffset := RotatePos m rotHandleOffset (RAD m data.angleOffset)
  let handlePos := GetTransformedPos (1 / 2) 0 transform
  let handlePos := vec3_transform handlePos data.parent_xform
  let handlePos : vec3 :=
    ⟨handlePos.x - rotHandleOffset.x, handlePos.y - rotHandleOffset.y, handlePos.z⟩
  vec3_dist_sq handlePos (vec3_set data.pos.x data.pos.y 0)

/-- The nine handles of an item with the squares of their distances from the
pointer, in the order `FindHandleAtPos` tests them. -/
def handleDistances (env : CanvasEnv) (item : SceneItem) (data : HandleFindData) :
    List (ItemHandle × ℚ) :=
  [(.TopLeft, handleDist (env.lib.box_transform item) 0 0 data),
   (.TopCenter, handleDist (env.lib.box_transform item) (1 / 2) 0 data),
   (.TopRight, handleDist (env.lib.box_transform item) 1 0 data),
   (.CenterLeft, handleDist (env.lib.box_transform item) 0 (1 / 2) data),
   (.CenterRight, handleDist (env.lib.box_transform item) 1 (1 / 2) data),
   (.BottomLeft, handleDist (env.lib.box_transform item) 0 1 data),
   (.BottomCenter, handleDist (env.lib.box_transform item) (1 / 2) 1 data),
   (.BottomRight, handleDist (env.lib.box_transform item) 1 1 data),
   (.Rot, rotHandleDist env.math (env.lib.box_transform item) data)]

/-- One comparison of the search for the closest handle: the candidate `c`
replaces the handle found so far when it is strictly closer. -/
def closer (acc : Option ItemHandle × ℚ) (c : ItemHandle × ℚ) : Option ItemHandle × ℚ :=
  if c.2 < acc.2 then (some c.1, c.2) else acc

/-- The state of the handle tests of one item follows the search for the
closest handle: the same distance bound, the search context of `data`, and
either `data` untouched or the handle found with the item `id`. -/
def tracks (data : HandleFindData) (id : Nat) (st : HandleFindData × ℚ)
    (acc : Option ItemHandle × ℚ) : Prop :=
  st.2 = acc.2 ∧ st.2 ≤ data.radius * data.radius ∧ st.1.pos = data.pos ∧
    st.1.radius = data.radius ∧ st.1.parent_xform = data.parent_xform ∧
    st.1.angleOffset = data.angleOffset ∧
    (acc.1 = none → st.1 = data) ∧
    (∀ h, acc.1 = some h → st.1.handle = h ∧ st.1.item = some id)

mutual
/-- The selected items `FindHandleAtPos` tests the handles of, in the order it
comes to them, each with the parent transform and the angle offset in force:
those of `data` on the level of the enumeration, the draw transform and the
rotation of the group for the children of an unselected group. -/
def handleVisits (env : CanvasEnv) :
    SceneItem → matrix4 → ℚ → List (SceneItem × matrix4 × ℚ)
  | .mk d cs, parent_xform, angleOffset =>
    if !d.selected then
      if d.is_group then handleVisits_items env cs (env.lib.draw_transform (.mk d cs)) d.rot
      else []
    else [(.mk d cs, parent_xform, angleOffset)]
/-- The selected items tested over a list of items. -/
def handleVisits_items (env : CanvasEnv) :
    List SceneItem → matrix4 → ℚ → List (SceneItem × matrix4 × ℚ)
  | [], _, _ => []
  | c :: cs, parent_xform, angleOffset =>
    handleVisits env c parent_xform angleOffset ++
      handleVisits_items env cs parent_xform angleOffset
end

/-- The search data with the parent transform and angle offset of a visit. -/
def visitData (data : HandleFindData) (v : SceneItem × matrix4 × ℚ) : HandleFindData :=
  { data with parent_xform := v.2.1, angleOffset := v.2.2 }

/-- The handle tests of one visited item: what they find is copied into the
search data. -/
def visitStep (env : CanvasEnv) (data : HandleFindData) (v : SceneItem × matrix4 × ℚ) :
    HandleFindData :=
  { data with
    item := (FindHandleAtPos env v.1 (visitData data v)).item,
    handle := (FindHandleAtPos env v.1 (visitData data v)).handle,
    angle := (FindHandleAtPos env v.1 (visitData data v)).angle,
    rotatePoint := (FindHandleAtPos env v.1 (visitData data v)).rotatePoint,
    offsetPoint := (FindHandleAtPos env v.1 (visitData data v)).offsetPoint }

/-- A visited item has a handle strictly within the radius of the pointer. -/
def handleInRange (env : CanvasEnv) (data : HandleFindData) (v : SceneItem × matrix4 × ℚ) :
    Prop :=
  ∃ c ∈ handleDistances env v.1 (visitData data v), c.2 < data.radius * data.radius

/-- Two selected items of 10 by 10 side by side, the second one 3 pixels to the
right of the first and above it in the enumeration order. -/
def overlappingPair : List SceneItem :=
  [plainItem 1 false true 0 0, plainItem 2 false true 3 0]

/-- Relation between an item before and after a move: the lock flag is kept,
and a locked item is left as it was, children included. -/
def lockedUntouched (old new : SceneItem) : Prop :=
  obs_sceneitem_locked new = obs_sceneitem_locked old ∧
    (obs_sceneitem_locked old = true → new = old)

/-- The data of an item after a move by `offset`, as far as `move_items`
touches the item itself: only a selected, unlocked item changes, by having the
offset added to its position. -/
def movedData (offset : vec2) (d : ItemData) : ItemData :=
  if d.selected && !d.locked then { d with pos := vec2_add d.pos offset } else d

/-- The three steps `GetSnapOffset` takes on one axis, for a canvas extent
`screen` and the box edges `tlv` and `brv` on that axis: near edge, far edge
if the offset is still below `EPSILON`, then centre. -/
def snapAxis (lib : Libobs) (cfg : BasicWindowConfig) (screen tlv brv : ℚ) : ℚ :=
  let o := if cfg.ScreenSnapping && decide (abs tlv < cfg.SnapDistance) then -tlv else 0
  let o :=
    if cfg.ScreenSnapping && decide (abs o < lib.EPSILON) &&
        decide (abs (screen - brv) < cfg.SnapDistance) then screen - brv else o
  if cfg.CenterSnapping && decide (abs (screen - (brv - tlv)) > cfg.SnapDistance) &&
      decide (abs (screen / 2 - (brv - (brv - tlv) / 2)) < cfg.SnapDistance) then
    screen / 2 - (brv - (brv - tlv) / 2)
  else o

/-! ## Lemmas on selection -/

mutual
theorem select_one_selected (sel : Option Nat) :
    ∀ (item : SceneItem), ∀ x ∈ sceneItemsOf (select_one sel item),
      (x.data.selected = true ↔ sel = some x.data.id)
  | .mk d cs => by
    intro x hx
    cases hg : d.is_group
    · simp [select_one, sceneItemsOf, hg] at hx
      subst hx
      simp [SceneItem.data]
    · simp only [select_one, sceneItemsOf, hg, if_true, List.mem_cons] at hx
      rcases hx with hx | hx
      · subst hx
        simp [SceneItem.data]
      · exact select_one_items_selected sel cs x hx
theorem select_one_items_selected (sel : Option Nat) :
    ∀ (items : List SceneItem), ∀ x ∈ allSceneItems (select_one_items sel items),
      (x.data.selected = true ↔ sel = some x.data.id)
  | [] => by
    intro x hx
    simp [select_one_items, allSceneItems] at hx
  | c :: cs => by
    intro x hx
    simp only [select_one_items, allSceneItems, List.mem_append] at hx
    rcases hx with hx | hx
    · exact select_one_selected sel c x hx
    · exact select_one_items_selected sel cs x hx
end

mutual
theorem select_one_frame (sel : Option Nat) :
    ∀ (item : SceneItem),
      (sceneItemsOf (select_one sel item)).map withoutSelection =
        (sceneItemsOf item).map withoutSelection
  | .mk d cs => by
    cases hg : d.is_group
    · simp [select_one, sceneItemsOf, hg, withoutSelection, SceneItem.data]
    · simp only [select_one, sceneItemsOf, hg, if_true, List.map_cons]
      rw [select_one_items_frame sel cs]
      simp [withoutSelection, SceneItem.data, hg]
theorem select_one_items_frame (sel : Option Nat) :
    ∀ (items : List SceneItem),
      (allSceneItems (select_one_items sel items)).map withoutSelection =
        (allSceneItems items).map withoutSelection
  | [] => by simp [select_one_items, allSceneItems]
  | c :: cs => by
    simp only [select_one_items, allSceneItems, List.map_append]
    rw [select_one_frame sel c, select_one_items_frame sel cs]
end

/-! ## Lemmas on `GetItemAtPos` -/

theorem FindItemAtPos_not_hit (lib : Libobs) (item : SceneItem) (data : SceneFindData)
    (h : isHit lib data.pos item = false) : FindItemAtPos lib item data = (data, true) := by
  unfold FindItemAtPos
  unfold isHit at h
  cases hv : SceneItemHasVideo item <;> cases hl : obs_sceneitem_locked item <;>
    cases hp : pointInItem lib item data.pos <;> simp_all

theorem FindItemAtPos_hit_plain (lib : Libobs) (item : SceneItem) (data : SceneFindData)
    (h : isHit lib data.pos item = true)
    (hs : (data.selectBelow && obs_sceneitem_selected item) = false) :
    FindItemAtPos lib item data = ({ data with item := some item }, true) := by
  unfold FindItemAtPos
  unfold isHit at h
  cases hv : SceneItemHasVideo item <;> cases hl : obs_sceneitem_locked item <;>
    cases hp : pointInItem lib item data.pos <;> simp_all

/-- As long as no hit item triggers the select-below branch, the enumeration
runs to the end and keeps the last hit (or the initial item). -/
theorem enum_FindItemAtPos_plain (lib : Libobs) (pos : vec2) (sb : Bool) :
    ∀ (l : List SceneItem) (i0 : Option SceneItem),
      (∀ x ∈ l, isHit lib pos x = true → (sb && obs_sceneitem_selected x) = false) →
      obs_scene_enum_items (FindItemAtPos lib) l ⟨pos, i0, sb⟩ =
        ⟨pos, (i0.toList ++ l.filter (isHit lib pos)).getLast?, sb⟩
  | [], i0, _ => by
    cases i0 <;> simp [obs_scene_enum_items]
  | a :: l, i0, h => by
    have hl : ∀ x ∈ l, isHit lib pos x = true → (sb && obs_sceneitem_selected x) = false :=
      fun x hx => h x (List.mem_cons_of_mem _ hx)
    cases ha : isHit lib pos a
    · have hstep := FindItemAtPos_not_hit lib a ⟨pos, i0, sb⟩ ha
      simp only [obs_scene_enum_items, hstep, if_true]
      rw [enum_FindItemAtPos_plain lib pos sb l i0 hl]
      simp [List.filter_cons, ha]
    · have hstep := FindItemAtPos_hit_plain lib a ⟨pos, i0, sb⟩ ha
        (h a (List.mem_cons_self _ _) ha)
      simp only [obs_scene_enum_items, hstep, if_true]
      rw [enum_FindItemAtPos_plain lib pos sb l (some a) hl]
      simp only [List.filter_cons, ha, if_true, Option.toList, List.singleton_append]
      rw [List.getLast?_append_cons]

/-- Whatever the select-below mode, the enumeration keeps the position and
ends with the initial item or with a hit item of the list. -/
theorem enum_FindItemAtPos_item (lib : Libobs) :
    ∀ (l : List SceneItem) (data : SceneFindData),
      (obs_scene_enum_items (FindItemAtPos lib) l data).pos = data.pos ∧
      ((obs_scene_enum_items (FindItemAtPos lib) l data).item = data.item ∨
        ∃ x ∈ l, isHit lib data.pos x = true ∧
          (obs_scene_enum_items (FindItemAtPos lib) l data).item = some x)
  | [], data => by simp [obs_scene_enum_items]
  | a :: l, data => by
    cases ha : isHit lib data.pos a
    · have hstep := FindItemAtPos_not_hit lib a data ha
      simp only [obs_scene_enum_items, hstep, if_true]
      obtain ⟨h1, h2⟩ := enum_FindItemAtPos_item lib l data
      refine ⟨h1, ?_⟩
      rcases h2 with h2 | ⟨x, hx, hhit, h2⟩
      · exact Or.inl h2
      · exact Or.inr ⟨x, List.mem_cons_of_mem _ hx, hhit, h2⟩
    · cases hs : (data.selectBelow && obs_sceneitem_selected a)
      · have hstep := FindItemAtPos_hit_plain lib a data ha hs
        simp only [obs_scene_enum_items, hstep, if_true]
        obtain ⟨h1, h2⟩ := enum_FindItemAtPos_item lib l { data with item := some a }
        refine ⟨h1, Or.inr ?_⟩
        rcases h2 with h2 | ⟨x, hx, hhit, h2⟩
        · exact ⟨a, List.mem_cons_self _ _, ha, h2⟩
        · exact ⟨x, List.mem_cons_of_mem _ hx, hhit, h2⟩
      · have hv : SceneItemHasVideo a = true := by
          unfold isHit at ha; simp only [Bool.and_eq_true] at ha; exact ha.1.1
        have hl : obs_sceneitem_locked a = false := by
          unfold isHit at ha; simp only [Bool.and_eq_true] at ha; simpa using ha.1.2
        have hp : pointInItem lib a data.pos = true := by
          unfold isHit at ha; simp only [Bool.and_eq_true] at ha; exact ha.2
        cases hi : data.item.isSome
        · have hstep : FindItemAtPos lib a data =
              ({ data with selectBelow := false, item := some a }, true) := by
            unfold FindItemAtPos; simp [hv, hl, hp, hs, hi]
          simp only [obs_scene_enum_items, hstep, if_true]
          obtain ⟨h1, h2⟩ := enum_FindItemAtPos_item lib l
            { data with selectBelow := false, item := some a }
          refine ⟨h1, Or.inr ?_⟩
          rcases h2 with h2 | ⟨x, hx, hhit, h2⟩
          · exact ⟨a, List.mem_cons_self _ _, ha, h2⟩
          · exact ⟨x, List.mem_cons_of_mem _ hx, hhit, h2⟩
        · have hstep : FindItemAtPos lib a data = (data, false) := by
            unfold FindItemAtPos; simp [hv, hl, hp, hs, hi]
          simp [obs_scene_enum_items, hstep]

/-- The item `GetItemAtPos` returns, if any, is a hit item of the scene. -/
theorem GetItemAtPos_isHit (lib : Libobs) (scene : List SceneItem) (pos : vec2)
    (selectBelow : Bool) (item : SceneItem)
    (h : GetItemAtPos lib scene pos selectBelow = some item) :
    item ∈ scene ∧ isHit lib pos item = true := by
  unfold GetItemAtPos at h
  obtain ⟨-, h2⟩ := enum_FindItemAtPos_item lib scene ⟨pos, none, selectBelow⟩
  rcases h2 with h2 | ⟨x, hx, hhit, h2⟩
  · rw [h] at h2; simp at h2
  · rw [h] at h2
    have hxe : item = x := by simpa using h2
    subst hxe
    exact ⟨hx, hhit⟩

/-- With no hit item in the scene `GetItemAtPos` returns no item. -/
theorem GetItemAtPos_none_of_no_hit (lib : Libobs) (scene : List SceneItem) (pos : vec2)
    (selectBelow : Bool) (h : ∀ B ∈ scene, isHit lib pos B = false) :
    GetItemAtPos lib scene pos selectBelow = none := by
  cases hg : GetItemAtPos lib scene pos selectBelow with
  | none => rfl
  | some item =>
    obtain ⟨hm, hh⟩ := GetItemAtPos_isHit lib scene pos selectBelow item hg
    rw [h item hm] at hh
    exact absurd hh (by simp)

/-- When the unselected item `A` is the only hit item, `GetItemAtPos` returns it
in both modes. -/
theorem GetItemAtPos_single_hit (lib : Libobs) (scene : List SceneItem) (pos : vec2)
    (selectBelow : Bool) (A : SceneItem) (hA : A ∈ scene) (hhit : isHit lib pos A = true)
    (hsel : obs_sceneitem_selected A = false)
    (honly : ∀ B ∈ scene, isHit lib pos B = true → B = A) :
    GetItemAtPos lib scene pos selectBelow = some A := by
  unfold GetItemAtPos
  rw [enum_FindItemAtPos_plain lib pos selectBelow scene none]
  · simp only [Option.toList, List.nil_append]
    cases hl : (List.filter (isHit lib pos) scene).getLast? with
    | none =>
      rw [List.getLast?_eq_none_iff, List.filter_eq_nil_iff] at hl
      exact absurd hhit (hl A hA)
    | some y =>
      have hy : y ∈ List.filter (isHit lib pos) scene := List.mem_of_mem_getLast? hl
      rw [List.mem_filter] at hy
      rw [honly y hy.1 hy.2]
  · intro x hx hxh
    rw [honly x hx hxh, hsel]
    simp

/-- `FindItemsInBox` either leaves the list alone or appends the item, and
only appends an unlocked, visible item. -/
theorem FindItemsInBox_step (lib : Libobs) (item : SceneItem) (data : SceneFindBoxData) :
    (FindItemsInBox lib item data).2 = true ∧
    ((FindItemsInBox lib item data).1 = data ∨
      ((FindItemsInBox lib item data).1 = { data with sceneItems := data.sceneItems ++ [item] } ∧
        obs_sceneitem_locked item = false ∧ obs_sceneitem_visible item = true)) := by
  unfold FindItemsInBox
  cases hv : SceneItemHasVideo item <;> cases hl : obs_sceneitem_locked item <;>
    cases hs : obs_sceneitem_visible item <;>
    cases ht : itemTouchesBox lib item data.startPos data.pos <;> simp

/-- Every item the marquee enumeration adds is unlocked and visible. -/
theorem enum_FindItemsInBox_excludes (lib : Libobs) :
    ∀ (l : List SceneItem) (data : SceneFindBoxData),
      (∀ x ∈ data.sceneItems,
        obs_sceneitem_locked x = false ∧ obs_sceneitem_visible x = true) →
      ∀ x ∈ (obs_scene_enum_items (FindItemsInBox lib) l data).sceneItems,
        obs_sceneitem_locked x = false ∧ obs_sceneitem_visible x = true
  | [], data, h => by simpa [obs_scene_enum_items] using h
  | a :: l, data, h => by
    obtain ⟨hc, hstep⟩ := FindItemsInBox_step lib a data
    simp only [obs_scene_enum_items, hc, if_true]
    apply enum_FindItemsInBox_excludes lib l
    rcases hstep with hstep | ⟨hstep, hl, hv⟩
    · rw [hstep]; exact h
    · rw [hstep]
      intro x hx
      simp only [List.mem_append, List.mem_singleton] at hx
      rcases hx with hx | hx
      · exact h x hx
      · rw [hx]; exact ⟨hl, hv⟩

/-! ## Lemmas on moving -/

mutual
theorem move_items_locked (lib : Libobs) :
    ∀ (offset : vec2) (item : SceneItem),
      List.Forall₂ lockedUntouched (sceneItemsOf item) (sceneItemsOf (move_items lib offset item))
  | offset, .mk d cs => by
    have hrefl : ∀ l : List SceneItem, List.Forall₂ lockedUntouched l l := fun l =>
      List.forall₂_same.mpr (fun x _ => ⟨rfl, fun _ => rfl⟩)
    cases hl : d.locked
    · have hhead : ∀ (d' : ItemData) (cs' : List SceneItem), d'.locked = false →
          lockedUntouched (.mk d cs) (.mk d' cs') := by
        intro d' cs' hd'
        refine ⟨?_, ?_⟩
        · simp [obs_sceneitem_locked, SceneItem.data, hl, hd']
        · intro h
          simp [obs_sceneitem_locked, SceneItem.data, hl] at h
      cases hs : d.selected <;> cases hg : d.is_group <;>
        simp [move_items, sceneItemsOf, hl, hs, hg]
      · exact hhead _ _ hl
      · exact ⟨hhead _ _ hl, move_items_items_locked lib _ cs⟩
      · exact hhead _ _ rfl
      · exact ⟨hhead _ _ rfl, fun x _ => ⟨rfl, fun _ => rfl⟩⟩
    · simp only [move_items, hl, if_true]
      exact hrefl _
theorem move_items_items_locked (lib : Libobs) :
    ∀ (offset : vec2) (items : List SceneItem),
      List.Forall₂ lockedUntouched (allSceneItems items)
        (allSceneItems (move_items_items lib offset items))
  | _, [] => by
    simp [move_items_items, allSceneItems]
  | offset, c :: cs => by
    simp only [move_items_items, allSceneItems]
    exact List.rel_append (move_items_locked lib offset c) (move_items_items_locked lib offset cs)
end

theorem move_items_data (lib : Libobs) (offset : vec2) (item : SceneItem) :
    (move_items lib offset item).data = movedData offset item.data := by
  cases item with
  | mk d cs =>
    cases hl : d.locked <;> cases hs : d.selected <;>
      simp [move_items, movedData, SceneItem.data, hl, hs]

theorem move_items_items_data (lib : Libobs) (offset : vec2) :
    ∀ (items : List SceneItem),
      (move_items_items lib offset items).map SceneItem.data =
        items.map (fun item => movedData offset item.data)
  | [] => by simp [move_items_items]
  | c :: cs => by
    simp only [move_items_items, List.map_cons]
    rw [move_items_data, move_items_items_data lib offset cs]

theorem movedData_movedData (a b : vec2) (d : ItemData) :
    movedData b (movedData a d) = movedData (vec2_add a b) d := by
  unfold movedData
  cases hs : d.selected <;> cases hl : d.locked <;> simp [hs, hl, vec2_add, add_assoc]

theorem SnapItemMovement_disabled (lib : Libobs) (cfg : BasicWindowConfig)
    (base_width base_height : Nat) (scene : List SceneItem) (offset : vec2)
    (h : cfg.SnappingEnabled = false) :
    SnapItemMovement lib cfg base_width base_height scene offset = offset := by
  simp [SnapItemMovement, h]

/-- One call of `MoveItems` in which snapping does not act. -/
theorem MoveItems_unsnapped (lib : Libobs) (cfg : BasicWindowConfig)
    (base_width base_height : Nat) (ctrl : Bool) (dock : MoveSession) (pos : vec2)
    (h : cfg.SnappingEnabled = false ∨ ctrl = true) :
    MoveItems lib cfg base_width base_height ctrl dock pos =
      ⟨move_items_items lib (vec2_sub (vec2_sub pos dock.startPos) dock.lastMoveOffset)
          dock.scene,
        dock.startPos, vec2_sub pos dock.startPos⟩ := by
  have hoff : (if !ctrl then SnapItemMovement lib cfg base_width base_height dock.scene
        (vec2_sub (vec2_sub pos dock.startPos) dock.lastMoveOffset)
      else vec2_sub (vec2_sub pos dock.startPos) dock.lastMoveOffset) =
      vec2_sub (vec2_sub pos dock.startPos) dock.lastMoveOffset := by
    rcases h with h | h
    · rw [SnapItemMovement_disabled _ _ _ _ _ _ h]; simp
    · simp [h]
  unfold MoveItems
  simp only [hoff]
  congr 1
  simp [vec2_add, vec2_sub]

/-- A run of unsnapped moves shifts the top-level items by the last pointer
position minus the start position minus the offset already applied. -/
theorem foldl_MoveItems_unsnapped (lib : Libobs) (cfg : BasicWindowConfig)
    (base_width base_height : Nat) :
    ∀ (moves : List (vec2 × Bool)) (hne : moves ≠ []) (dock : MoveSession),
      (cfg.SnappingEnabled = false ∨ ∀ m ∈ moves, m.2 = true) →
      (moves.foldl (fun dock m => MoveItems lib cfg base_width base_height m.2 dock m.1)
          dock).scene.map SceneItem.data =
        dock.scene.map (fun item =>
          movedData (vec2_sub (vec2_sub (moves.getLast hne).1 dock.startPos)
            dock.lastMoveOffset) item.data)
  | [], hne, _, _ => absurd rfl hne
  | [m], _, dock, h => by
    have hm : cfg.SnappingEnabled = false ∨ m.2 = true := by
      rcases h with h | h
      · exact Or.inl h
      · exact Or.inr (h m (List.mem_singleton_self m))
    simp only [List.foldl_cons, List.foldl_nil, List.getLast_singleton]
    rw [MoveItems_unsnapped _ _ _ _ _ _ _ hm]
    exact move_items_items_data lib _ dock.scene
  | m :: m' :: rest, _, dock, h => by
    have hm : cfg.SnappingEnabled = false ∨ m.2 = true := by
      rcases h with h | h
      · exact Or.inl h
      · exact Or.inr (h m (List.mem_cons_self _ _))
    have hrest : cfg.SnappingEnabled = false ∨ ∀ x ∈ m' :: rest, x.2 = true := by
      rcases h with h | h
      · exact Or.inl h
      · exact Or.inr (fun x hx => h x (List.mem_cons_of_mem _ hx))
    rw [List.foldl_cons, MoveItems_unsnapped _ _ _ _ _ _ _ hm]
    rw [foldl_MoveItems_unsnapped lib cfg base_width base_height (m' :: rest)
      (List.cons_ne_nil _ _) _ hrest]
    rw [List.getLast_cons_cons]
    have hmap : ∀ (o : vec2) (l : List SceneItem),
        l.map (fun item => movedData o item.data) =
          (l.map SceneItem.data).map (movedData o) := by
      intro o l; simp [List.map_map, Function.comp]
    rw [hmap, move_items_items_data, List.map_map]
    apply List.map_congr_left
    intro item _
    simp only [Function.comp]
    rw [movedData_movedData]
    congr 1
    simp only [vec2_add, vec2_sub, vec2.mk.injEq]
    constructor <;> ring

/-! ## Lemmas on snapping -/

theorem GetSnapOffset_eq_snapAxis (lib : Libobs) (cfg : BasicWindowConfig)
    (base_width base_height : Nat) (tl br : vec3) (h : cfg.SnappingEnabled = true) :
    GetSnapOffset lib cfg base_width base_height tl br =
      ⟨snapAxis lib cfg base_width tl.x br.x, snapAxis lib cfg base_height tl.y br.y, 0⟩ := by
  simp [GetSnapOffset, snapAxis, h]

theorem snapAxis_edge_only (lib : Libobs) (cfg : BasicWindowConfig) (screen tlv brv : ℚ)
    (hscreen : cfg.ScreenSnapping = true) (hcenter : cfg.CenterSnapping = false)
    (h1 : abs tlv < cfg.SnapDistance)
    (h2 : lib.EPSILON ≤ abs tlv ∨ cfg.SnapDistance ≤ abs (screen - brv)) :
    snapAxis lib cfg screen tlv brv = -tlv := by
  have hr : ¬ (abs tlv < lib.EPSILON ∧ abs (screen - brv) < cfg.SnapDistance) := by
    rintro ⟨ha, hb⟩
    rcases h2 with h2 | h2
    · exact absurd ha (not_lt.mpr h2)
    · exact absurd hb (not_lt.mpr h2)
  simp only [snapAxis, hscreen, hcenter, h1, decide_True, Bool.and_self, if_true, abs_neg,
    Bool.true_and, Bool.false_and, Bool.false_eq_true, if_false]
  split_ifs with h3
  · simp only [Bool.and_eq_true, decide_eq_true_eq] at h3
    exact absurd h3 hr
  · rfl

theorem snapAxis_center (lib : Libobs) (cfg : BasicWindowConfig) (screen tlv brv : ℚ)
    (hcenter : cfg.CenterSnapping = true) :
    snapAxis lib cfg screen tlv brv =
      if abs (screen - (brv - tlv)) > cfg.SnapDistance ∧
          abs (screen / 2 - (brv - (brv - tlv) / 2)) < cfg.SnapDistance then
        screen / 2 - (brv - (brv - tlv) / 2)
      else snapAxis lib { cfg with CenterSnapping := false } screen tlv brv := by
  simp only [snapAxis, hcenter, Bool.true_and, Bool.false_and, Bool.and_eq_true,
    decide_eq_true_eq, Bool.false_eq_true, if_false]

/-! ## Lemmas on rounding and on the marquee -/

theorem roundf_nonneg (q : ℚ) (h : 0 ≤ q) : 0 ≤ roundf q := by
  simp only [roundf, h, if_true]
  have : (0 : ℤ) ≤ ⌊q + 1 / 2⌋ := Int.floor_nonneg.mpr (by linarith)
  exact_mod_cast this

theorem roundf_nonpos (q : ℚ) (h : q ≤ 0) : roundf q ≤ 0 := by
  unfold roundf
  split_ifs with h0
  · have hq : q = 0 := le_antisymm h h0
    subst hq
    have : ⌊(0 : ℚ) + 1 / 2⌋ = 0 := by
      rw [Int.floor_eq_iff]; constructor <;> norm_num
    rw [this]; simp
  · have : ⌈q - 1 / 2⌉ ≤ (0 : ℤ) := Int.ceil_le.mpr (by push_cast; linarith)
    exact_mod_cast this

/-- The marquee enumeration never stops and appends exactly the items that have
video, are unlocked and visible, and pass one of the geometric tests. -/
theorem enum_FindItemsInBox_eq (lib : Libobs) (startPos pos : vec2) :
    ∀ (l acc : List SceneItem),
      obs_scene_enum_items (FindItemsInBox lib) l ⟨startPos, pos, acc⟩ =
        ⟨startPos, pos, acc ++ l.filter (fun item =>
          SceneItemHasVideo item && !obs_sceneitem_locked item &&
            obs_sceneitem_visible item && itemTouchesBox lib item startPos pos)⟩
  | [], acc => by simp [obs_scene_enum_items]
  | a :: l, acc => by
    cases hv : SceneItemHasVideo a <;> cases hl : obs_sceneitem_locked a <;>
      cases hs : obs_sceneitem_visible a <;>
      cases ht : itemTouchesBox lib a startPos pos <;>
      simp [obs_scene_enum_items, FindItemsInBox, hv, hl, hs, ht,
        enum_FindItemsInBox_eq lib startPos pos l, List.filter_cons]

/-- A point of a non-degenerate box whose four corners lie in a closed interval
on one axis has its centre strictly inside the interval. Here `t`, `a`, `b`
are the translation and the two edge vectors on this axis, `a'`, `b'` the edge
vectors on the other axis. -/
theorem centre_strictly_inside (lo hi t a b a' b' : ℚ) (hdet : a * b' - a' * b ≠ 0)
    (h0 : lo ≤ t ∧ t ≤ hi) (h1 : lo ≤ t + a ∧ t + a ≤ hi)
    (h2 : lo ≤ t + b ∧ t + b ≤ hi) (h3 : lo ≤ t + a + b ∧ t + a + b ≤ hi) :
    lo < t + 1 / 2 * (a + b) ∧ t + 1 / 2 * (a + b) < hi := by
  constructor
  · by_contra hc
    have hc' : t + 1 / 2 * (a + b) ≤ lo := not_lt.mp hc
    have ha : a = 0 := by linarith [h0.1, h1.1, h2.1, h3.1]
    have hb : b = 0 := by linarith [h0.1, h1.1, h2.1, h3.1]
    apply hdet; rw [ha, hb]; ring
  · by_contra hc
    have hc' : hi ≤ t + 1 / 2 * (a + b) := not_lt.mp hc
    have ha : a = 0 := by linarith [h0.2, h1.2, h2.2, h3.2]
    have hb : b = 0 := by linarith [h0.2, h1.2, h2.2, h3.2]
    apply hdet; rw [ha, hb]; ring

/-! ## Lemmas on rotation snapping -/

theorem RotateItem_angle_normal (m : FloatMath) (rotateAngle angle : ℚ) :
    RotateItem_angle m false false rotateAngle angle =
      snapRun m 5 fixedRotations (ROT_SNAP m rotateAngle 5 angle) := by
  simp [RotateItem_angle, snapRun, fixedRotations]

/-- No candidate within the threshold: the run leaves the angle alone. -/
theorem snapRun_none (m : FloatMath) (thresh : ℚ) :
    ∀ (l : List ℚ) (angle : ℚ),
      (∀ c ∈ l, ¬ abs (angle - RAD m c) < RAD m thresh) → snapRun m thresh l angle = angle
  | [], _, _ => rfl
  | c :: l, angle, h => by
    have hc : ROT_SNAP m c thresh angle = angle := by
      simp [ROT_SNAP, h c (List.mem_cons_self _ _)]
    simp only [snapRun, List.foldl_cons, hc]
    exact snapRun_none m thresh l angle (fun c' hc' => h c' (List.mem_cons_of_mem _ hc'))

/-- Candidates at least two thresholds apart: an angle within the threshold of
the candidate `c` of the run ends on `c`. -/
theorem snapRun_hit (m : FloatMath) (thresh : ℚ) :
    ∀ (l : List ℚ) (angle c : ℚ),
      l.Pairwise (fun a b => 2 * RAD m thresh ≤ abs (RAD m a - RAD m b)) →
      c ∈ l → abs (angle - RAD m c) < RAD m thresh → snapRun m thresh l angle = RAD m c
  | [], _, _, _, hc, _ => absurd hc (List.not_mem_nil _)
  | c' :: l, angle, c, hp, hc, hnear => by
    rw [List.pairwise_cons] at hp
    rcases List.mem_cons.mp hc with hcc | hcl
    · subst hcc
      have hs : ROT_SNAP m c thresh angle = RAD m c := by simp [ROT_SNAP, hnear]
      simp only [snapRun, List.foldl_cons, hs]
      apply snapRun_none
      intro c'' hc'' hlt
      have hsep := hp.1 c'' hc''
      have hpos : 0 < RAD m thresh := lt_of_le_of_lt (abs_nonneg _) hnear
      linarith
    · have hsep := hp.1 c hcl
      have hfar : ¬ abs (angle - RAD m c') < RAD m thresh := by
        intro hlt
        have h1 : abs (RAD m c' - RAD m c) ≤ abs (angle - RAD m c') + abs (angle - RAD m c) := by
          have := abs_sub_le (RAD m c') angle (RAD m c)
          rwa [abs_sub_comm (RAD m c') angle] at this
        linarith
      have hs : ROT_SNAP m c' thresh angle = angle := by simp [ROT_SNAP, hfar]
      simp only [snapRun, List.foldl_cons, hs]
      exact snapRun_hit m thresh l angle c hp.2 hcl hnear

/-- Candidates at least two thresholds apart: the run leaves the angle alone or
ends on a candidate within the threshold of it. -/
theorem snapRun_cases (m : FloatMath) (thresh : ℚ) (l : List ℚ) (angle : ℚ)
    (hp : l.Pairwise (fun a b => 2 * RAD m thresh ≤ abs (RAD m a - RAD m b))) :
    snapRun m thresh l angle = angle ∨
      ∃ c ∈ l, abs (angle - RAD m c) < RAD m thresh ∧ snapRun m thresh l angle = RAD m c := by
  by_cases h : ∃ c ∈ l, abs (angle - RAD m c) < RAD m thresh
  · obtain ⟨c, hc, hnear⟩ := h
    exact Or.inr ⟨c, hc, hnear, snapRun_hit m thresh l angle c hp hc hnear⟩
  · left
    apply snapRun_none
    intro c hc hlt
    exact h ⟨c, hc, hlt⟩

/-- The fixed candidates are 45 degrees apart, more than twice 5 degrees. -/
theorem fixedRotations_apart (m : FloatMath) (hk : 0 < m.RAD_factor) :
    fixedRotations.Pairwise (fun a b => 2 * RAD m 5 ≤ abs (RAD m a - RAD m b)) := by
  have key : ∀ a b : ℚ, 10 ≤ abs (a - b) → 2 * RAD m 5 ≤ abs (RAD m a - RAD m b) := by
    intro a b h
    have : RAD m a - RAD m b = (a - b) * m.RAD_factor := by simp [RAD]; ring
    rw [this, abs_mul, abs_of_pos hk]
    simp only [RAD]
    nlinarith
  simp only [fixedRotations, List.pairwise_cons, List.mem_cons, List.mem_singleton,
    List.not_mem_nil, forall_eq_or_imp, forall_eq, false_implies, implies_true,
    List.Pairwise.nil, and_true]
  refine ⟨?_, ?_, ?_, ?_, ?_, ?_, ?_, ?_, ?_⟩ <;>
    (repeat' constructor) <;> (apply key; norm_num [abs_le, le_abs])

theorem RAD_near_iff (m : FloatMath) (hk : 0 < m.RAD_factor) (a b t : ℚ) :
    abs (RAD m a - RAD m b) < RAD m t ↔ abs (a - b) < t := by
  have : RAD m a - RAD m b = (a - b) * m.RAD_factor := by simp [RAD]; ring
  rw [this, abs_mul, abs_of_pos hk]
  simp only [RAD]
  exact mul_lt_mul_right hk

theorem DEG_RAD (m : FloatMath) (hinv : m.RAD_factor * m.DEG_factor = 1) (a : ℚ) :
    DEG m (RAD m a) = a := by
  simp only [DEG, RAD]
  rw [mul_assoc, hinv, mul_one]

/-- The first step of the normal mode, in degrees. -/
theorem ROT_SNAP_RAD (m : FloatMath) (hk : 0 < m.RAD_factor) (c t d : ℚ) :
    ROT_SNAP m c t (RAD m d) = RAD m (if abs (d - c) < t then c else d) := by
  unfold ROT_SNAP
  by_cases h : abs (d - c) < t
  · simp [h, (RAD_near_iff m hk d c t).mpr h]
  · have h' : ¬ abs (RAD m d - RAD m c) < RAD m t := fun hh => h ((RAD_near_iff m hk d c t).mp hh)
    simp [h, h']

/-! ## Lemmas on cropping -/

/-- An `int` operation whose exact result is in the range of `int` gives that
result. -/
theorem wrap_int_eq (z : Int) (h1 : INT_MIN ≤ z) (h2 : z ≤ INT_MAX) : wrap_int z = z := by
  unfold INT_MIN at h1
  unfold INT_MAX at h2
  unfold wrap_int
  omega

/-- The result of an `int` operation is in the range of `int`. -/
theorem wrap_int_range (z : Int) : INT_MIN ≤ wrap_int z ∧ wrap_int z ≤ INT_MAX := by
  unfold INT_MIN INT_MAX wrap_int
  omega

theorem float_to_int_eq (z : Int) (h1 : INT_MIN ≤ z) (h2 : z ≤ INT_MAX) :
    float_to_int z = z := by
  unfold float_to_int
  rw [if_pos ⟨h1, h2⟩]

/-- Rounding a value that lies between two integers of the range of `int`
gives an integer between them. -/
theorem roundToInt_between (q : ℚ) (lo hi : Int) (hlo : (lo : ℚ) ≤ q) (hhi : q ≤ (hi : ℚ))
    (h1 : INT_MIN ≤ lo) (h2 : hi ≤ INT_MAX) :
    lo ≤ roundToInt q ∧ roundToInt q ≤ hi := by
  have hr : lo ≤ (if 0 ≤ q then ⌊q + 1 / 2⌋ else ⌈q - 1 / 2⌉) ∧
      (if 0 ≤ q then ⌊q + 1 / 2⌋ else ⌈q - 1 / 2⌉) ≤ hi := by
    split_ifs
    · constructor
      · exact Int.le_floor.mpr (by linarith)
      · have : ⌊q + 1 / 2⌋ < hi + 1 := Int.floor_lt.mpr (by push_cast; linarith)
        omega
    · constructor
      · have : lo - 1 < ⌈q - 1 / 2⌉ := Int.lt_ceil.mpr (by push_cast; linarith)
        omega
      · exact Int.ceil_le.mpr (by linarith)
  unfold roundToInt
  rw [float_to_int_eq _ (le_trans h1 hr.1) (le_trans hr.2 h2)]
  exact hr

/-- Rounding an integer of the range of `int` gives that integer. -/
theorem roundToInt_intCast (n : Int) (h1 : INT_MIN ≤ n) (h2 : n ≤ INT_MAX) :
    roundToInt (n : ℚ) = n := by
  have h := roundToInt_between (n : ℚ) n n (le_refl _) (le_refl _) h1 h2
  omega

theorem minfunc_le_right (x y : ℚ) : minfunc x y ≤ y := by
  unfold minfunc; split_ifs with h
  · exact le_of_lt h
  · exact le_refl y

theorem maxfunc_ge_right (x y : ℚ) : y ≤ maxfunc x y := by
  unfold maxfunc; split_ifs with h
  · exact le_of_lt h
  · exact le_refl y

/-- The edge a left or top handle is clamped to leaves `n - 2` source pixels at
most to crop, where the item extent is `n * scale`. -/
theorem crop_near_edge_bound (scale p : ℚ) (n : Int) (hs : scale ≠ 0) :
    (if scale < 0 then maxfunc else minfunc) p ((n : ℚ) * scale - 2 * scale) / scale ≤
      ((n - 2 : Int) : ℚ) := by
  rcases lt_or_gt_of_ne hs with hneg | hpos
  · rw [if_pos hneg, div_le_iff_of_neg hneg]
    have := maxfunc_ge_right p ((n : ℚ) * scale - 2 * scale)
    push_cast
    linarith
  · rw [if_neg (not_lt.mpr (le_of_lt hpos)), div_le_iff₀ hpos]
    have := minfunc_le_right p ((n : ℚ) * scale - 2 * scale)
    push_cast
    linarith

/-- The edge a right or bottom handle is clamped to leaves `n - 2` source
pixels at most to crop, where the item extent is `n * scale`. -/
theorem crop_far_edge_bound (scale p : ℚ) (n : Int) (hs : scale ≠ 0) :
    ((n : ℚ) * scale - (if scale < 0 then minfunc else maxfunc) p (2 * scale)) / scale ≤
      ((n - 2 : Int) : ℚ) := by
  rcases lt_or_gt_of_ne hs with hneg | hpos
  · rw [if_pos hneg, div_le_iff_of_neg hneg]
    have := minfunc_le_right p (2 * scale)
    push_cast
    linarith
  · rw [if_neg (not_lt.mpr (le_of_lt hpos)), div_le_iff₀ hpos]
    have := maxfunc_ge_right p (2 * scale)
    push_cast
    linarith

/-! ## Lemmas on selecting by pointer -/

mutual
theorem updateItem_select_data (id : Nat) (select : Bool) :
    ∀ (item : SceneItem),
      (sceneItemsOf (updateItem id (fun d => { d with selected := select }) item)).map
          SceneItem.data =
        (sceneItemsOf item).map (fun x => selectData id select x.data)
  | .mk d cs => by
    cases hg : d.is_group
    · by_cases hid : d.id = id <;>
        simp [updateItem, sceneItemsOf, hg, hid, selectData, SceneItem.data]
    · have ih := updateItem_items_select_data id select cs
      by_cases hid : d.id = id <;>
        simp [updateItem, sceneItemsOf, hg, hid, selectData, SceneItem.data, ih]
theorem updateItem_items_select_data (id : Nat) (select : Bool) :
    ∀ (items : List SceneItem),
      (allSceneItems (updateItem_items id (fun d => { d with selected := select }) items)).map
          SceneItem.data =
        (allSceneItems items).map (fun x => selectData id select x.data)
  | [] => by simp [updateItem_items, allSceneItems]
  | c :: cs => by
    simp only [updateItem_items, allSceneItems, List.map_append]
    rw [updateItem_select_data id select c, updateItem_items_select_data id select cs]
end

mutual
theorem findItem_spec (id : Nat) :
    ∀ (item : SceneItem),
      (∀ y, findItem id item = some y → y ∈ sceneItemsOf item ∧ y.data.id = id) ∧
      (findItem id item = none → ∀ x ∈ sceneItemsOf item, x.data.id ≠ id)
  | .mk d cs => by
    by_cases hid : d.id = id
    · simp [findItem, sceneItemsOf, hid, SceneItem.data]
    · cases hg : d.is_group
      · simp [findItem, sceneItemsOf, hid, hg, SceneItem.data]
      · obtain ⟨h1, h2⟩ := findItem_items_spec id cs
        simp only [findItem, sceneItemsOf, hid, hg, if_false, if_true, List.mem_cons]
        constructor
        · intro y hy
          exact ⟨Or.inr (h1 y hy).1, (h1 y hy).2⟩
        · intro hn x hx
          rcases hx with hx | hx
          · subst hx; simpa [SceneItem.data] using hid
          · exact h2 hn x hx
theorem findItem_items_spec (id : Nat) :
    ∀ (items : List SceneItem),
      (∀ y, findItem_items id items = some y → y ∈ allSceneItems items ∧ y.data.id = id) ∧
      (findItem_items id items = none → ∀ x ∈ allSceneItems items, x.data.id ≠ id)
  | [] => by simp [findItem_items, allSceneItems]
  | c :: cs => by
    obtain ⟨h1, h2⟩ := findItem_spec id c
    obtain ⟨h3, h4⟩ := findItem_items_spec id cs
    cases hc : findItem id c with
    | some z =>
      simp only [findItem_items, hc, allSceneItems, List.mem_append]
      constructor
      · intro y hy
        have : z = y := by simpa using hy
        subst this
        exact ⟨Or.inl (h1 z hc).1, (h1 z hc).2⟩
      · intro hn; simp at hn
    | none =>
      simp only [findItem_items, hc, allSceneItems, List.mem_append]
      constructor
      · intro y hy
        exact ⟨Or.inr (h3 y hy).1, (h3 y hy).2⟩
      · intro hn x hx
        rcases hx with hx | hx
        · exact h2 hc x hx
        · exact h4 hn x hx
end

/-- The scene after a processed release: the click, if the pointer has not
moved, then the marquee resolution, if a marquee is active. -/
theorem HandleMouseReleaseEvent_scene (env : CanvasEnv) (dock : CanvasDock) (event : MouseEvent)
    (hlocked : dock.locked = false) (hdown : dock.mouseDown = true) :
    (HandleMouseReleaseEvent env dock event).scene =
      if dock.selectionBox then
        resolveSelectionBox event dock.selectedItems dock.hoveredPreviewItems
          (if !dock.mouseMoved then ProcessClick env.lib event.ctrlDown dock.scene event.pos
            else dock.scene)
      else if !dock.mouseMoved then ProcessClick env.lib event.ctrlDown dock.scene event.pos
      else dock.scene := by
  simp [HandleMouseReleaseEvent, hlocked, hdown]

/-! ## Lemmas on the mouse handlers -/

theorem vec3_dist_sq_nonneg (a b : vec3) : 0 ≤ vec3_dist_sq a b :=
  add_nonneg (add_nonneg (mul_self_nonneg _) (mul_self_nonneg _)) (mul_self_nonneg _)

/-- Once a handle at distance zero is recorded, no later resize handle of the
item replaces it. -/
theorem TestHandle_closest (item : Nat) (transform : matrix4) (x y : ℚ) (handle : ItemHandle)
    (st : HandleFindData × ℚ) (h : st.2 = 0) :
    TestHandle item transform x y handle st = st := by
  simp only [TestHandle]
  split_ifs with h1 h2
  · rw [h] at h2
    exact absurd h2 (not_lt.mpr (vec3_dist_sq_nonneg _ _))
  · rfl
  · rfl

/-- Once a handle at distance zero is recorded, the rotate handle of the item
does not replace it. -/
theorem TestRotHandle_closest (m : FloatMath) (item : ItemData) (transform : matrix4)
    (st : HandleFindData × ℚ) (h : st.2 = 0) :
    TestRotHandle m item transform st = st := by
  simp only [TestRotHandle]
  split_ifs with h1 h2
  · rw [h] at h2
    exact absurd h2 (not_lt.mpr (vec3_dist_sq_nonneg _ _))
  · rfl
  · rfl

/-- A selected item whose top left corner is exactly under the pointer yields
the handle `TopLeft` of that item. -/
theorem FindHandleAtPos_corner (env : CanvasEnv) (d : ItemData) (cs : List SceneItem)
    (data : HandleFindData) (hsel : d.selected = true) (hr : 0 < data.radius)
    (hpos : vec3_dist_sq
      (vec3_transform (GetTransformedPos 0 0 (env.lib.box_transform (.mk d cs)))
        data.parent_xform) (vec3_set data.pos.x data.pos.y 0) = 0) :
    FindHandleAtPos env (.mk d cs) data = { data with handle := .TopLeft, item := some d.id } := by
  have h1 : TestHandle d.id (env.lib.box_transform (.mk d cs)) 0 0 .TopLeft
      (data, data.radius * data.radius) =
      ({ data with handle := .TopLeft, item := some d.id }, 0) := by
    simp only [TestHandle, hpos]
    rw [if_pos (mul_pos hr hr), if_pos (mul_pos hr hr)]
  simp only [FindHandleAtPos, hsel, Bool.not_true, Bool.false_eq_true, if_false, h1]
  simp only [TestHandle_closest, TestRotHandle_closest]

/-- What `GetStretchHandleData` does to the handle, the target and the
interaction flags: handle and target are those found, the flags stay. -/
theorem GetStretchHandleData_fields (env : CanvasEnv) (dock : CanvasDock) (pos : vec2)
    (ignoreGroup : Bool) :
    (GetStretchHandleData env dock pos ignoreGroup).stretchHandle =
        (FindHandleAtPos_items env dock.scene (handleSearch env pos)).handle ∧
    (GetStretchHandleData env dock pos ignoreGroup).stretchItem =
        (FindHandleAtPos_items env dock.scene (handleSearch env pos)).item ∧
    (GetStretchHandleData env dock pos ignoreGroup).scene = dock.scene ∧
    (GetStretchHandleData env dock pos ignoreGroup).locked = dock.locked ∧
    (GetStretchHandleData env dock pos ignoreGroup).scrollMode = dock.scrollMode ∧
    (GetStretchHandleData env dock pos ignoreGroup).mouseDown = dock.mouseDown ∧
    (GetStretchHandleData env dock pos ignoreGroup).mouseMoved = dock.mouseMoved ∧
    (GetStretchHandleData env dock pos ignoreGroup).cropping = dock.cropping := by
  simp only [GetStretchHandleData, handleSearch]
  split <;> simp

/-- A move without a button on an idle dock looks the handle under the pointer
up and leaves the interaction flags alone. -/
theorem HandleMouseMoveEvent_hover (env : CanvasEnv) (dock : CanvasDock) (event : MouseEvent)
    (hlocked : dock.locked = false) (hscroll : dock.scrollMode = false)
    (hdown : dock.mouseDown = false) (hmoved : dock.mouseMoved = false) :
    (HandleMouseMoveEvent env dock event).stretchHandle =
        (FindHandleAtPos_items env dock.scene (handleSearch env event.pos)).handle ∧
    (HandleMouseMoveEvent env dock event).stretchItem =
        (FindHandleAtPos_items env dock.scene (handleSearch env event.pos)).item ∧
    (HandleMouseMoveEvent env dock event).scene = dock.scene ∧
    (HandleMouseMoveEvent env dock event).locked = false ∧
    (HandleMouseMoveEvent env dock event).scrollMode = false ∧
    (HandleMouseMoveEvent env dock event).mouseDown = false ∧
    (HandleMouseMoveEvent env dock event).mouseMoved = false ∧
    (HandleMouseMoveEvent env dock event).cropping = dock.cropping := by
  simp only [HandleMouseMoveEvent, hlocked, hscroll, hdown, hmoved, Bool.false_and,
    Bool.false_eq_true, if_false, Bool.not_false, if_true]
  have h := GetStretchHandleData_fields env
    { dock with changed := true,
                hoveredPreviewItems :=
                  [(GetItemAtPos env.lib dock.scene event.pos true).map fun i => i.data.id],
                mousePos := event.pos, startPos := event.pos } event.pos true
  simp only [hlocked, hscroll, hdown, hmoved] at h
  exact h

/-- A press of the left button on an unlocked dock outside scroll mode records
the button and leaves handle, target and scene alone. -/
theorem HandleMousePressEvent_left (env : CanvasEnv) (dock : CanvasDock) (event : MouseEvent)
    (hlocked : dock.locked = false) (hscroll : dock.scrollMode = false)
    (hbutton : event.button = .Left) :
    (HandleMousePressEvent env dock event).stretchHandle = dock.stretchHandle ∧
    (HandleMousePressEvent env dock event).stretchItem = dock.stretchItem ∧
    (HandleMousePressEvent env dock event).scene = dock.scene ∧
    (HandleMousePressEvent env dock event).locked = false ∧
    (HandleMousePressEvent env dock event).scrollMode = false ∧
    (HandleMousePressEvent env dock event).mouseDown = true ∧
    (HandleMousePressEvent env dock event).mouseMoved = dock.mouseMoved ∧
    (HandleMousePressEvent env dock event).cropping =
      (if event.altDown then true else dock.cropping) ∧
    (HandleMousePressEvent env dock event).calls = dock.calls := by
  simp [HandleMousePressEvent, hlocked, hscroll, hbutton]

/-- A processed release clears the target and the flags and keeps the handle. -/
theorem HandleMouseReleaseEvent_keeps_handle (env : CanvasEnv) (dock : CanvasDock)
    (event : MouseEvent)
    (hlocked : dock.locked = false) (hdown : dock.mouseDown = true) :
    (HandleMouseReleaseEvent env dock event).stretchHandle = dock.stretchHandle ∧
    (HandleMouseReleaseEvent env dock event).stretchItem = none ∧
    (HandleMouseReleaseEvent env dock event).locked = false ∧
    (HandleMouseReleaseEvent env dock event).scrollMode = dock.scrollMode ∧
    (HandleMouseReleaseEvent env dock event).mouseDown = false ∧
    (HandleMouseReleaseEvent env dock event).mouseMoved = false ∧
    (HandleMouseReleaseEvent env dock event).cropping = false := by
  simp [HandleMouseReleaseEvent, hlocked, hdown]

/-- A move with the button down, a handle active and a null target runs the
handle operation on the null target. -/
theorem HandleMouseMoveEvent_null_target (env : CanvasEnv) (dock : CanvasDock)
    (event : MouseEvent)
    (hlocked : dock.locked = false) (hscroll : dock.scrollMode = false)
    (hdown : dock.mouseDown = true) (hhandle : dock.stretchHandle ≠ .None)
    (hitem : dock.stretchItem = none) :
    (HandleMouseMoveEvent env dock event).calls =
      dock.calls ++
        [if dock.stretchHandle = .Rot then Call.RotateItem none
          else if dock.cropping then Call.CropItem none
          else Call.StretchItem none] := by
  simp only [HandleMouseMoveEvent, HandleMouseMoveEvent_drag, hlocked, hscroll, hdown, hitem,
    hhandle, pointerLocked, itemOfPointer, Option.bind, Bool.false_and, Bool.false_eq_true,
    if_false, if_true, ne_eq, not_false_eq_true]
  split_ifs <;> rfl

/-! ## Lemmas on the select-below mode -/

/-- The enumeration up to and past the first selected hit `x`, in select-below
mode: with an item already recorded the enumeration stops at `x` and keeps that
item; with none it goes on in plain mode from `x`. -/
theorem enum_FindItemAtPos_first_selected (lib : Libobs) (pos : vec2) (x : SceneItem)
    (l2 : List SceneItem) (hx : isHit lib pos x = true)
    (hsel : obs_sceneitem_selected x = true) :
    ∀ (l1 : List SceneItem) (i0 : Option SceneItem),
      (∀ y ∈ l1, isHit lib pos y = true → obs_sceneitem_selected y = false) →
      (obs_scene_enum_items (FindItemAtPos lib) (l1 ++ x :: l2) ⟨pos, i0, true⟩).item =
        if (i0.toList ++ l1.filter (isHit lib pos)).isEmpty then
          (x :: l2.filter (isHit lib pos)).getLast?
        else (i0.toList ++ l1.filter (isHit lib pos)).getLast?
  | [], i0, _ => by
    have hv : SceneItemHasVideo x = true := by
      unfold isHit at hx; simp only [Bool.and_eq_true] at hx; exact hx.1.1
    have hl : obs_sceneitem_locked x = false := by
      unfold isHit at hx; simp only [Bool.and_eq_true] at hx; simpa using hx.1.2
    have hp : pointInItem lib x pos = true := by
      unfold isHit at hx; simp only [Bool.and_eq_true] at hx; exact hx.2
    cases i0 with
    | none =>
      have hstep : FindItemAtPos lib x ⟨pos, none, true⟩ = (⟨pos, some x, false⟩, true) := by
        unfold FindItemAtPos; simp [hv, hl, hp, hsel]
      simp only [List.nil_append, obs_scene_enum_items, hstep, if_true, Option.toList,
        List.filter_nil]
      rw [enum_FindItemAtPos_plain lib pos false l2 (some x) (by simp)]
      simp
    | some i =>
      have hstep : FindItemAtPos lib x ⟨pos, some i, true⟩ = (⟨pos, some i, true⟩, false) := by
        unfold FindItemAtPos; simp [hv, hl, hp, hsel]
      simp [obs_scene_enum_items, hstep]
  | a :: l1, i0, h => by
    have hl1 : ∀ y ∈ l1, isHit lib pos y = true → obs_sceneitem_selected y = false :=
      fun y hy => h y (List.mem_cons_of_mem _ hy)
    cases ha : isHit lib pos a
    · have hstep := FindItemAtPos_not_hit lib a ⟨pos, i0, true⟩ ha
      simp only [List.cons_append, obs_scene_enum_items, hstep, if_true, List.append_eq]
      rw [enum_FindItemAtPos_first_selected lib pos x l2 hx hsel l1 i0 hl1]
      have hf : List.filter (isHit lib pos) (a :: l1) = List.filter (isHit lib pos) l1 := by
        rw [List.filter_cons, ha]; rfl
      rw [hf]
    · have hstep := FindItemAtPos_hit_plain lib a ⟨pos, i0, true⟩ ha
        (by simp [h a (List.mem_cons_self _ _) ha])
      simp only [List.cons_append, obs_scene_enum_items, hstep, if_true, List.append_eq]
      rw [enum_FindItemAtPos_first_selected lib pos x l2 hx hsel l1 (some a) hl1]
      simp only [List.filter_cons, ha, if_true, Option.toList, List.singleton_append]
      rw [if_neg (by simp), if_neg (by cases i0 <;> simp), List.getLast?_append_cons]

/-! ## Lemmas on the fine rotation snapping -/

theorem RotateItem_angle_fine (m : FloatMath) (ctrlDown : Bool) (rotateAngle angle : ℚ) :
    RotateItem_angle m true ctrlDown rotateAngle angle =
      snapRun m (15 / 2) fineRotations angle := by
  simp only [RotateItem_angle, if_true, snapRun, fineRotations, List.foldl_map]

/-- The fine candidates are the multiples of 15 from -90 to 270. -/
theorem mem_fineRotations (c : ℚ) :
    c ∈ fineRotations ↔ ∃ k : ℤ, -6 ≤ k ∧ k ≤ 18 ∧ c = 15 * (k : ℚ) := by
  simp only [fineRotations, List.mem_map, List.mem_range]
  constructor
  · rintro ⟨i, hi, rfl⟩
    refine ⟨(i : ℤ) - 6, by omega, by norm_num at hi; omega, ?_⟩
    push_cast
    ring
  · rintro ⟨k, h1, h2, rfl⟩
    refine ⟨(k + 6).toNat, by norm_num; omega, ?_⟩
    have : ((k + 6).toNat : ℤ) = k + 6 := Int.toNat_of_nonneg (by omega)
    have hq : (((k + 6).toNat : ℕ) : ℚ) = (k : ℚ) + 6 := by exact_mod_cast this
    rw [hq]
    ring

/-- The fine candidates are 15 degrees apart, twice the threshold. -/
theorem fineRotations_apart (m : FloatMath) (hk : 0 < m.RAD_factor) :
    fineRotations.Pairwise (fun a b => 2 * RAD m (15 / 2) ≤ abs (RAD m a - RAD m b)) := by
  have key : ∀ i j : ℕ, i < j →
      2 * RAD m (15 / 2) ≤ abs (RAD m ((i : ℚ) * 15 - 90) - RAD m ((j : ℚ) * 15 - 90)) := by
    intro i j hij
    have h1 : RAD m ((i : ℚ) * 15 - 90) - RAD m ((j : ℚ) * 15 - 90) =
        (((i : ℚ) - (j : ℚ)) * 15) * m.RAD_factor := by simp [RAD]; ring
    have hij' : (i : ℚ) + 1 ≤ (j : ℚ) := by exact_mod_cast hij
    rw [h1, abs_mul, abs_of_pos hk, abs_of_nonpos (by linarith)]
    simp only [RAD]
    nlinarith
  unfold fineRotations
  rw [List.pairwise_map]
  exact List.Pairwise.imp_of_mem (fun {i j} _ _ h => key i j h) (List.pairwise_lt_range _)

/-! ## Lemmas on the segment test -/

theorem CounterClockwise_iff (x1 x2 x3 y1 y2 y3 : ℚ) :
    CounterClockwise x1 x2 x3 y1 y2 y3 = true ↔ 0 < sideOfLine x1 y1 x2 y2 x3 y3 := by
  simp only [CounterClockwise, sideOfLine, decide_eq_true_eq, gt_iff_lt, sub_pos]

/-- Two points off a line are told apart by `CounterClockwise` exactly when
they lie on opposite sides. -/
theorem bne_iff_opposite (a b : Bool) (s t : ℚ) (ha : a = true ↔ 0 < s) (hb : b = true ↔ 0 < t)
    (hs : s ≠ 0) (ht : t ≠ 0) : (a != b) = true ↔ s * t < 0 := by
  rcases lt_or_gt_of_ne hs with hs' | hs' <;> rcases lt_or_gt_of_ne ht with ht' | ht'
  · have h1 : a = false := by
      cases a
      · rfl
      · exact absurd (ha.mp rfl) (not_lt.mpr (le_of_lt hs'))
    have h2 : b = false := by
      cases b
      · rfl
      · exact absurd (hb.mp rfl) (not_lt.mpr (le_of_lt ht'))
    simp [h1, h2, not_lt.mpr (le_of_lt (mul_pos_of_neg_of_neg hs' ht'))]
  · have h1 : a = false := by
      cases a
      · rfl
      · exact absurd (ha.mp rfl) (not_lt.mpr (le_of_lt hs'))
    have h2 : b = true := hb.mpr ht'
    simp [h1, h2, mul_neg_of_neg_of_pos hs' ht']
  · have h1 : a = true := ha.mpr hs'
    have h2 : b = false := by
      cases b
      · rfl
      · exact absurd (hb.mp rfl) (not_lt.mpr (le_of_lt ht'))
    simp [h1, h2, mul_neg_of_pos_of_neg hs' ht']
  · have h1 : a = true := ha.mpr hs'
    have h2 : b = true := hb.mpr ht'
    simp [h1, h2, not_lt.mpr (le_of_lt (mul_pos hs' ht'))]

/-! ## Lemmas on rotating -/

/-- When the rotate handle test records the handle, it records the centre of
the box as pivot, the rotation of the item, and the offset of the item
position from the pivot turned back by that rotation. -/
theorem TestRotHandle_records (m : FloatMath) (item : ItemData) (transform : matrix4)
    (st : HandleFindData × ℚ) (hnot : st.1.handle ≠ .Rot)
    (hrot : (TestRotHandle m item transform st).1.handle = .Rot) :
    (TestRotHandle m item transform st).1.angle = item.rot ∧
    (TestRotHandle m item transform st).1.rotatePoint =
      ⟨transform.t.x + transform.x.x / 2 + transform.y.x / 2,
       transform.t.y + transform.x.y / 2 + transform.y.y / 2⟩ ∧
    (TestRotHandle m item transform st).1.offsetPoint =
      RotatePos m
        ⟨item.pos.x - (TestRotHandle m item transform st).1.rotatePoint.x,
         item.pos.y - (TestRotHandle m item transform st).1.rotatePoint.y⟩
        (-RAD m item.rot) := by
  simp only [TestRotHandle] at hrot ⊢
  split_ifs at hrot ⊢
  · exact ⟨rfl, rfl, rfl⟩
  · exact absurd hrot hnot
  · exact absurd hrot hnot

/-! ## Lemmas on the snap bound -/

/-- A value that is replaced, under a test that bounds the replacement, stays
zero or below the bound. -/
theorem bounded_ite (c : Prop) [Decidable c] (a b d : ℚ) (ha : c → abs a < d)
    (hb : b = 0 ∨ abs b < d) : (if c then a else b) = 0 ∨ abs (if c then a else b) < d := by
  by_cases h : c
  · rw [if_pos h]; exact Or.inr (ha h)
  · rw [if_neg h]; exact hb

/-- On one axis the snap offset is zero or smaller in absolute value than the
snap distance. -/
theorem snapAxis_bounded (lib : Libobs) (cfg : BasicWindowConfig) (screen tlv brv : ℚ) :
    snapAxis lib cfg screen tlv brv = 0 ∨
      abs (snapAxis lib cfg screen tlv brv) < cfg.SnapDistance := by
  simp only [snapAxis]
  apply bounded_ite
  · intro h
    simp only [Bool.and_eq_true, decide_eq_true_eq] at h
    exact h.2
  · apply bounded_ite
    · intro h
      simp only [Bool.and_eq_true, decide_eq_true_eq] at h
      exact h.2
    · apply bounded_ite
      · intro h
        simp only [Bool.and_eq_true, decide_eq_true_eq] at h
        rw [abs_neg]
        exact h.2
      · exact Or.inl rfl

/-! ## Lemmas on the lower crop bound -/

theorem le_minfunc (x y t : ℚ) (hx : t ≤ x) (hy : t ≤ y) : t ≤ minfunc x y := by
  unfold minfunc; split_ifs <;> assumption

theorem maxfunc_le (x y t : ℚ) (hx : x ≤ t) (hy : y ≤ t) : maxfunc x y ≤ t := by
  unfold maxfunc; split_ifs <;> assumption

theorem minfunc_le_left (x y : ℚ) : minfunc x y ≤ x := by
  unfold minfunc; split_ifs with h
  · exact le_refl x
  · exact not_lt.mp h

theorem maxfunc_ge_left (x y : ℚ) : x ≤ maxfunc x y := by
  unfold maxfunc; split_ifs with h
  · exact le_refl x
  · exact not_lt.mp h

/-- The edge a left or top handle is clamped to does not go below the negated
start crop `a` of its own side, the item extent being `n * scale`. -/
theorem crop_near_edge_lower (scale p : ℚ) (n a b : Int) (hs : scale ≠ 0)
    (hna : 2 ≤ n + a) :
    ((-a : Int) : ℚ) ≤
      (if scale < 0 then maxfunc else minfunc)
        ((if scale < 0 then minfunc else maxfunc)
          ((if scale < 0 then maxfunc else minfunc) p ((n : ℚ) * scale + (b : ℚ) * scale))
          (((-a : Int) : ℚ) * scale))
        ((n : ℚ) * scale - 2 * scale) / scale := by
  have hq : (2 : ℚ) ≤ (n : ℚ) + (a : ℚ) := by exact_mod_cast hna
  rcases lt_or_gt_of_ne hs with hneg | hpos
  · simp only [if_pos hneg]
    rw [le_div_iff_of_neg hneg]
    apply maxfunc_le
    · exact minfunc_le_right _ _
    · push_cast
      nlinarith
  · simp only [if_neg (not_lt.mpr (le_of_lt hpos))]
    rw [le_div_iff₀ hpos]
    apply le_minfunc
    · exact maxfunc_ge_right _ _
    · push_cast
      nlinarith

/-- The edge a right or bottom handle is clamped to does not go beyond the
extent plus the start crop `b` of its own side, the item extent being
`n * scale`. -/
theorem crop_far_edge_lower (scale p : ℚ) (n a b : Int) (hs : scale ≠ 0) (hn : 0 ≤ n)
    (ha : 0 ≤ a) (hb : 0 ≤ b) (hnb : 2 ≤ n + b) :
    ((-b : Int) : ℚ) ≤
      ((n : ℚ) * scale -
        (if scale < 0 then minfunc else maxfunc)
          ((if scale < 0 then minfunc else maxfunc)
            ((if scale < 0 then maxfunc else minfunc) p ((n : ℚ) * scale + (b : ℚ) * scale))
            (((-a : Int) : ℚ) * scale))
          (2 * scale)) / scale := by
  have hq : (2 : ℚ) ≤ (n : ℚ) + (b : ℚ) := by exact_mod_cast hnb
  have hn' : (0 : ℚ) ≤ (n : ℚ) := by exact_mod_cast hn
  have ha' : (0 : ℚ) ≤ (a : ℚ) := by exact_mod_cast ha
  have hb' : (0 : ℚ) ≤ (b : ℚ) := by exact_mod_cast hb
  rcases lt_or_gt_of_ne hs with hneg | hpos
  · simp only [if_pos hneg]
    rw [le_div_iff_of_neg hneg]
    have h1 : (n : ℚ) * scale + (b : ℚ) * scale ≤
        minfunc (minfunc (maxfunc p ((n : ℚ) * scale + (b : ℚ) * scale))
          (((-a : Int) : ℚ) * scale)) (2 * scale) := by
      apply le_minfunc
      · apply le_minfunc
        · exact maxfunc_ge_right _ _
        · push_cast
          nlinarith
      · nlinarith
    push_cast at h1 ⊢
    linarith
  · simp only [if_neg (not_lt.mpr (le_of_lt hpos))]
    rw [le_div_iff₀ hpos]
    have h1 : maxfunc (maxfunc (minfunc p ((n : ℚ) * scale + (b : ℚ) * scale))
          (((-a : Int) : ℚ) * scale)) (2 * scale) ≤ (n : ℚ) * scale + (b : ℚ) * scale := by
      apply maxfunc_le
      · apply maxfunc_le
        · exact minfunc_le_right _ _
        · push_cast
          nlinarith
      · nlinarith
    push_cast at h1 ⊢
    linarith

/-- The left edge `CropItem` clamps the pointer to, for an extent of
`n * scale`. -/
theorem CropItem_clamp_tl_x (dock : CanvasDock) (pos : vec2) (item : ItemData) (n : Int)
    (hx : dock.stretchItemSize.x = (n : ℚ) * item.scale.x)
    (hf : hasFlag dock.stretchHandle.flags ITEM_LEFT = true) :
    (CropItem_clamp dock pos item).tl_x =
      (if item.scale.x < 0 then maxfunc else minfunc)
        ((if item.scale.x < 0 then minfunc else maxfunc)
          ((if item.scale.x < 0 then maxfunc else minfunc)
            (vec3_transform (vec3_set pos.x pos.y 0) dock.screenToItem).x
            ((n : ℚ) * item.scale.x + (dock.startCrop.right : ℚ) * item.scale.x))
          ((wrap_int (-dock.startCrop.left) : ℚ) * item.scale.x))
        ((n : ℚ) * item.scale.x - 2 * item.scale.x) := by
  simp only [CropItem_clamp, hf, if_true, hx]

/-- The right edge `CropItem` clamps the pointer to, for an extent of
`n * scale`. -/
theorem CropItem_clamp_br_x (dock : CanvasDock) (pos : vec2) (item : ItemData) (n : Int)
    (hx : dock.stretchItemSize.x = (n : ℚ) * item.scale.x)
    (hf : hasFlag dock.stretchHandle.flags ITEM_LEFT = false)
    (hg : hasFlag dock.stretchHandle.flags ITEM_RIGHT = true) :
    (CropItem_clamp dock pos item).br_x =
      (if item.scale.x < 0 then minfunc else maxfunc)
        ((if item.scale.x < 0 then minfunc else maxfunc)
          ((if item.scale.x < 0 then maxfunc else minfunc)
            (vec3_transform (vec3_set pos.x pos.y 0) dock.screenToItem).x
            ((n : ℚ) * item.scale.x + (dock.startCrop.right : ℚ) * item.scale.x))
          ((wrap_int (-dock.startCrop.left) : ℚ) * item.scale.x))
        (2 * item.scale.x) := by
  simp only [CropItem_clamp, hf, hg, if_true, Bool.false_eq_true, if_false, hx]

/-- The crop a left handle writes, for an extent of `n * scale` and a start
crop `a` of the left side: it lies between 0 and `a + n - 2`. -/
theorem CropItem_crop_left_range (dock : CanvasDock) (pos : vec2) (item : ItemData) (n : Int)
    (hs : item.scale.x ≠ 0) (hx : dock.stretchItemSize.x = (n : ℚ) * item.scale.x)
    (hf : hasFlag dock.stretchHandle.flags ITEM_LEFT = true)
    (ha : 0 ≤ dock.startCrop.left) (hamax : dock.startCrop.left ≤ INT_MAX)
    (hna : 2 ≤ n + dock.startCrop.left) (hmax : dock.startCrop.left + n - 2 ≤ INT_MAX) :
    0 ≤ (CropItem_crop dock item (CropItem_clamp dock pos item)).left ∧
    (CropItem_crop dock item (CropItem_clamp dock pos item)).left ≤
      dock.startCrop.left + n - 2 := by
  have hnear : (CropItem_crop dock item (CropItem_clamp dock pos item)).left =
      wrap_int (dock.startCrop.left +
        roundToInt ((CropItem_clamp dock pos item).tl_x / item.scale.x)) := by
    simp only [CropItem_crop]; split_ifs <;> simp_all
  have hmin : INT_MIN ≤ -dock.startCrop.left := by
    unfold INT_MIN; unfold INT_MAX at hamax; omega
  have hneg : wrap_int (-dock.startCrop.left) = -dock.startCrop.left :=
    wrap_int_eq _ hmin (by unfold INT_MAX; omega)
  have htl := CropItem_clamp_tl_x dock pos item n hx hf
  rw [hneg] at htl
  have hlo := crop_near_edge_lower item.scale.x
    (vec3_transform (vec3_set pos.x pos.y 0) dock.screenToItem).x n
    dock.startCrop.left dock.startCrop.right hs hna
  rw [← htl] at hlo
  have hhi := crop_near_edge_bound item.scale.x
    ((if item.scale.x < 0 then minfunc else maxfunc)
      ((if item.scale.x < 0 then maxfunc else minfunc)
        (vec3_transform (vec3_set pos.x pos.y 0) dock.screenToItem).x
        ((n : ℚ) * item.scale.x + (dock.startCrop.right : ℚ) * item.scale.x))
      (((-dock.startCrop.left : Int) : ℚ) * item.scale.x)) n hs
  rw [← htl] at hhi
  have hr := roundToInt_between _ (-dock.startCrop.left) (n - 2) hlo hhi hmin
    (by unfold INT_MAX at hmax ⊢; omega)
  rw [hnear, wrap_int_eq _ (by unfold INT_MIN; omega) (by unfold INT_MAX at hmax ⊢; omega)]
  omega

/-- The crop a right handle writes, for an extent of `n * scale` and a start
crop `b` of the right side: it lies between 0 and `b + n - 2`. -/
theorem CropItem_crop_right_range (dock : CanvasDock) (pos : vec2) (item : ItemData) (n : Int)
    (hs : item.scale.x ≠ 0) (hx : dock.stretchItemSize.x = (n : ℚ) * item.scale.x)
    (hf : hasFlag dock.stretchHandle.flags ITEM_LEFT = false)
    (hg : hasFlag dock.stretchHandle.flags ITEM_RIGHT = true)
    (hn : 0 ≤ n) (ha : 0 ≤ dock.startCrop.left) (hamax : dock.startCrop.left ≤ INT_MAX)
    (hb : 0 ≤ dock.startCrop.right) (hbmax : dock.startCrop.right ≤ INT_MAX)
    (hnb : 2 ≤ n + dock.startCrop.right) (hmax : dock.startCrop.right + n - 2 ≤ INT_MAX) :
    0 ≤ (CropItem_crop dock item (CropItem_clamp dock pos item)).right ∧
    (CropItem_crop dock item (CropItem_clamp dock pos item)).right ≤
      dock.startCrop.right + n - 2 := by
  have hfar : (CropItem_crop dock item (CropItem_clamp dock pos item)).right =
      wrap_int (dock.startCrop.right + roundToInt
        ((dock.stretchItemSize.x - (CropItem_clamp dock pos item).br_x) / item.scale.x)) := by
    simp only [CropItem_crop]; split_ifs <;> simp_all
  have hneg : wrap_int (-dock.startCrop.left) = -dock.startCrop.left :=
    wrap_int_eq _ (by unfold INT_MIN; unfold INT_MAX at hamax; omega) (by unfold INT_MAX; omega)
  have hbr := CropItem_clamp_br_x dock pos item n hx hf hg
  rw [hneg] at hbr
  have hlo := crop_far_edge_lower item.scale.x
    (vec3_transform (vec3_set pos.x pos.y 0) dock.screenToItem).x n
    dock.startCrop.left dock.startCrop.right hs hn ha hb hnb
  rw [← hbr, ← hx] at hlo
  have hhi := crop_far_edge_bound item.scale.x
    ((if item.scale.x < 0 then minfunc else maxfunc)
      ((if item.scale.x < 0 then maxfunc else minfunc)
        (vec3_transform (vec3_set pos.x pos.y 0) dock.screenToItem).x
        ((n : ℚ) * item.scale.x + (dock.startCrop.right : ℚ) * item.scale.x))
      (((-dock.startCrop.left : Int) : ℚ) * item.scale.x)) n hs
  rw [← hbr, ← hx] at hhi
  have hmin : INT_MIN ≤ -dock.startCrop.right := by
    unfold INT_MIN; unfold INT_MAX at hbmax; omega
  have hr := roundToInt_between _ (-dock.startCrop.right) (n - 2) hlo hhi hmin
    (by unfold INT_MAX at hmax ⊢; omega)
  rw [hfar, wrap_int_eq _ (by unfold INT_MIN; omega) (by unfold INT_MAX at hmax ⊢; omega)]
  omega

/-- For an item without bounds, whose recorded extent is the cropped source
width times the scale, with a non-negative start crop that fits into a source
whose width is an `int` value and that leaves 2 pixels beside each single
side, a crop through a left or right handle leaves at least 2 source pixels of
width, whatever the pointer position and the sign of the scale. -/
theorem CropItem_width_without_bounds (dock : CanvasDock) (pos : vec2) (item : ItemData)
    (n : Int) (hs : item.scale.x ≠ 0)
    (hsize : dock.stretchItemSize.x = (n : ℚ) * item.scale.x)
    (hn : n = (item.source_width : Int) - dock.startCrop.left - dock.startCrop.right)
    (hw : (item.source_width : Int) ≤ INT_MAX)
    (hl : 0 ≤ dock.startCrop.left) (hr : 0 ≤ dock.startCrop.right)
    (hwl : dock.startCrop.left + 2 ≤ item.source_width)
    (hwr : dock.startCrop.right + 2 ≤ item.source_width)
    (hfit : dock.startCrop.left + dock.startCrop.right ≤ item.source_width)
    (hside : hasFlag dock.stretchHandle.flags ITEM_LEFT = true ∨
      hasFlag dock.stretchHandle.flags ITEM_RIGHT = true) :
    (item.source_width : Int) - (CropItem dock pos item).crop.left -
      (CropItem dock pos item).crop.right ≥ 2 := by
  have hcrop : (CropItem dock pos item).crop = CropItem_crop dock item
      (CropItem_clamp dock pos item) := by
    simp only [CropItem]; split_ifs <;> rfl
  rw [hcrop]
  by_cases hf : hasFlag dock.stretchHandle.flags ITEM_LEFT = true
  · have hright : (CropItem_crop dock item (CropItem_clamp dock pos item)).right =
        dock.startCrop.right := by
      simp only [CropItem_crop]; split_ifs <;> simp_all
    have h := CropItem_crop_left_range dock pos item n hs hsize hf hl (by omega) (by omega) (by omega)
    rw [hright]
    omega
  · have hg : hasFlag dock.stretchHandle.flags ITEM_RIGHT = true := by
      rcases hside with h | h
      · exact absurd h hf
      · exact h
    have hf' : hasFlag dock.stretchHandle.flags ITEM_LEFT = false := by
      simpa using hf
    have hleft : (CropItem_crop dock item (CropItem_clamp dock pos item)).left =
        dock.startCrop.left := by
      simp only [CropItem_crop]; split_ifs <;> simp_all
    have h := CropItem_crop_right_range dock pos item n hs hsize hf' hg (by omega) hl (by omega)
      hr (by omega) (by omega) (by omega)
    rw [hleft]
    omega


/-- Every field of the crop `CropItem` hands over is a value of the type `int`
when the fields of the start crop are. -/
theorem CropItem_crop_in_int_range (dock : CanvasDock) (pos : vec2) (item : ItemData)
    (h : crop_in_int_range dock.startCrop) :
    crop_in_int_range (CropItem dock pos item).crop := by
  have hcrop : (CropItem dock pos item).crop = CropItem_crop dock item
      (CropItem_clamp dock pos item) := by
    simp only [CropItem]; split_ifs <;> rfl
  rw [hcrop]
  obtain ⟨hl, ht, hr, hb⟩ := h
  simp only [crop_in_int_range, CropItem_crop]
  split_ifs <;> refine ⟨?_, ?_, ?_, ?_⟩ <;> first | exact wrap_int_range _ | assumption

/-! ## Lemmas on the corners after aspect clamping -/

/-- The corners `ClampAspect` leaves are those its last four statements
compute from the clamped size. -/
theorem ClampAspect_shape (stretchHandle : ItemHandle) (tl br : vec3) (size baseSize : vec2) :
    ClampAspect stretchHandle tl br size baseSize =
      (fun size : vec2 =>
        let stretchFlags := stretchHandle.flags
        let tl : vec3 :=
          if hasFlag stretchFlags ITEM_LEFT then { tl with x := br.x - size.x } else tl
        let br : vec3 :=
          if hasFlag stretchFlags ITEM_LEFT then br
          else if hasFlag stretchFlags ITEM_RIGHT then { br with x := tl.x + size.x } else br
        let tl : vec3 :=
          if hasFlag stretchFlags ITEM_TOP then { tl with y := br.y - size.y } else tl
        let br : vec3 :=
          if hasFlag stretchFlags ITEM_TOP then br
          else if hasFlag stretchFlags ITEM_BOTTOM then { br with y := tl.y + size.y } else br
        (⟨tl, br, size⟩ : ClampResult))
      (ClampAspect stretchHandle tl br size baseSize).size :=
  rfl

/-- The corners after `ClampAspect` on the x axis. -/
theorem ClampAspect_x (stretchHandle : ItemHandle) (tl br : vec3) (size baseSize : vec2) :
    (ClampAspect stretchHandle tl br size baseSize).tl.x =
        (if hasFlag stretchHandle.flags ITEM_LEFT then
          br.x - (ClampAspect stretchHandle tl br size baseSize).size.x else tl.x) ∧
    (ClampAspect stretchHandle tl br size baseSize).br.x =
        (if hasFlag stretchHandle.flags ITEM_LEFT then br.x
          else if hasFlag stretchHandle.flags ITEM_RIGHT then
            tl.x + (ClampAspect stretchHandle tl br size baseSize).size.x
          else br.x) := by
  generalize hs : (ClampAspect stretchHandle tl br size baseSize).size = s
  rw [ClampAspect_shape, hs]
  dsimp only
  cases hasFlag stretchHandle.flags ITEM_LEFT <;> cases hasFlag stretchHandle.flags ITEM_RIGHT <;>
    cases hasFlag stretchHandle.flags ITEM_TOP <;>
    cases hasFlag stretchHandle.flags ITEM_BOTTOM <;> exact ⟨rfl, rfl⟩

/-- The corners after `ClampAspect` on the y axis. -/
theorem ClampAspect_y (stretchHandle : ItemHandle) (tl br : vec3) (size baseSize : vec2) :
    (ClampAspect stretchHandle tl br size baseSize).tl.y =
        (if hasFlag stretchHandle.flags ITEM_TOP then
          br.y - (ClampAspect stretchHandle tl br size baseSize).size.y else tl.y) ∧
    (ClampAspect stretchHandle tl br size baseSize).br.y =
        (if hasFlag stretchHandle.flags ITEM_TOP then br.y
          else if hasFlag stretchHandle.flags ITEM_BOTTOM then
            tl.y + (ClampAspect stretchHandle tl br size baseSize).size.y
          else br.y) := by
  generalize hs : (ClampAspect stretchHandle tl br size baseSize).size = s
  rw [ClampAspect_shape, hs]
  dsimp only
  cases hasFlag stretchHandle.flags ITEM_LEFT <;> cases hasFlag stretchHandle.flags ITEM_RIGHT <;>
    cases hasFlag stretchHandle.flags ITEM_TOP <;>
    cases hasFlag stretchHandle.flags ITEM_BOTTOM <;> exact ⟨rfl, rfl⟩

/-! ## Lemmas on the group resize notifications -/

/-- With `ignoreGroup` set `GetStretchHandleData` issues no notification, and
when it finds a handle on an item of the scene it records the group of that
item. -/
theorem GetStretchHandleData_ignoreGroup (env : CanvasEnv) (dock : CanvasDock) (pos : vec2) :
    (GetStretchHandleData env dock pos true).calls = dock.calls ∧
    ((FindHandleAtPos_items env dock.scene (handleSearch env pos)).handle ≠ .None →
      (itemOfPointer dock.scene
        (FindHandleAtPos_items env dock.scene (handleSearch env pos)).item).isSome = true →
      (GetStretchHandleData env dock pos true).stretchGroup =
        (obs_sceneitem_get_group dock.scene
          (FindHandleAtPos_items env dock.scene (handleSearch env pos)).item).map
          fun g => g.data.id) := by
  constructor
  · simp only [GetStretchHandleData]
    split
    · rfl
    · split <;> simp
  · intro hh hi
    simp only [GetStretchHandleData, handleSearch] at hh hi ⊢
    rw [if_pos hh]
    split
    · rename_i heq
      rw [heq] at hi
      simp at hi
    · rfl

/-- A press of the left button on an unlocked dock outside scroll mode leaves
the group of the drag target alone. -/
theorem HandleMousePressEvent_left_group (env : CanvasEnv) (dock : CanvasDock)
    (event : MouseEvent) (hlocked : dock.locked = false) (hscroll : dock.scrollMode = false)
    (hbutton : event.button = .Left) :
    (HandleMousePressEvent env dock event).stretchGroup = dock.stretchGroup := by
  simp [HandleMousePressEvent, hlocked, hscroll, hbutton]

/-- A processed release notifies the end of the group resize for the recorded
group. -/
theorem HandleMouseReleaseEvent_calls (env : CanvasEnv) (dock : CanvasDock)
    (event : MouseEvent) (hlocked : dock.locked = false) (hdown : dock.mouseDown = true)
    (g : Nat) (hg : dock.stretchGroup = some g) :
    (HandleMouseReleaseEvent env dock event).calls =
      dock.calls ++ [Call.defer_group_resize_end g] := by
  simp [HandleMouseReleaseEvent, hlocked, hdown, hg]

/-- An unselected group has its children searched under its draw transform and
rotation, and the item, handle, angle and points found copied back. -/
theorem FindHandleAtPos_unselected_group (env : CanvasEnv) (d : ItemData)
    (cs : List SceneItem) (data : HandleFindData) (hsel : d.selected = false)
    (hgroup : d.is_group = true) :
    FindHandleAtPos env (.mk d cs) data =
      { data with
        item := (FindHandleAtPos_items env cs
          { data with
            parent_xform := env.lib.draw_transform (.mk d cs), angleOffset := d.rot }).item,
        handle := (FindHandleAtPos_items env cs
          { data with
            parent_xform := env.lib.draw_transform (.mk d cs), angleOffset := d.rot }).handle,
        angle := (FindHandleAtPos_items env cs
          { data with
            parent_xform := env.lib.draw_transform (.mk d cs), angleOffset := d.rot }).angle,
        rotatePoint := (FindHandleAtPos_items env cs
          { data with
            parent_xform := env.lib.draw_transform (.mk d cs),
            angleOffset := d.rot }).rotatePoint,
        offsetPoint := (FindHandleAtPos_items env cs
          { data with
            parent_xform := env.lib.draw_transform (.mk d cs),
            angleOffset := d.rot }).offsetPoint } := by
  rw [FindHandleAtPos]
  simp only [hsel, hgroup, Bool.not_false, if_true]

/-! ## Lemmas on the handle lookup -/

/-- The search for the closest handle over a list of candidates keeps the
handle found so far when no candidate is strictly closer, and else ends on a
candidate that is strictly closer and nearest among all candidates. -/
theorem closer_foldl :
    ∀ (l : List (ItemHandle × ℚ)) (acc : Option ItemHandle × ℚ),
      (l.foldl closer acc = acc ∧ ∀ c ∈ l, acc.2 ≤ c.2) ∨
      ∃ c ∈ l, l.foldl closer acc = (some c.1, c.2) ∧ c.2 < acc.2 ∧ ∀ c' ∈ l, c.2 ≤ c'.2
  | [], acc => Or.inl ⟨rfl, by simp⟩
  | c :: l, acc => by
    by_cases hc : c.2 < acc.2
    · have hstep : closer acc c = (some c.1, c.2) := by simp [closer, hc]
      rw [List.foldl_cons, hstep]
      rcases closer_foldl l (some c.1, c.2) with ⟨h1, h2⟩ | ⟨c', hc', h1, h2, h3⟩
      · refine Or.inr ⟨c, List.mem_cons_self _ _, h1, hc, ?_⟩
        intro c' hc'
        rcases List.mem_cons.mp hc' with h | h
        · rw [h]
        · exact h2 c' h
      · refine Or.inr ⟨c', List.mem_cons_of_mem _ hc', h1, lt_trans h2 hc, ?_⟩
        intro c'' hc''
        rcases List.mem_cons.mp hc'' with h | h
        · rw [h]; exact le_of_lt h2
        · exact h3 c'' h
    · have hstep : closer acc c = acc := by simp [closer, hc]
      rw [List.foldl_cons, hstep]
      rcases closer_foldl l acc with ⟨h1, h2⟩ | ⟨c', hc', h1, h2, h3⟩
      · refine Or.inl ⟨h1, ?_⟩
        intro c' hc'
        rcases List.mem_cons.mp hc' with h | h
        · rw [h]; exact not_lt.mp hc
        · exact h2 c' h
      · refine Or.inr ⟨c', List.mem_cons_of_mem _ hc', h1, h2, ?_⟩
        intro c'' hc''
        rcases List.mem_cons.mp hc'' with h | h
        · rw [h]; exact le_trans (le_of_lt h2) (not_lt.mp hc)
        · exact h3 c'' h

/-- The two nested tests of a handle amount to the inner one when it implies
the outer one. -/
theorem ite_closest {α : Type} (p q : Prop) [Decidable p] [Decidable q] (a st : α)
    (hq : q → p) : (if p then if q then a else st else st) = if q then a else st := by
  by_cases h : q
  · rw [if_pos (hq h)]
  · rw [if_neg h, ite_self]

/-- A resize handle test follows one comparison of the search. -/
theorem TestHandle_tracks (data : HandleFindData) (id : Nat) (transform : matrix4) (x y : ℚ)
    (handle : ItemHandle) (st : HandleFindData × ℚ) (acc : Option ItemHandle × ℚ)
    (h : tracks data id st acc) :
    tracks data id (TestHandle id transform x y handle st)
      (closer acc (handle, handleDist transform x y data)) := by
  obtain ⟨h2, hle, hpos, hrad, hpx, hao, hnone, hsome⟩ := h
  have hd : handleDist transform x y st.1 = handleDist transform x y data := by
    simp only [handleDist, hpx, hpos]
  have hunf : TestHandle id transform x y handle st =
      if handleDist transform x y st.1 < st.1.radius * st.1.radius then
        if handleDist transform x y st.1 < st.2 then
          ({ st.1 with handle := handle, item := some id }, handleDist transform x y st.1)
        else st
      else st := rfl
  rw [hunf, hd, ite_closest _ _ _ _ (fun hc => by rw [hrad]; exact lt_of_lt_of_le hc hle)]
  by_cases hc : handleDist transform x y data < st.2
  · have hr : handleDist transform x y data < data.radius * data.radius := lt_of_lt_of_le hc hle
    rw [if_pos hc]
    have hcl : closer acc (handle, handleDist transform x y data) =
        (some handle, handleDist transform x y data) := by
      simp only [closer]; rw [if_pos (h2 ▸ hc)]
    rw [hcl]
    refine ⟨rfl, le_of_lt hr, hpos, hrad, hpx, hao, ?_, ?_⟩
    · intro hn; simp at hn
    · intro h' hh
      have : handle = h' := by simpa using hh
      subst this
      exact ⟨rfl, rfl⟩
  · have hcl : closer acc (handle, handleDist transform x y data) = acc := by
      simp only [closer]; rw [if_neg (h2 ▸ hc)]
    rw [if_neg hc, hcl]
    exact ⟨h2, hle, hpos, hrad, hpx, hao, hnone, hsome⟩

/-- The rotate handle test follows one comparison of the search. -/
theorem TestRotHandle_tracks (m : FloatMath) (data : HandleFindData) (item : ItemData)
    (transform : matrix4) (st : HandleFindData × ℚ) (acc : Option ItemHandle × ℚ)
    (h : tracks data item.id st acc) :
    tracks data item.id (TestRotHandle m item transform st)
      (closer acc (.Rot, rotHandleDist m transform data)) := by
  obtain ⟨h2, hle, hpos, hrad, hpx, hao, hnone, hsome⟩ := h
  have hd : rotHandleDist m transform st.1 = rotHandleDist m transform data := by
    simp only [rotHandleDist, hpos, hrad, hpx, hao]
  have hunf : TestRotHandle m item transform st =
      if rotHandleDist m transform st.1 < st.1.radius * st.1.radius then
        if rotHandleDist m transform st.1 < st.2 then
          ({ st.1 with
              item := some item.id, angle := item.rot, handle := .Rot,
              rotatePoint :=
                ⟨transform.t.x + transform.x.x / 2 + transform.y.x / 2,
                 transform.t.y + transform.x.y / 2 + transform.y.y / 2⟩,
              offsetPoint := RotatePos m
                ⟨item.pos.x - (transform.t.x + transform.x.x / 2 + transform.y.x / 2),
                 item.pos.y - (transform.t.y + transform.x.y / 2 + transform.y.y / 2)⟩
                (-RAD m item.rot) }, rotHandleDist m transform st.1)
        else st
      else st := rfl
  rw [hunf, hd, ite_closest _ _ _ _ (fun hc => by rw [hrad]; exact lt_of_lt_of_le hc hle)]
  by_cases hc : rotHandleDist m transform data < st.2
  · have hr : rotHandleDist m transform data < data.radius * data.radius :=
      lt_of_lt_of_le hc hle
    rw [if_pos hc]
    have hcl : closer acc (.Rot, rotHandleDist m transform data) =
        (some .Rot, rotHandleDist m transform data) := by
      simp only [closer]; rw [if_pos (h2 ▸ hc)]
    rw [hcl]
    refine ⟨rfl, le_of_lt hr, hpos, hrad, hpx, hao, ?_, ?_⟩
    · intro hn; simp at hn
    · intro h' hh
      have : ItemHandle.Rot = h' := by simpa using hh
      subst this
      exact ⟨rfl, rfl⟩
  · have hcl : closer acc (.Rot, rotHandleDist m transform data) = acc := by
      simp only [closer]; rw [if_neg (h2 ▸ hc)]
    rw [if_neg hc, hcl]
    exact ⟨h2, hle, hpos, hrad, hpx, hao, hnone, hsome⟩

/-- The handle tests of a selected item follow the search for the closest
handle over its nine handles, starting from the radius. -/
theorem FindHandleAtPos_tracks (env : CanvasEnv) (d : ItemData) (cs : List SceneItem)
    (data : HandleFindData) (hsel : d.selected = true) :
    ∃ st : HandleFindData × ℚ, FindHandleAtPos env (.mk d cs) data = st.1 ∧
      tracks data d.id st
        ((handleDistances env (.mk d cs) data).foldl closer
          (none, data.radius * data.radius)) := by
  have h0 : tracks data d.id (data, data.radius * data.radius)
      (none, data.radius * data.radius) :=
    ⟨rfl, le_refl _, rfl, rfl, rfl, rfl, fun _ => rfl, fun h hh => by simp at hh⟩
  have h1 := TestHandle_tracks data d.id (env.lib.box_transform (.mk d cs)) 0 0 .TopLeft _ _ h0
  have h2 := TestHandle_tracks data d.id (env.lib.box_transform (.mk d cs)) (1 / 2) 0
    .TopCenter _ _ h1
  have h3 := TestHandle_tracks data d.id (env.lib.box_transform (.mk d cs)) 1 0 .TopRight _ _ h2
  have h4 := TestHandle_tracks data d.id (env.lib.box_transform (.mk d cs)) 0 (1 / 2)
    .CenterLeft _ _ h3
  have h5 := TestHandle_tracks data d.id (env.lib.box_transform (.mk d cs)) 1 (1 / 2)
    .CenterRight _ _ h4
  have h6 := TestHandle_tracks data d.id (env.lib.box_transform (.mk d cs)) 0 1
    .BottomLeft _ _ h5
  have h7 := TestHandle_tracks data d.id (env.lib.box_transform (.mk d cs)) (1 / 2) 1
    .BottomCenter _ _ h6
  have h8 := TestHandle_tracks data d.id (env.lib.box_transform (.mk d cs)) 1 1
    .BottomRight _ _ h7
  have h9 := TestRotHandle_tracks env.math data d (env.lib.box_transform (.mk d cs)) _ _ h8
  refine ⟨_, ?_, h9⟩
  rw [FindHandleAtPos]
  simp only [hsel, Bool.not_true, Bool.false_eq_true, if_false]

/-- The handle tests of a selected item with no handle within the radius leave
the search data alone; with one within the radius they record the item and a
handle of it that is within the radius and nearest to the pointer among its
handles. In both cases the search context stays. -/
theorem FindHandleAtPos_selected (env : CanvasEnv) (d : ItemData) (cs : List SceneItem)
    (data : HandleFindData) (hsel : d.selected = true) :
    ((FindHandleAtPos env (.mk d cs) data).pos = data.pos ∧
      (FindHandleAtPos env (.mk d cs) data).radius = data.radius ∧
      (FindHandleAtPos env (.mk d cs) data).parent_xform = data.parent_xform ∧
      (FindHandleAtPos env (.mk d cs) data).angleOffset = data.angleOffset) ∧
    ((∀ c ∈ handleDistances env (.mk d cs) data, data.radius * data.radius ≤ c.2) →
      FindHandleAtPos env (.mk d cs) data = data) ∧
    ((∃ c ∈ handleDistances env (.mk d cs) data, c.2 < data.radius * data.radius) →
      (FindHandleAtPos env (.mk d cs) data).item = some d.id ∧
      ∃ c ∈ handleDistances env (.mk d cs) data,
        (FindHandleAtPos env (.mk d cs) data).handle = c.1 ∧
        c.2 < data.radius * data.radius ∧
        ∀ c' ∈ handleDistances env (.mk d cs) data, c.2 ≤ c'.2) := by
  obtain ⟨st, hst, -, -, hpos, hrad, hpx, hao, hnone, hsome⟩ :=
    FindHandleAtPos_tracks env d cs data hsel
  rw [hst]
  refine ⟨⟨hpos, hrad, hpx, hao⟩, ?_, ?_⟩
  · intro hall
    rcases closer_foldl (handleDistances env (.mk d cs) data)
      (none, data.radius * data.radius) with ⟨h1, -⟩ | ⟨c, hc, -, h2, -⟩
    · exact hnone (by rw [h1])
    · exact absurd h2 (not_lt.mpr (hall c hc))
  · rintro ⟨c0, hc0, hlt⟩
    rcases closer_foldl (handleDistances env (.mk d cs) data)
      (none, data.radius * data.radius) with ⟨-, h2⟩ | ⟨c, hc, h1, h2, h3⟩
    · exact absurd hlt (not_lt.mpr (h2 c0 hc0))
    · obtain ⟨hh, hi⟩ := hsome c.1 (by rw [h1])
      exact ⟨hi, c, hc, hh, h2, h3⟩

/-- Copying what was found into the search data gives back the result of a
search that kept the context. -/
theorem copy_found (data r : HandleFindData) (h1 : r.pos = data.pos)
    (h2 : r.radius = data.radius) (h3 : r.parent_xform = data.parent_xform)
    (h4 : r.angleOffset = data.angleOffset) :
    ({ data with
        item := r.item, handle := r.handle, angle := r.angle, rotatePoint := r.rotatePoint,
        offsetPoint := r.offsetPoint } : HandleFindData) = r := by
  cases r; cases data; simp_all

/-- The visits keep the search context. -/
theorem foldl_visitStep_context (env : CanvasEnv) :
    ∀ (V : List (SceneItem × matrix4 × ℚ)) (data : HandleFindData),
      (V.foldl (visitStep env) data).pos = data.pos ∧
      (V.foldl (visitStep env) data).radius = data.radius ∧
      (V.foldl (visitStep env) data).parent_xform = data.parent_xform ∧
      (V.foldl (visitStep env) data).angleOffset = data.angleOffset
  | [], _ => ⟨rfl, rfl, rfl, rfl⟩
  | v :: V, data => by
    rw [List.foldl_cons]
    exact foldl_visitStep_context env V (visitStep env data v)

/-- The visits do not depend on the parent transform and angle offset of the
search data, which each visit brings along. -/
theorem foldl_visitStep_reparent (env : CanvasEnv) (X : matrix4) (Y : ℚ) :
    ∀ (V : List (SceneItem × matrix4 × ℚ)) (data : HandleFindData),
      V.foldl (visitStep env) { data with parent_xform := X, angleOffset := Y } =
        { V.foldl (visitStep env) data with parent_xform := X, angleOffset := Y }
  | [], _ => rfl
  | v :: V, data => by
    rw [List.foldl_cons, List.foldl_cons]
    exact foldl_visitStep_reparent env X Y V (visitStep env data v)

mutual
/-- `FindHandleAtPos` is the run of the handle tests over the selected items it
visits. -/
theorem FindHandleAtPos_visits (env : CanvasEnv) :
    ∀ (item : SceneItem) (data : HandleFindData),
      FindHandleAtPos env item data =
        (handleVisits env item data.parent_xform data.angleOffset).foldl (visitStep env) data
  | .mk d cs, data => by
    cases hsel : d.selected
    · cases hgroup : d.is_group
      · rw [FindHandleAtPos, handleVisits]
        simp [hsel, hgroup]
      · rw [FindHandleAtPos_unselected_group env d cs data hsel hgroup, handleVisits]
        simp only [hsel, hgroup, Bool.not_false, if_true]
        rw [FindHandleAtPos_items_visits env cs
          { data with parent_xform := env.lib.draw_transform (.mk d cs), angleOffset := d.rot },
          foldl_visitStep_reparent]
        obtain ⟨h1, h2, h3, h4⟩ := foldl_visitStep_context env
          (handleVisits_items env cs (env.lib.draw_transform (.mk d cs)) d.rot) data
        exact copy_found data _ h1 h2 h3 h4
    · rw [handleVisits]
      simp only [hsel, Bool.not_true, Bool.false_eq_true, if_false, List.foldl_cons,
        List.foldl_nil]
      obtain ⟨⟨h1, h2, h3, h4⟩, -, -⟩ := FindHandleAtPos_selected env d cs data hsel
      exact (copy_found data _ h1 h2 h3 h4).symm
/-- The enumeration of `FindHandleAtPos` is the run of the handle tests over
the selected items it visits. -/
theorem FindHandleAtPos_items_visits (env : CanvasEnv) :
    ∀ (items : List SceneItem) (data : HandleFindData),
      FindHandleAtPos_items env items data =
        (handleVisits_items env items data.parent_xform data.angleOffset).foldl
          (visitStep env) data
  | [], _ => by simp [FindHandleAtPos_items, handleVisits_items]
  | c :: cs, data => by
    rw [FindHandleAtPos_items, handleVisits_items, List.foldl_append,
      FindHandleAtPos_visits env c data, FindHandleAtPos_items_visits env cs]
    obtain ⟨-, -, h3, h4⟩ := foldl_visitStep_context env
      (handleVisits env c data.parent_xform data.angleOffset) data
    rw [h3, h4]
end

mutual
/-- Only selected items are visited. -/
theorem handleVisits_selected (env : CanvasEnv) :
    ∀ (item : SceneItem) (X : matrix4) (Y : ℚ),
      ∀ v ∈ handleVisits env item X Y, v.1.data.selected = true
  | .mk d cs, X, Y => by
    intro v hv
    rw [handleVisits] at hv
    cases hsel : d.selected
    · cases hgroup : d.is_group
      · simp [hsel, hgroup] at hv
      · simp only [hsel, hgroup, Bool.not_false, if_true] at hv
        exact handleVisits_items_selected env cs _ _ v hv
    · simp only [hsel, Bool.not_true, Bool.false_eq_true, if_false, List.mem_singleton] at hv
      rw [hv]
      exact hsel
/-- Only selected items are visited over a list. -/
theorem handleVisits_items_selected (env : CanvasEnv) :
    ∀ (items : List SceneItem) (X : matrix4) (Y : ℚ),
      ∀ v ∈ handleVisits_items env items X Y, v.1.data.selected = true
  | [], _, _ => by simp [handleVisits_items]
  | c :: cs, X, Y => by
    intro v hv
    rw [handleVisits_items, List.mem_append] at hv
    rcases hv with hv | hv
    · exact handleVisits_selected env c X Y v hv
    · exact handleVisits_items_selected env cs X Y v hv
end

/-- The distances of the handles of a visit depend on the search data through
the pointer and the radius only. -/
theorem handleDistances_visit (env : CanvasEnv) (data data' : HandleFindData)
    (v : SceneItem × matrix4 × ℚ) (hpos : data'.pos = data.pos)
    (hrad : data'.radius = data.radius) :
    handleDistances env v.1 (visitData data' v) = handleDistances env v.1 (visitData data v) := by
  simp only [handleDistances, handleDist, rotHandleDist, visitData, hpos, hrad]

/-- A visit with no handle within the radius leaves the search data alone. -/
theorem visitStep_out_of_range (env : CanvasEnv) (data : HandleFindData)
    (v : SceneItem × matrix4 × ℚ) (hsel : v.1.data.selected = true)
    (hout : ¬ handleInRange env data v) : visitStep env data v = data := by
  obtain ⟨⟨d, cs⟩, X, Y⟩ := v
  have hall : ∀ c ∈ handleDistances env (.mk d cs) (visitData data (.mk d cs, X, Y)),
      (visitData data (.mk d cs, X, Y)).radius * (visitData data (.mk d cs, X, Y)).radius ≤
        c.2 := by
    intro c hc
    exact not_lt.mp (fun hlt => hout ⟨c, hc, hlt⟩)
  have h := (FindHandleAtPos_selected env d cs (visitData data (.mk d cs, X, Y)) hsel).2.1 hall
  simp only [visitStep, h]
  rfl

/-- A visit with a handle within the radius records the item and a handle of
it that is within the radius and nearest to the pointer among its handles. -/
theorem visitStep_in_range (env : CanvasEnv) (data : HandleFindData)
    (v : SceneItem × matrix4 × ℚ) (hsel : v.1.data.selected = true)
    (hin : handleInRange env data v) :
    (visitStep env data v).item = some v.1.data.id ∧
    ∃ c ∈ handleDistances env v.1 (visitData data v),
      (visitStep env data v).handle = c.1 ∧ c.2 < data.radius * data.radius ∧
      ∀ c' ∈ handleDistances env v.1 (visitData data v), c.2 ≤ c'.2 := by
  obtain ⟨⟨d, cs⟩, X, Y⟩ := v
  exact (FindHandleAtPos_selected env d cs (visitData data (.mk d cs, X, Y)) hsel).2.2 hin

/-- Visits with no handle within the radius leave the search data alone. -/
theorem foldl_visitStep_out_of_range (env : CanvasEnv) :
    ∀ (V : List (SceneItem × matrix4 × ℚ)) (data : HandleFindData),
      (∀ v ∈ V, v.1.data.selected = true) → (∀ v ∈ V, ¬ handleInRange env data v) →
      V.foldl (visitStep env) data = data
  | [], _, _, _ => rfl
  | v :: V, data, hsel, hout => by
    rw [List.foldl_cons, visitStep_out_of_range env data v (hsel v (List.mem_cons_self _ _))
      (hout v (List.mem_cons_self _ _))]
    exact foldl_visitStep_out_of_range env V data
      (fun w hw => hsel w (List.mem_cons_of_mem _ hw))
      (fun w hw => hout w (List.mem_cons_of_mem _ hw))

/-- Being within the radius depends on the search data through the pointer and
the radius only. -/
theorem handleInRange_congr (env : CanvasEnv) (data data' : HandleFindData)
    (v : SceneItem × matrix4 × ℚ) (hpos : data'.pos = data.pos)
    (hrad : data'.radius = data.radius) :
    handleInRange env data' v ↔ handleInRange env data v := by
  simp only [handleInRange, handleDistances_visit env data data' v hpos hrad, hrad]

/-- The last visit with a handle within the radius decides the result: its
item is recorded, with a handle within the radius that is nearest among the
handles of that item. -/
theorem foldl_visitStep_last (env : CanvasEnv) (data : HandleFindData)
    (V1 V2 : List (SceneItem × matrix4 × ℚ)) (v : SceneItem × matrix4 × ℚ)
    (hsel : ∀ w ∈ V1 ++ v :: V2, w.1.data.selected = true)
    (hin : handleInRange env data v) (hout : ∀ w ∈ V2, ¬ handleInRange env data w) :
    ((V1 ++ v :: V2).foldl (visitStep env) data).item = some v.1.data.id ∧
    ∃ c ∈ handleDistances env v.1 (visitData data v),
      ((V1 ++ v :: V2).foldl (visitStep env) data).handle = c.1 ∧
      c.2 < data.radius * data.radius ∧
      ∀ c' ∈ handleDistances env v.1 (visitData data v), c.2 ≤ c'.2 := by
  obtain ⟨hpos, hrad, -, -⟩ := foldl_visitStep_context env V1 data
  have hpos' : (visitStep env (V1.foldl (visitStep env) data) v).pos = data.pos := hpos
  have hrad' : (visitStep env (V1.foldl (visitStep env) data) v).radius = data.radius := hrad
  rw [List.foldl_append, List.foldl_cons,
    foldl_visitStep_out_of_range env V2 _
      (fun w hw => hsel w (List.mem_append_right _ (List.mem_cons_of_mem _ hw)))
      (fun w hw => fun h => hout w hw ((handleInRange_congr env data _ w hpos' hrad').mp h))]
  have h := visitStep_in_range env (V1.foldl (visitStep env) data) v
    (hsel v (List.mem_append_right _ (List.mem_cons_self _ _)))
    ((handleInRange_congr env data _ v hpos hrad).mpr hin)
  rw [handleDistances_visit env data _ v hpos hrad, hrad] at h
  exact h

/-- A list with an element satisfying `p` splits at the last such element. -/
theorem exists_last_satisfying {α : Type} (p : α → Prop) :
    ∀ (l : List α), (∃ x ∈ l, p x) →
      ∃ l1 x l2, l = l1 ++ x :: l2 ∧ p x ∧ ∀ y ∈ l2, ¬ p y
  | [], h => by simp at h
  | a :: l, h => by
    by_cases hl : ∃ x ∈ l, p x
    · obtain ⟨l1, x, l2, heq, hx, hrest⟩ := exists_last_satisfying p l hl
      exact ⟨a :: l1, x, l2, by rw [heq]; rfl, hx, hrest⟩
    · obtain ⟨x, hx, hp⟩ := h
      rcases List.mem_cons.mp hx with h1 | h1
      · subst h1
        exact ⟨[], x, l, rfl, hp, fun y hy hpy => hl ⟨y, hy, hpy⟩⟩
      · exact absurd ⟨x, h1, hp⟩ hl

/-- None of the nine handles of an item is the handle `None`. -/
theorem handleDistances_not_None (env : CanvasEnv) (item : SceneItem) (data : HandleFindData) :
    ∀ c ∈ handleDistances env item data, c.1 ≠ ItemHandle.None := by
  intro c hc
  simp only [handleDistances, List.mem_cons, List.mem_singleton, List.not_mem_nil,
    or_false] at hc
  rcases hc with h | h | h | h | h | h | h | h | h <;> rw [h] <;> simp

/-- The handles of the second item of `overlappingPair` seen from the origin:
the top left handle is at distance 3, all others are farther. -/
theorem overlappingPair_distances (data : HandleFindData) (hpos : data.pos = ⟨0, 0⟩)
    (hrad : data.radius = 6) (hpx : data.parent_xform = matrix4_identity)
    (hao : data.angleOffset = 0) :
    handleDistances gridEnv (plainItem 2 false true 3 0) data =
      [(.TopLeft, 9), (.TopCenter, 64), (.TopRight, 169), (.CenterLeft, 34),
       (.CenterRight, 194), (.BottomLeft, 109), (.BottomCenter, 164), (.BottomRight, 269),
       (.Rot, 964)] := by
  simp only [handleDistances, handleDist, rotHandleDist, hpos, hrad, hpx, hao, gridEnv, gridLib,
    flatMath, boxAt, plainItem, matrix4_identity, GetTransformedPos, vec3_transform, vec3_set,
    vec3_dist_sq, RotatePos, RAD, HANDLE_RADIUS, SceneItem.data]
  norm_num

/-- The handle lookup over `overlappingPair` with the pointer at the origin:
the first item has its top left handle under the pointer, and the result is
the top left handle of the second item. -/
theorem overlappingPair_lookup :
    (FindHandleAtPos_items gridEnv overlappingPair (handleSearch gridEnv ⟨0, 0⟩)).item =
      some 2 ∧
    (FindHandleAtPos_items gridEnv overlappingPair (handleSearch gridEnv ⟨0, 0⟩)).handle =
      .TopLeft := by
  have hr : (handleSearch gridEnv ⟨0, 0⟩).radius = 6 := by
    norm_num [handleSearch, HANDLE_SEL_RADIUS, HANDLE_RADIUS]
  have hp : (handleSearch gridEnv ⟨0, 0⟩).pos = ⟨0, 0⟩ := by
    simp [handleSearch]
  have h1 : FindHandleAtPos gridEnv (plainItem 1 false true 0 0) (handleSearch gridEnv ⟨0, 0⟩) =
      { handleSearch gridEnv ⟨0, 0⟩ with handle := .TopLeft, item := some 1 } := by
    simp only [plainItem]
    rw [FindHandleAtPos_corner gridEnv _ _ _ rfl (by rw [hr]; norm_num)
      (by norm_num [handleSearch, gridEnv, gridLib, boxAt, matrix4_identity, GetTransformedPos,
        vec3_transform, vec3_set, vec3_dist_sq, SceneItem.data])]
  have hd := overlappingPair_distances
    { handleSearch gridEnv ⟨0, 0⟩ with handle := .TopLeft, item := some 1 } hp hr rfl rfl
  have h2 := (FindHandleAtPos_selected gridEnv (plainItem 2 false true 3 0).data []
    { handleSearch gridEnv ⟨0, 0⟩ with handle := .TopLeft, item := some 1 } rfl).2.2
  have hitem : SceneItem.mk (plainItem 2 false true 3 0).data [] = plainItem 2 false true 3 0 :=
    rfl
  rw [hitem, hd] at h2
  obtain ⟨hi, c, hc, hh, -, hmin⟩ := h2 ⟨(.TopLeft, 9), by simp, by
    show (9 : ℚ) < (handleSearch gridEnv ⟨0, 0⟩).radius * (handleSearch gridEnv ⟨0, 0⟩).radius
    rw [hr]; norm_num⟩
  have h9 : c.2 ≤ 9 := hmin (.TopLeft, 9) (by simp)
  have hc1 : c.1 = .TopLeft := by
    simp only [List.mem_cons, List.mem_singleton, List.not_mem_nil, or_false] at hc
    rcases hc with h | h | h | h | h | h | h | h | h <;> rw [h] at h9 ⊢ <;>
      first
        | rfl
        | (exfalso; norm_num at h9)
  simp only [overlappingPair, FindHandleAtPos_items, h1]
  exact ⟨hi, hh.trans hc1⟩

/-! ## Theorems -/

/-- C1: after `DoSelect(pos)` the scene holds the same items (top-level and
nested) with only their selected flags rewritten, and an item is selected
exactly when it is the item `GetItemAtPos(pos, true)` returned; hence a click
without modifier on a point where the unselected, unlocked item `A` is the only
hit leaves `A` as the only selected item, and with no hit item nothing stays
selected. -/
theorem DoSelect_selects_exactly_item_at_pos (lib : Libobs) (scene : List SceneItem)
    (pos : vec2) :
    (allSceneItems (DoSelect lib scene pos)).map withoutSelection =
        (allSceneItems scene).map withoutSelection ∧
    (∀ x ∈ allSceneItems (DoSelect lib scene pos),
      (x.data.selected = true ↔
        (GetItemAtPos lib scene pos true).map (fun i => i.data.id) = some x.data.id)) ∧
    (∀ A ∈ scene, isHit lib pos A = true → obs_sceneitem_selected A = false →
      (∀ B ∈ scene, isHit lib pos B = true → B = A) →
      ∀ x ∈ allSceneItems (ProcessClick lib false scene pos),
        (x.data.selected = true ↔ x.data.id = A.data.id)) ∧
    ((∀ B ∈ scene, isHit lib pos B = false) →
      ∀ x ∈ allSceneItems (DoSelect lib scene pos), x.data.selected = false) := by
  refine ⟨?_, ?_, ?_, ?_⟩
  · exact select_one_items_frame _ scene
  · intro x hx
    exact select_one_items_selected _ scene x hx
  · intro A hA hhit hsel honly x hx
    have hget := GetItemAtPos_single_hit lib scene pos true A hA hhit hsel honly
    have hpc : ProcessClick lib false scene pos = DoSelect lib scene pos := by
      simp [ProcessClick]
    rw [hpc] at hx
    have := select_one_items_selected
      ((GetItemAtPos lib scene pos true).map (fun i : SceneItem => i.data.id)) scene x hx
    rw [this, hget]
    simp only [Option.map_some', Option.some.injEq]
    exact eq_comm
  · intro hno x hx
    have hget := GetItemAtPos_none_of_no_hit lib scene pos true hno
    have := select_one_items_selected
      ((GetItemAtPos lib scene pos true).map (fun i : SceneItem => i.data.id)) scene x hx
    rw [hget] at this
    cases hs : x.data.selected
    · rfl
    · exact absurd (this.mp hs) (by simp)

/-- Instance for C1: a click at (5, 5) on a scene with an unselected item under the
point and a selected item elsewhere leaves exactly item 1 selected. -/
theorem DoSelect_selects_exactly_item_at_pos_witness :
    isHit gridLib ⟨5, 5⟩ (plainItem 1 false false 0 0) = true ∧
    (∀ x ∈ allSceneItems (ProcessClick gridLib false
        [plainItem 1 false false 0 0, plainItem 2 false true 50 50] ⟨5, 5⟩),
      (x.data.selected = true ↔ x.data.id = 1)) := by
  have hA : isHit gridLib ⟨5, 5⟩ (plainItem 1 false false 0 0) = true := by
    simp [isHit, plainItem, SceneItemHasVideo, obs_sceneitem_locked, pointInItem, gridLib,
      boxAt, diagonalInv, vec3_transform, vec3_set, CloseFloat, SceneItem.data]
    norm_num
  have hB : isHit gridLib ⟨5, 5⟩ (plainItem 2 false true 50 50) = false := by
    simp [isHit, plainItem, SceneItemHasVideo, obs_sceneitem_locked, pointInItem, gridLib,
      boxAt, diagonalInv, vec3_transform, vec3_set, CloseFloat, SceneItem.data]
    norm_num
  refine ⟨hA, ?_⟩
  refine (DoSelect_selects_exactly_item_at_pos gridLib
    [plainItem 1 false false 0 0, plainItem 2 false true 50 50] ⟨5, 5⟩).2.2.1
    (plainItem 1 false false 0 0) (by simp) hA rfl ?_
  intro B hB' hBhit
  simp only [List.mem_cons, List.mem_singleton, List.not_mem_nil, or_false] at hB'
  rcases hB' with h | h
  · exact h
  · rw [h, hB] at hBhit
    exact absurd hBhit (by simp)

/-- C3: `GetItemAtPos(pos, false)` returns the last item of the enumeration
that has video, is not locked and passes the point test, and returns no item
exactly when no enumerated item does. -/
theorem GetItemAtPos_topmost_hit (lib : Libobs) (scene : List SceneItem) (pos : vec2) :
    GetItemAtPos lib scene pos false =
        (scene.filter (fun item => SceneItemHasVideo item && !obs_sceneitem_locked item &&
          pointInItem lib item pos)).getLast? ∧
    (GetItemAtPos lib scene pos false = none ↔
      ∀ item ∈ scene, (SceneItemHasVideo item && !obs_sceneitem_locked item &&
          pointInItem lib item pos) = false) := by
  have h1 : GetItemAtPos lib scene pos false = (scene.filter (isHit lib pos)).getLast? := by
    unfold GetItemAtPos
    rw [enum_FindItemAtPos_plain lib pos false scene none (by simp)]
    simp
  have hfun : (fun item => SceneItemHasVideo item && !obs_sceneitem_locked item &&
      pointInItem lib item pos) = isHit lib pos := by
    funext item; rfl
  rw [hfun]
  refine ⟨h1, ?_⟩
  rw [h1, List.getLast?_eq_none_iff, List.filter_eq_nil_iff]
  constructor
  · intro h item hi
    have := h item hi
    simpa [isHit] using this
  · intro h item hi
    have := h item hi
    simp only [isHit] at this ⊢
    simp [this]

/-- C4: whatever the scene, the point and the mode, the item `GetItemAtPos`
returns is not locked, and every item `FindItemsInBox` puts into the marquee
result is neither locked nor hidden. -/
theorem hit_testing_excludes_locked_and_hidden (lib : Libobs) (scene : List SceneItem)
    (startPos pos : vec2) (selectBelow : Bool) :
    (∀ item, GetItemAtPos lib scene pos selectBelow = some item →
      obs_sceneitem_locked item = false) ∧
    (∀ item ∈ BoxItems lib scene startPos pos,
      obs_sceneitem_locked item = false ∧ obs_sceneitem_visible item = true) := by
  constructor
  · intro item h
    have hh := (GetItemAtPos_isHit lib scene pos selectBelow item h).2
    unfold isHit at hh
    simp only [Bool.and_eq_true] at hh
    simpa using hh.1.2
  · intro item hi
    exact enum_FindItemsInBox_excludes lib scene ⟨startPos, pos, []⟩ (by simp) item hi

/-- Instance for C4: with a locked item stacked on an unlocked one, the point
lookup and the marquee both yield the unlocked item. -/
theorem hit_testing_excludes_locked_and_hidden_witness :
    GetItemAtPos gridLib [plainItem 1 false false 0 0, plainItem 2 true false 0 0] ⟨5, 5⟩ true =
        some (plainItem 1 false false 0 0) ∧
    obs_sceneitem_locked (plainItem 1 false false 0 0) = false ∧
    plainItem 1 false false 0 0 ∈
      BoxItems gridLib [plainItem 1 false false 0 0, plainItem 2 true false 0 0] ⟨0, 0⟩ ⟨5, 5⟩ ∧
    obs_sceneitem_visible (plainItem 1 false false 0 0) = true := by
  have hget : GetItemAtPos gridLib [plainItem 1 false false 0 0, plainItem 2 true false 0 0]
      ⟨5, 5⟩ true = some (plainItem 1 false false 0 0) := by
    simp [GetItemAtPos, obs_scene_enum_items, FindItemAtPos, plainItem, SceneItemHasVideo,
      obs_sceneitem_locked, obs_sceneitem_selected, pointInItem, gridLib, boxAt, diagonalInv,
      vec3_transform, vec3_set, CloseFloat, SceneItem.data]
    norm_num
  have hbox : plainItem 1 false false 0 0 ∈
      BoxItems gridLib [plainItem 1 false false 0 0, plainItem 2 true false 0 0]
        ⟨0, 0⟩ ⟨5, 5⟩ := by
    have hp : pointInItem gridLib (plainItem 1 false false 0 0) ⟨5, 5⟩ = true := by
      simp [plainItem, pointInItem, gridLib, boxAt, diagonalInv, vec3_transform, vec3_set,
        CloseFloat, SceneItem.data]
      norm_num
    have hstep : FindItemsInBox gridLib (plainItem 1 false false 0 0) ⟨⟨0, 0⟩, ⟨5, 5⟩, []⟩ =
        (⟨⟨0, 0⟩, ⟨5, 5⟩, [plainItem 1 false false 0 0]⟩, true) := by
      simp [FindItemsInBox, itemTouchesBox, hp]
      simp [plainItem, SceneItemHasVideo, obs_sceneitem_locked, obs_sceneitem_visible,
        SceneItem.data]
    have hstep2 : ∀ data, FindItemsInBox gridLib (plainItem 2 true false 0 0) data =
        (data, true) := by
      intro data
      simp [FindItemsInBox, plainItem, SceneItemHasVideo, obs_sceneitem_locked, SceneItem.data]
    simp [BoxItems, obs_scene_enum_items, hstep, hstep2]
  have hthm := hit_testing_excludes_locked_and_hidden gridLib
      [plainItem 1 false false 0 0, plainItem 2 true false 0 0] ⟨0, 0⟩ ⟨5, 5⟩ true
  exact ⟨hget, hthm.1 _ hget, hbox, (hthm.2 _ hbox).2⟩

/-- C5: for every offset, `move_items` run over the scene keeps every lock
flag and returns every locked item, top-level or nested, as it was: its
position is unchanged even when it is selected, and so are the children of a
locked group; the same holds for the scene `MoveItems` leaves. -/
theorem move_items_leaves_locked_items (lib : Libobs) (cfg : BasicWindowConfig)
    (base_width base_height : Nat) (ctrl : Bool) (dock : MoveSession) (pos offset : vec2) :
    List.Forall₂ (fun old new => obs_sceneitem_locked new = obs_sceneitem_locked old ∧
        (obs_sceneitem_locked old = true → new = old))
      (allSceneItems dock.scene) (allSceneItems (move_items_items lib offset dock.scene)) ∧
    List.Forall₂ (fun old new => obs_sceneitem_locked new = obs_sceneitem_locked old ∧
        (obs_sceneitem_locked old = true → new = old))
      (allSceneItems dock.scene)
      (allSceneItems (MoveItems lib cfg base_width base_height ctrl dock pos).scene) :=
  ⟨move_items_items_locked lib offset dock.scene, move_items_items_locked lib _ dock.scene⟩

/-- C2: when snapping is disabled or the control modifier is held on every
move, a press at `startPos` followed by pointer moves `p1 .. pn` leaves every
selected, unlocked top-level item at its position before the drag plus
`pn - startPos`, and every other top-level item where it was, whatever the
intermediate positions. -/
theorem MoveItems_drag_moves_by_pointer_delta (lib : Libobs) (cfg : BasicWindowConfig)
    (base_width base_height : Nat) (scene : List SceneItem) (startPos : vec2)
    (moves : List (vec2 × Bool)) (hne : moves ≠ [])
    (hsnap : cfg.SnappingEnabled = false ∨ ∀ m ∈ moves, m.2 = true) :
    (dragMoves lib cfg base_width base_height scene startPos moves).scene.map SceneItem.data =
      scene.map (fun item =>
        if item.data.selected && !item.data.locked then
          { item.data with
            pos := vec2_add item.data.pos (vec2_sub (moves.getLast hne).1 startPos) }
        else item.data) := by
  unfold dragMoves
  rw [foldl_MoveItems_unsnapped lib cfg base_width base_height moves hne _ hsnap]
  apply List.map_congr_left
  intro item _
  simp only [movedData]
  have : vec2_sub (vec2_sub (moves.getLast hne).1 startPos) vec2_zero =
      vec2_sub (moves.getLast hne).1 startPos := by
    simp [vec2_sub, vec2_zero]
  rw [this]

/-- Instance for C2: a drag from (5, 5) over (7, 9) to (15, 10) with snapping
disabled moves the selected, unlocked item 1 by (10, 5) and leaves the locked
item 2 and the unselected item 3 in place. -/
theorem MoveItems_drag_moves_by_pointer_delta_witness :
    (⟨false, true, true, true, 10⟩ : BasicWindowConfig).SnappingEnabled = false ∧
    (dragMoves gridLib ⟨false, true, true, true, 10⟩ 1920 1080
        [plainItem 1 false true 0 0, plainItem 2 true true 0 0, plainItem 3 false false 0 0]
        ⟨5, 5⟩ [(⟨7, 9⟩, false), (⟨15, 10⟩, false)]).scene.map SceneItem.data =
      [(plainItem 1 false true 10 5).data, (plainItem 2 true true 0 0).data,
        (plainItem 3 false false 0 0).data] := by
  refine ⟨rfl, ?_⟩
  have h := MoveItems_drag_moves_by_pointer_delta gridLib ⟨false, true, true, true, 10⟩
    1920 1080
    [plainItem 1 false true 0 0, plainItem 2 true true 0 0, plainItem 3 false false 0 0]
    ⟨5, 5⟩ [(⟨7, 9⟩, false), (⟨15, 10⟩, false)] (by simp) (Or.inl rfl)
  rw [h]
  simp [plainItem, SceneItem.data, vec2_add, vec2_sub]
  norm_num

/-- C6: with `SnappingEnabled` false, `GetSnapOffset` returns the zero offset
for every box, canvas size, flag and distance, and `SnapItemMovement` returns
the movement offset it was given. -/
theorem snapping_disabled_no_offset (lib : Libobs) (cfg : BasicWindowConfig)
    (base_width base_height : Nat) (scene : List SceneItem) (tl br : vec3) (offset : vec2)
    (h : cfg.SnappingEnabled = false) :
    GetSnapOffset lib cfg base_width base_height tl br = vec3_zero ∧
    SnapItemMovement lib cfg base_width base_height scene offset = offset := by
  constructor
  · simp [GetSnapOffset, h]
  · exact SnapItemMovement_disabled lib cfg base_width base_height scene offset h

/-- Instance for C6: all other snapping flags set, `SnappingEnabled` cleared. -/
theorem snapping_disabled_no_offset_witness :
    (⟨false, true, true, true, 10⟩ : BasicWindowConfig).SnappingEnabled = false ∧
    GetSnapOffset gridLib ⟨false, true, true, true, 10⟩ 1920 1080 ⟨4, 4, 0⟩ ⟨104, 104, 0⟩ =
      vec3_zero ∧
    SnapItemMovement gridLib ⟨false, true, true, true, 10⟩ 1920 1080
      [plainItem 1 false true 4 4] ⟨1, 2⟩ = ⟨1, 2⟩ :=
  ⟨rfl, snapping_disabled_no_offset gridLib ⟨false, true, true, true, 10⟩ 1920 1080
    [plainItem 1 false true 4 4] ⟨4, 4, 0⟩ ⟨104, 104, 0⟩ ⟨1, 2⟩ rfl⟩

/-- C7, as stated, fails: a box whose left edge already lies on `x = 0` and
whose right edge is 3 pixels short of the right canvas edge is moved right by
3, so its left edge leaves the canvas edge. -/
theorem GetSnapOffset_left_edge_counterexample :
    abs (0 : ℚ) < (⟨true, true, false, false, 10⟩ : BasicWindowConfig).SnapDistance ∧
    (0 : ℚ) + (GetSnapOffset gridLib ⟨true, true, false, false, 10⟩ 100 100
      ⟨0, 50, 0⟩ ⟨97, 60, 0⟩).x ≠ 0 := by
  simp [GetSnapOffset, gridLib, vec3_zero]
  norm_num

/-- C7, amended: with snapping and screen snapping enabled and center snapping
disabled, a left edge with `|tl.x| < SnapDistance` gets `tl.x + offset.x = 0`
whenever the right-edge snap does not replace the left one, that is when
`|tl.x| ≥ EPSILON` or the right edge is not within the snap distance of the
right canvas edge; likewise for the top edge on the y axis. -/
theorem GetSnapOffset_left_top_edge (lib : Libobs) (cfg : BasicWindowConfig)
    (base_width base_height : Nat) (tl br : vec3)
    (hsnap : cfg.SnappingEnabled = true) (hscreen : cfg.ScreenSnapping = true)
    (hcenter : cfg.CenterSnapping = false) :
    (abs tl.x < cfg.SnapDistance →
      (lib.EPSILON ≤ abs tl.x ∨ cfg.SnapDistance ≤ abs ((base_width : ℚ) - br.x)) →
      tl.x + (GetSnapOffset lib cfg base_width base_height tl br).x = 0) ∧
    (abs tl.y < cfg.SnapDistance →
      (lib.EPSILON ≤ abs tl.y ∨ cfg.SnapDistance ≤ abs ((base_height : ℚ) - br.y)) →
      tl.y + (GetSnapOffset lib cfg base_width base_height tl br).y = 0) := by
  rw [GetSnapOffset_eq_snapAxis lib cfg base_width base_height tl br hsnap]
  constructor
  · intro h1 h2
    rw [snapAxis_edge_only lib cfg _ _ _ hscreen hcenter h1 h2]
    ring
  · intro h1 h2
    rw [snapAxis_edge_only lib cfg _ _ _ hscreen hcenter h1 h2]
    ring

/-- Instance for C7: a left edge at `x = 4` and a top edge at `y = -3` with snap
distance 10 land on `x = 0` and `y = 0`. -/
theorem GetSnapOffset_left_top_edge_witness :
    abs (4 : ℚ) < 10 ∧ abs (-3 : ℚ) < 10 ∧
    (4 : ℚ) + (GetSnapOffset gridLib ⟨true, true, false, false, 10⟩ 1920 1080
      ⟨4, -3, 0⟩ ⟨104, 97, 0⟩).x = 0 ∧
    (-3 : ℚ) + (GetSnapOffset gridLib ⟨true, true, false, false, 10⟩ 1920 1080
      ⟨4, -3, 0⟩ ⟨104, 97, 0⟩).y = 0 := by
  have h4 : abs (4 : ℚ) < 10 := by rw [abs_lt]; constructor <;> norm_num
  have h3 : abs (-3 : ℚ) < 10 := by rw [abs_lt]; constructor <;> norm_num
  have e4 : gridLib.EPSILON ≤ abs (4 : ℚ) := by
    rw [le_abs]; left; norm_num [gridLib]
  have e3 : gridLib.EPSILON ≤ abs (-3 : ℚ) := by
    rw [le_abs]; right; norm_num [gridLib]
  obtain ⟨hx, hy⟩ := GetSnapOffset_left_top_edge gridLib ⟨true, true, false, false, 10⟩
    1920 1080 ⟨4, -3, 0⟩ ⟨104, 97, 0⟩ rfl rfl rfl
  exact ⟨h4, h3, hx h4 (Or.inl e4), hy h3 (Or.inl e3)⟩

/-- C8, as stated, fails: with screen and center snapping both enabled, a
box of width 86 on a canvas of width 100 whose left edge is at `x = 4`
(within the snap distance 10 of the left canvas edge) and whose center is 3
away from the canvas center gets the center-aligning offset 3, neither the
offset `-4` that aligns the left edges nor the offset `10` that aligns the
right edges. -/
theorem GetSnapOffset_edge_priority_counterexample :
    abs (4 : ℚ) < (⟨true, true, true, false, 10⟩ : BasicWindowConfig).SnapDistance ∧
    (GetSnapOffset gridLib ⟨true, true, true, false, 10⟩ 100 100 ⟨4, 4, 0⟩ ⟨90, 90, 0⟩).x = 3 ∧
    (GetSnapOffset gridLib ⟨true, true, true, false, 10⟩ 100 100 ⟨4, 4, 0⟩ ⟨90, 90, 0⟩).x ≠ -4 ∧
    (GetSnapOffset gridLib ⟨true, true, true, false, 10⟩ 100 100 ⟨4, 4, 0⟩ ⟨90, 90, 0⟩).x ≠
      100 - 90 := by
  have h : (GetSnapOffset gridLib ⟨true, true, true, false, 10⟩ 100 100
      ⟨4, 4, 0⟩ ⟨90, 90, 0⟩).x = 3 := by
    simp [GetSnapOffset, gridLib]
    norm_num
  refine ⟨?_, h, ?_, ?_⟩
  · rw [abs_lt]; constructor <;> norm_num
  · rw [h]; norm_num
  · rw [h]; norm_num

/-- C8, amended: in `GetSnapOffset` the center snap comes last and overrides
the screen-edge snap on each axis. With snapping and center snapping enabled,
whenever the extent of the box differs from the canvas extent by more than the
snap distance and the center of the box is within the snap distance of the
canvas center, the offset on that axis is the center-aligning one, also when an
edge is within the snap distance of its canvas edge; otherwise it is the
offset the screen-edge steps alone produce. -/
theorem GetSnapOffset_center_overrides_edge (lib : Libobs) (cfg : BasicWindowConfig)
    (base_width base_height : Nat) (tl br : vec3)
    (hsnap : cfg.SnappingEnabled = true) (hcenter : cfg.CenterSnapping = true) :
    (GetSnapOffset lib cfg base_width base_height tl br).x =
      (if abs ((base_width : ℚ) - (br.x - tl.x)) > cfg.SnapDistance ∧
          abs ((base_width : ℚ) / 2 - (br.x - (br.x - tl.x) / 2)) < cfg.SnapDistance then
        (base_width : ℚ) / 2 - (br.x - (br.x - tl.x) / 2)
      else (GetSnapOffset lib { cfg with CenterSnapping := false }
        base_width base_height tl br).x) ∧
    (GetSnapOffset lib cfg base_width base_height tl br).y =
      (if abs ((base_height : ℚ) - (br.y - tl.y)) > cfg.SnapDistance ∧
          abs ((base_height : ℚ) / 2 - (br.y - (br.y - tl.y) / 2)) < cfg.SnapDistance then
        (base_height : ℚ) / 2 - (br.y - (br.y - tl.y) / 2)
      else (GetSnapOffset lib { cfg with CenterSnapping := false }
        base_width base_height tl br).y) := by
  rw [GetSnapOffset_eq_snapAxis lib cfg base_width base_height tl br hsnap,
    GetSnapOffset_eq_snapAxis lib { cfg with CenterSnapping := false } base_width base_height
      tl br hsnap]
  exact ⟨snapAxis_center lib cfg _ _ _ hcenter, snapAxis_center lib cfg _ _ _ hcenter⟩

/-- Instance for C8: on the x axis the center snap fires and wins over the left
edge at `x = 4`; on the y axis the box is nearly as high as the canvas, the
center snap does not fire and the top edge is aligned. -/
theorem GetSnapOffset_center_overrides_edge_witness :
    (GetSnapOffset gridLib ⟨true, true, true, false, 10⟩ 100 100 ⟨4, 4, 0⟩ ⟨90, 99, 0⟩).x = 3 ∧
    (GetSnapOffset gridLib ⟨true, true, true, false, 10⟩ 100 100 ⟨4, 4, 0⟩ ⟨90, 99, 0⟩).y = -4 := by
  obtain ⟨hx, hy⟩ := GetSnapOffset_center_overrides_edge gridLib
    ⟨true, true, true, false, 10⟩ 100 100 ⟨4, 4, 0⟩ ⟨90, 99, 0⟩ rfl rfl
  constructor
  · rw [hx]
    have h1 : abs ((100 : ℕ) - ((90 : ℚ) - 4)) > 10 := by norm_num [abs_of_pos]
    have h2 : abs (((100 : ℕ) : ℚ) / 2 - ((90 : ℚ) - ((90 : ℚ) - 4) / 2)) < 10 := by
      rw [abs_lt]; constructor <;> norm_num
    simp only [h1, h2, and_self, if_true]
    norm_num
  · rw [hy]
    have h1 : ¬ abs ((100 : ℕ) - ((99 : ℚ) - 4)) > 10 := by
      rw [not_lt, abs_le]; constructor <;> norm_num
    simp only [h1, false_and, if_false]
    simp [GetSnapOffset, gridLib]
    norm_num

/-- C10: for a corner handle, a positive base size and a proposed size whose
components are non-zero and of the same sign, `ClampAspect` leaves the size
`(round(size.y * baseAspect), round(size.y))` when
`size.x / size.y < baseSize.x / baseSize.y`, and
`(round(size.x), round(size.x / baseAspect))` otherwise. -/
theorem ClampAspect_corner_handle (stretchHandle : ItemHandle) (tl br : vec3)
    (size baseSize : vec2)
    (hcorner : stretchHandle = .TopLeft ∨ stretchHandle = .TopRight ∨
      stretchHandle = .BottomLeft ∨ stretchHandle = .BottomRight)
    (_hbx : 0 < baseSize.x) (_hby : 0 < baseSize.y)
    (hsign : (0 < size.x ∧ 0 < size.y) ∨ (size.x < 0 ∧ size.y < 0)) :
    (size.x / size.y < baseSize.x / baseSize.y →
      (ClampAspect stretchHandle tl br size baseSize).size =
        ⟨roundf (size.y * (baseSize.x / baseSize.y)), roundf size.y⟩) ∧
    (¬ size.x / size.y < baseSize.x / baseSize.y →
      (ClampAspect stretchHandle tl br size baseSize).size =
        ⟨roundf size.x, roundf (size.x / (baseSize.x / baseSize.y))⟩) := by
  have hs : sameSign size = true := by
    unfold sameSign
    rcases hsign with ⟨h1, h2⟩ | ⟨h1, h2⟩
    · simp [le_of_lt h1, le_of_lt h2]
    · simp [le_of_lt h1, le_of_lt h2]
  constructor
  · intro h
    simp only [ClampAspect, hcorner, if_true, h, hs]
  · intro h
    simp only [ClampAspect, hcorner, if_true, h, hs, if_false]

/-- Instance for C10: base size (16, 9), handle `BottomRight`, proposed size
(100, 40) gives (100, 56). -/
theorem ClampAspect_corner_handle_witness :
    (0 : ℚ) < 16 ∧ (0 : ℚ) < 9 ∧ ¬ ((100 : ℚ) / 40 < (16 : ℚ) / 9) ∧
    (ClampAspect .BottomRight ⟨0, 0, 0⟩ ⟨100, 40, 0⟩ ⟨100, 40⟩ ⟨16, 9⟩).size = ⟨100, 56⟩ := by
  have h := (ClampAspect_corner_handle .BottomRight ⟨0, 0, 0⟩ ⟨100, 40, 0⟩ ⟨100, 40⟩ ⟨16, 9⟩
    (Or.inr (Or.inr (Or.inr rfl))) (by norm_num) (by norm_num)
    (Or.inl ⟨by norm_num, by norm_num⟩)).2 (by norm_num)
  refine ⟨by norm_num, by norm_num, by norm_num, ?_⟩
  rw [h]
  have h1 : roundf (100 : ℚ) = 100 := by
    simp only [roundf]
    norm_num
  have h2 : roundf ((100 : ℚ) / (16 / 9)) = 56 := by
    have hf : ⌊(100 : ℚ) / (16 / 9) + 1 / 2⌋ = 56 := by
      rw [Int.floor_eq_iff]; constructor <;> norm_num
    have hp : (0 : ℚ) ≤ 100 / (16 / 9) := by norm_num
    simp only [roundf, hp, if_true, hf]
    norm_num
  rw [h1, h2]

/-- C9, the code at the failing input: the selected item occupies
`[100, 110] × [100, 110]`; the unselected items 2 and 3 have their left edges 8
and 2 pixels right of its right edge, both overlapping it vertically, and the
snap distance is 10. Enumerated as 2 then 3 the movement is snapped by 8, the
candidate found first; enumerated as 3 then 2 it is snapped by 2. -/
theorem SnapItemMovement_keeps_first_candidate :
    SnapItemMovement gridLib ⟨true, false, false, true, 10⟩ 1000 1000
      [plainItem 1 false true 100 100, plainItem 2 false false 118 100,
        plainItem 3 false false 112 105] ⟨0, 0⟩ = ⟨8, 0⟩ ∧
    SnapItemMovement gridLib ⟨true, false, false, true, 10⟩ 1000 1000
      [plainItem 1 false true 100 100, plainItem 3 false false 112 105,
        plainItem 2 false false 118 100] ⟨0, 0⟩ = ⟨2, 0⟩ := by
  constructor
  · simp [SnapItemMovement, AddItemBounds_items, AddItemBounds, GetSnapOffset,
      obs_scene_enum_items, GetSourceSnapOffset, EDGE_SNAP, add_bounds, boxCorners,
      GetTransformedPos, vec3_transform, vec3_set, vec3_min, vec3_max, vec3_zero, gridLib,
      boxAt, plainItem, obs_sceneitem_selected, SceneItem.data]
    norm_num
  · simp [SnapItemMovement, AddItemBounds_items, AddItemBounds, GetSnapOffset,
      obs_scene_enum_items, GetSourceSnapOffset, EDGE_SNAP, add_bounds, boxCorners,
      GetTransformedPos, vec3_transform, vec3_set, vec3_min, vec3_max, vec3_zero, gridLib,
      boxAt, plainItem, obs_sceneitem_selected, SceneItem.data]
    norm_num

/-- C11: with an edge handle `ClampAspect` always recomputes the orthogonal
axis. For `TopCenter` and `BottomCenter` the height is only rounded and the
width becomes `round(size.y * baseAspect)` or `round(-(size.y * baseAspect))`,
namely `round(|size.y| * baseAspect)` when the width it replaces is positive
and `round(-|size.y| * baseAspect)` when it is negative, so that for a
positive base size the sign of the width is kept; for `CenterLeft` and
`CenterRight` the same holds with the height recomputed as
`round(± size.x / baseAspect)` and the width only rounded. -/
theorem ClampAspect_edge_handle (stretchHandle : ItemHandle) (tl br : vec3)
    (size baseSize : vec2) :
    ((stretchHandle = .TopCenter ∨ stretchHandle = .BottomCenter) →
      (ClampAspect stretchHandle tl br size baseSize).size.y = roundf size.y ∧
      ((ClampAspect stretchHandle tl br size baseSize).size.x =
          roundf (size.y * (baseSize.x / baseSize.y)) ∨
        (ClampAspect stretchHandle tl br size baseSize).size.x =
          roundf (size.y * (baseSize.x / baseSize.y) * -1)) ∧
      (0 < size.x → (ClampAspect stretchHandle tl br size baseSize).size.x =
          roundf (abs size.y * (baseSize.x / baseSize.y))) ∧
      (size.x < 0 → (ClampAspect stretchHandle tl br size baseSize).size.x =
          roundf (-(abs size.y * (baseSize.x / baseSize.y)))) ∧
      (0 < baseSize.x → 0 < baseSize.y →
        (0 < size.x → 0 ≤ (ClampAspect stretchHandle tl br size baseSize).size.x) ∧
        (size.x < 0 → (ClampAspect stretchHandle tl br size baseSize).size.x ≤ 0))) ∧
    ((stretchHandle = .CenterLeft ∨ stretchHandle = .CenterRight) →
      (ClampAspect stretchHandle tl br size baseSize).size.x = roundf size.x ∧
      ((ClampAspect stretchHandle tl br size baseSize).size.y =
          roundf (size.x / (baseSize.x / baseSize.y)) ∨
        (ClampAspect stretchHandle tl br size baseSize).size.y =
          roundf (size.x / (baseSize.x / baseSize.y) * -1)) ∧
      (0 < size.y → (ClampAspect stretchHandle tl br size baseSize).size.y =
          roundf (abs size.x / (baseSize.x / baseSize.y))) ∧
      (size.y < 0 → (ClampAspect stretchHandle tl br size baseSize).size.y =
          roundf (-(abs size.x / (baseSize.x / baseSize.y)))) ∧
      (0 < baseSize.x → 0 < baseSize.y →
        (0 < size.y → 0 ≤ (ClampAspect stretchHandle tl br size baseSize).size.y) ∧
        (size.y < 0 → (ClampAspect stretchHandle tl br size baseSize).size.y ≤ 0))) := by
  constructor
  · intro hh
    have hx : (ClampAspect stretchHandle tl br size baseSize).size.x =
        roundf (if sameSign size then size.y * (baseSize.x / baseSize.y)
          else size.y * (baseSize.x / baseSize.y) * -1) := by
      rcases hh with hh | hh <;> subst hh <;> simp only [ClampAspect] <;>
        split_ifs <;> simp_all
    have hy : (ClampAspect stretchHandle tl br size baseSize).size.y = roundf size.y := by
      rcases hh with hh | hh <;> subst hh <;> simp only [ClampAspect] <;>
        split_ifs <;> simp_all
    have hpos : 0 < size.x → (ClampAspect stretchHandle tl br size baseSize).size.x =
        roundf (abs size.y * (baseSize.x / baseSize.y)) := by
      intro h
      rw [hx]
      rcases le_or_lt 0 size.y with h2 | h2
      · have : sameSign size = true := by simp [sameSign, h2, le_of_lt h]
        simp [this, abs_of_nonneg h2]
      · have : sameSign size = false := by
          simp [sameSign, not_le.mpr h2, not_le.mpr h]
        simp [this, abs_of_neg h2]
    have hneg : size.x < 0 → (ClampAspect stretchHandle tl br size baseSize).size.x =
        roundf (-(abs size.y * (baseSize.x / baseSize.y))) := by
      intro h
      rw [hx]
      rcases le_or_lt size.y 0 with h2 | h2
      · have : sameSign size = true := by simp [sameSign, h2, le_of_lt h]
        simp [this, abs_of_nonpos h2]
      · have : sameSign size = false := by
          simp [sameSign, not_le.mpr h2, not_le.mpr h]
        simp [this, abs_of_pos h2]
    refine ⟨hy, ?_, hpos, hneg, ?_⟩
    · rw [hx]; split_ifs
      · exact Or.inl rfl
      · exact Or.inr rfl
    · intro hbx hby
      have ha : 0 < baseSize.x / baseSize.y := div_pos hbx hby
      constructor
      · intro h; rw [hpos h]
        exact roundf_nonneg _ (mul_nonneg (abs_nonneg _) (le_of_lt ha))
      · intro h; rw [hneg h]
        exact roundf_nonpos _ (neg_nonpos.mpr (mul_nonneg (abs_nonneg _) (le_of_lt ha)))
  · intro hh
    have hy : (ClampAspect stretchHandle tl br size baseSize).size.y =
        roundf (if sameSign size then size.x / (baseSize.x / baseSize.y)
          else size.x / (baseSize.x / baseSize.y) * -1) := by
      rcases hh with hh | hh <;> subst hh <;> simp only [ClampAspect] <;>
        split_ifs <;> simp_all
    have hx : (ClampAspect stretchHandle tl br size baseSize).size.x = roundf size.x := by
      rcases hh with hh | hh <;> subst hh <;> simp only [ClampAspect] <;>
        split_ifs <;> simp_all
    have hpos : 0 < size.y → (ClampAspect stretchHandle tl br size baseSize).size.y =
        roundf (abs size.x / (baseSize.x / baseSize.y)) := by
      intro h
      rw [hy]
      rcases le_or_lt 0 size.x with h2 | h2
      · have : sameSign size = true := by simp [sameSign, h2, le_of_lt h]
        simp [this, abs_of_nonneg h2]
      · have : sameSign size = false := by
          simp [sameSign, not_le.mpr h2, not_le.mpr h]
        simp [this, abs_of_neg h2, neg_div]
    have hneg : size.y < 0 → (ClampAspect stretchHandle tl br size baseSize).size.y =
        roundf (-(abs size.x / (baseSize.x / baseSize.y))) := by
      intro h
      rw [hy]
      rcases le_or_lt size.x 0 with h2 | h2
      · have : sameSign size = true := by simp [sameSign, h2, le_of_lt h]
        simp [this, abs_of_nonpos h2, neg_div]
      · have : sameSign size = false := by
          simp [sameSign, not_le.mpr h2, not_le.mpr h]
        simp [this, abs_of_pos h2]
    refine ⟨hx, ?_, hpos, hneg, ?_⟩
    · rw [hy]; split_ifs
      · exact Or.inl rfl
      · exact Or.inr rfl
    · intro hbx hby
      have ha : 0 < baseSize.x / baseSize.y := div_pos hbx hby
      constructor
      · intro h; rw [hpos h]
        exact roundf_nonneg _ (div_nonneg (abs_nonneg _) (le_of_lt ha))
      · intro h; rw [hneg h]
        exact roundf_nonpos _ (neg_nonpos.mpr (div_nonneg (abs_nonneg _) (le_of_lt ha)))

/-- Instance for C11: base size (16, 9), handle `TopCenter`, proposed size
(100, -40): the height is kept and the width becomes 71, positive like the
width it replaces. -/
theorem ClampAspect_edge_handle_witness :
    (0 : ℚ) < 100 ∧
    (ClampAspect .TopCenter ⟨0, 0, 0⟩ ⟨100, -40, 0⟩ ⟨100, -40⟩ ⟨16, 9⟩).size.x = 71 ∧
    (ClampAspect .TopCenter ⟨0, 0, 0⟩ ⟨100, -40, 0⟩ ⟨100, -40⟩ ⟨16, 9⟩).size.y = -40 := by
  obtain ⟨hy, -, hpos, -, -⟩ := (ClampAspect_edge_handle .TopCenter ⟨0, 0, 0⟩ ⟨100, -40, 0⟩
    ⟨100, -40⟩ ⟨16, 9⟩).1 (Or.inl rfl)
  refine ⟨by norm_num, ?_, ?_⟩
  · rw [hpos (by norm_num)]
    have ha : abs (-40 : ℚ) = 40 := by rw [abs_of_neg] <;> norm_num
    have hf : ⌊(40 : ℚ) * (16 / 9) + 1 / 2⌋ = 71 := by
      rw [Int.floor_eq_iff]; constructor <;> norm_num
    have hp : (0 : ℚ) ≤ 40 * (16 / 9) := by norm_num
    simp only [ha, roundf, hp, if_true, hf]
    norm_num
  · rw [hy]
    have hc : ⌈(-40 : ℚ) - 1 / 2⌉ = -40 := by
      rw [Int.ceil_eq_iff]; constructor <;> norm_num
    have hn : ¬ (0 : ℚ) ≤ -40 := by norm_num
    simp only [roundf, hn, if_false, hc]
    norm_num

/-- C17: a visible, unlocked video item of the scene whose box transform has
non-zero area and whose four transformed corners all lie in the closed
rectangle spanned by `startPos` and `pos` is put into the marquee result by
`FindItemsInBox`. -/
theorem FindItemsInBox_includes_enclosed (lib : Libobs) (scene : List SceneItem)
    (startPos pos : vec2) (item : SceneItem) (hmem : item ∈ scene)
    (hvideo : SceneItemHasVideo item = true) (hlocked : obs_sceneitem_locked item = false)
    (hvisible : obs_sceneitem_visible item = true)
    (harea : (lib.box_transform item).x.x * (lib.box_transform item).y.y -
      (lib.box_transform item).x.y * (lib.box_transform item).y.x ≠ 0)
    (hcorners : ∀ c ∈ boxCorners (lib.box_transform item),
      (vec2_min startPos pos).x ≤ c.x ∧ c.x ≤ (vec2_max startPos pos).x ∧
      (vec2_min startPos pos).y ≤ c.y ∧ c.y ≤ (vec2_max startPos pos).y) :
    (FindItemsInBox lib item ⟨startPos, pos, []⟩).1.sceneItems = [item] ∧
    item ∈ BoxItems lib scene startPos pos := by
  have h00 := hcorners (GetTransformedPos 0 0 (lib.box_transform item)) (by simp [boxCorners])
  have h10 := hcorners (GetTransformedPos 1 0 (lib.box_transform item)) (by simp [boxCorners])
  have h01 := hcorners (GetTransformedPos 0 1 (lib.box_transform item)) (by simp [boxCorners])
  have h11 := hcorners (GetTransformedPos 1 1 (lib.box_transform item)) (by simp [boxCorners])
  simp only [GetTransformedPos, vec3_transform, vec3_set, mul_zero, mul_one, add_zero,
    zero_add] at h00 h10 h01 h11
  have hx := centre_strictly_inside (vec2_min startPos pos).x (vec2_max startPos pos).x
    (lib.box_transform item).t.x (lib.box_transform item).x.x (lib.box_transform item).y.x
    (lib.box_transform item).x.y (lib.box_transform item).y.y
    (by intro h; apply harea; linarith)
    ⟨h00.1, h00.2.1⟩ ⟨by linarith [h10.1], by linarith [h10.2.1]⟩
    ⟨by linarith [h01.1], by linarith [h01.2.1]⟩
    ⟨by linarith [h11.1], by linarith [h11.2.1]⟩
  have hy := centre_strictly_inside (vec2_min startPos pos).y (vec2_max startPos pos).y
    (lib.box_transform item).t.y (lib.box_transform item).x.y (lib.box_transform item).y.y
    (lib.box_transform item).x.x (lib.box_transform item).y.x
    (by intro h; apply harea; linarith)
    ⟨h00.2.2.1, h00.2.2.2⟩ ⟨by linarith [h10.2.2.1], by linarith [h10.2.2.2]⟩
    ⟨by linarith [h01.2.2.1], by linarith [h01.2.2.2]⟩
    ⟨by linarith [h11.2.2.1], by linarith [h11.2.2.2]⟩
  have hcentre : strictlyInRect (vec2_min startPos pos).x (vec2_max startPos pos).x
      (vec2_min startPos pos).y (vec2_max startPos pos).y
      ((lib.box_transform item).t.x +
        (1 / 2) * ((lib.box_transform item).x.x + (lib.box_transform item).y.x))
      ((lib.box_transform item).t.y +
        (1 / 2) * ((lib.box_transform item).x.y + (lib.box_transform item).y.y)) = true := by
    simp only [strictlyInRect, Bool.and_eq_true, decide_eq_true_eq, gt_iff_lt]
    exact ⟨⟨⟨hx.1, hx.2⟩, hy.1⟩, hy.2⟩
  have htouch : itemTouchesBox lib item startPos pos = true := by
    simp only [itemTouchesBox, hcentre, Bool.or_true, Bool.true_or]
  constructor
  · simp [FindItemsInBox, hvideo, hlocked, hvisible, htouch]
  · unfold BoxItems
    rw [enum_FindItemsInBox_eq]
    simp only [List.nil_append, List.mem_filter, Bool.and_eq_true]
    exact ⟨hmem, ⟨⟨⟨hvideo, by simp [hlocked]⟩, hvisible⟩, htouch⟩⟩

/-- Instance for C17: the 10 by 10 item at (10, 10) inside the marquee from
(10, 10) to (30, 30), two of its edges lying on the marquee border. -/
theorem FindItemsInBox_includes_enclosed_witness :
    plainItem 1 false false 10 10 ∈
      BoxItems gridLib [plainItem 2 false false 50 50, plainItem 1 false false 10 10]
        ⟨10, 10⟩ ⟨30, 30⟩ := by
  refine (FindItemsInBox_includes_enclosed gridLib
    [plainItem 2 false false 50 50, plainItem 1 false false 10 10] ⟨10, 10⟩ ⟨30, 30⟩
    (plainItem 1 false false 10 10) (by simp) rfl rfl rfl ?_ ?_).2
  · simp [gridLib, boxAt, plainItem, SceneItem.data]
  · intro c hc
    simp only [boxCorners, gridLib, boxAt, plainItem, SceneItem.data, GetTransformedPos,
      vec3_transform, vec3_set, List.mem_cons, List.mem_singleton, List.not_mem_nil,
      or_false] at hc
    rcases hc with hc | hc | hc | hc <;> subst hc <;>
      simp [vec2_min, vec2_max] <;> norm_num

/-- C12: in normal mode (no shift, no ctrl), when the previous rotation is not
within 5 degrees of the proposed angle `d`, the rotation `RotateItem` applies
is the fixed candidate `c` whenever `d` is strictly within 5 degrees of `c`,
and is `d` itself whenever `d` is at least 5 degrees away from every fixed
candidate. Angles are given in degrees; the code holds `RAD(d)` and applies
`DEG` of the snapped value. -/
theorem RotateItem_angle_fixed_candidates (m : FloatMath) (hk : 0 < m.RAD_factor)
    (hinv : m.RAD_factor * m.DEG_factor = 1) (rotateAngle d : ℚ)
    (hprev : 5 ≤ abs (d - rotateAngle)) :
    (∀ c ∈ fixedRotations, abs (d - c) < 5 →
      DEG m (RotateItem_angle m false false rotateAngle (RAD m d)) = c) ∧
    ((∀ c ∈ fixedRotations, 5 ≤ abs (d - c)) →
      DEG m (RotateItem_angle m false false rotateAngle (RAD m d)) = d) := by
  have h1 : ROT_SNAP m rotateAngle 5 (RAD m d) = RAD m d := by
    rw [ROT_SNAP_RAD m hk, if_neg (not_lt.mpr hprev)]
  rw [RotateItem_angle_normal, h1]
  constructor
  · intro c hc hnear
    rw [snapRun_hit m 5 fixedRotations (RAD m d) c (fixedRotations_apart m hk) hc
      ((RAD_near_iff m hk d c 5).mpr hnear)]
    exact DEG_RAD m hinv c
  · intro hfar
    rw [snapRun_none m 5 fixedRotations (RAD m d)
      (fun c hc hlt => absurd ((RAD_near_iff m hk d c 5).mp hlt) (not_lt.mpr (hfar c hc)))]
    exact DEG_RAD m hinv d

/-- Instance for C12: with previous rotation 0, 46 degrees gives 45 and 30
degrees stays 30. -/
theorem RotateItem_angle_fixed_candidates_witness :
    DEG flatMath (RotateItem_angle flatMath false false 0 (RAD flatMath 46)) = 45 ∧
    DEG flatMath (RotateItem_angle flatMath false false 0 (RAD flatMath 30)) = 30 := by
  have hk : 0 < flatMath.RAD_factor := by norm_num [flatMath]
  have hinv : flatMath.RAD_factor * flatMath.DEG_factor = 1 := by norm_num [flatMath]
  constructor
  · refine (RotateItem_angle_fixed_candidates flatMath hk hinv 0 46 ?_).1 45 ?_ ?_
    · norm_num [le_abs]
    · simp [fixedRotations]
    · norm_num [abs_lt]
  · refine (RotateItem_angle_fixed_candidates flatMath hk hinv 0 30 ?_).2 ?_
    · norm_num [le_abs]
    · intro c hc
      simp only [fixedRotations, List.mem_cons, List.mem_singleton, List.not_mem_nil,
        or_false] at hc
      rcases hc with h | h | h | h | h | h | h | h | h | h <;> subst h <;>
        norm_num [le_abs]

/-- C13, as stated, fails: with previous rotation 48 and proposed angle 52 the
angle is first snapped to 48 and from there to the fixed candidate 45. The
applied rotation 45 is not the proposed angle, lies 7 degrees from it, and is
not the nearest candidate, which is 48. -/
theorem RotateItem_angle_nearest_counterexample :
    DEG flatMath (RotateItem_angle flatMath false false 48 (RAD flatMath 52)) = 45 ∧
    (45 : ℚ) ≠ 52 ∧ ¬ abs ((52 : ℚ) - 45) < 5 ∧ abs ((52 : ℚ) - 48) < abs ((52 : ℚ) - 45) := by
  have hk : 0 < flatMath.RAD_factor := by norm_num [flatMath]
  have hinv : flatMath.RAD_factor * flatMath.DEG_factor = 1 := by norm_num [flatMath]
  refine ⟨?_, by norm_num, by norm_num [abs_lt], by norm_num [abs_lt]⟩
  have h1 : ROT_SNAP flatMath 48 5 (RAD flatMath 52) = RAD flatMath 48 := by
    rw [ROT_SNAP_RAD flatMath hk, if_pos (by norm_num [abs_lt])]
  rw [RotateItem_angle_normal, h1,
    snapRun_hit flatMath 5 fixedRotations (RAD flatMath 48) 45 (fixedRotations_apart flatMath hk)
      (by simp [fixedRotations])
      ((RAD_near_iff flatMath hk 48 45 5).mpr (by norm_num [abs_lt]))]
  exact DEG_RAD flatMath hinv 45

/-- C13, amended: in normal mode the snaps are applied in sequence, the
previous rotation first and then the fixed candidates, each tested against the
angle reached so far. For every proposed angle `d` and previous rotation the
applied rotation is `d` itself, or the previous rotation (then within 5 degrees
of `d`), or a fixed candidate within 5 degrees of `d` or of the previous
rotation that `d` was snapped to; it is always less than 10 degrees from `d`;
and when the previous rotation is not within 5 degrees of `d` it is `d` or the
candidate nearest to `d`, which lies within 5 degrees of `d`. -/
theorem RotateItem_angle_normal_sequence (m : FloatMath) (hk : 0 < m.RAD_factor)
    (hinv : m.RAD_factor * m.DEG_factor = 1) (rotateAngle d : ℚ) :
    (DEG m (RotateItem_angle m false false rotateAngle (RAD m d)) = d ∨
      (DEG m (RotateItem_angle m false false rotateAngle (RAD m d)) = rotateAngle ∧
        abs (d - rotateAngle) < 5) ∨
      ∃ c ∈ fixedRotations,
        DEG m (RotateItem_angle m false false rotateAngle (RAD m d)) = c ∧
        (abs (d - c) < 5 ∨ (abs (d - rotateAngle) < 5 ∧ abs (rotateAngle - c) < 5))) ∧
    abs (DEG m (RotateItem_angle m false false rotateAngle (RAD m d)) - d) < 10 ∧
    (5 ≤ abs (d - rotateAngle) →
      DEG m (RotateItem_angle m false false rotateAngle (RAD m d)) = d ∨
      ∃ c ∈ fixedRotations,
        DEG m (RotateItem_angle m false false rotateAngle (RAD m d)) = c ∧
        abs (d - c) < 5 ∧ ∀ c' ∈ rotateAngle :: fixedRotations, abs (d - c) ≤ abs (d - c')) := by
  rw [RotateItem_angle_normal, ROT_SNAP_RAD m hk]
  have hsep := fixedRotations_apart m hk
  by_cases hprev : abs (d - rotateAngle) < 5
  · rw [if_pos hprev]
    rcases snapRun_cases m 5 fixedRotations (RAD m rotateAngle) hsep with h | ⟨c, hc, hnear, h⟩
    · rw [h, DEG_RAD m hinv]
      refine ⟨Or.inr (Or.inl ⟨rfl, hprev⟩), ?_, fun h5 => absurd hprev (not_lt.mpr h5)⟩
      rw [abs_sub_comm]; linarith
    · rw [h, DEG_RAD m hinv]
      have hnear' := (RAD_near_iff m hk rotateAngle c 5).mp hnear
      refine ⟨Or.inr (Or.inr ⟨c, hc, rfl, Or.inr ⟨hprev, hnear'⟩⟩), ?_,
        fun h5 => absurd hprev (not_lt.mpr h5)⟩
      have := abs_sub_le c rotateAngle d
      rw [abs_sub_comm c rotateAngle, abs_sub_comm rotateAngle d] at this
      linarith
  · rw [if_neg hprev]
    rcases snapRun_cases m 5 fixedRotations (RAD m d) hsep with h | ⟨c, hc, hnear, h⟩
    · rw [h, DEG_RAD m hinv]
      refine ⟨Or.inl rfl, by simp, fun _ => Or.inl rfl⟩
    · rw [h, DEG_RAD m hinv]
      have hnear' := (RAD_near_iff m hk d c 5).mp hnear
      refine ⟨Or.inr (Or.inr ⟨c, hc, rfl, Or.inl hnear'⟩), ?_, fun _ => Or.inr ⟨c, hc, rfl,
        hnear', ?_⟩⟩
      · rw [abs_sub_comm]; linarith
      · intro c' hc'
        rcases List.mem_cons.mp hc' with hcp | hcf
        · subst hcp; linarith [not_lt.mp hprev]
        · by_cases hcc : abs (d - c') < 5
          · have e1 := snapRun_hit m 5 fixedRotations (RAD m d) c' hsep hcf
              ((RAD_near_iff m hk d c' 5).mpr hcc)
            have e2 : RAD m c = RAD m c' := by rw [← h, e1]
            have e3 : c = c' := by
              have := congrArg (DEG m) e2
              rwa [DEG_RAD m hinv, DEG_RAD m hinv] at this
            rw [e3]
          · linarith [not_lt.mp hcc]

/-- Instance for C13: previous rotation 48, proposed angle 52; the applied
rotation 45 is a fixed candidate within 5 degrees of the previous rotation and
less than 10 degrees from the proposed angle. -/
theorem RotateItem_angle_normal_sequence_witness :
    abs (DEG flatMath (RotateItem_angle flatMath false false 48 (RAD flatMath 52)) - 52) < 10 ∧
    abs (DEG flatMath (RotateItem_angle flatMath false false 100 (RAD flatMath 46)) - 46) < 10 ∧
    (5 : ℚ) ≤ abs (46 - 100) ∧
    (DEG flatMath (RotateItem_angle flatMath false false 100 (RAD flatMath 46)) = 46 ∨
      ∃ c ∈ fixedRotations,
        DEG flatMath (RotateItem_angle flatMath false false 100 (RAD flatMath 46)) = c ∧
        abs (46 - c) < 5 ∧ ∀ c' ∈ (100 : ℚ) :: fixedRotations, abs (46 - c) ≤ abs (46 - c')) := by
  have hk : 0 < flatMath.RAD_factor := by norm_num [flatMath]
  have hinv : flatMath.RAD_factor * flatMath.DEG_factor = 1 := by norm_num [flatMath]
  have h5 : (5 : ℚ) ≤ abs (46 - 100) := by norm_num [le_abs]
  exact ⟨(RotateItem_angle_normal_sequence flatMath hk hinv 48 52).2.1,
    (RotateItem_angle_normal_sequence flatMath hk hinv 100 46).2.1, h5,
    (RotateItem_angle_normal_sequence flatMath hk hinv 100 46).2.2 h5⟩

/-- C15: `CropItem` hands `obs_sceneitem_set_crop` a crop in which every field
whose side is not among the flags of the active handle has its value from the
snapshot `startCrop`, and it writes neither the rotation nor the scale of the
item (nor any field other than the crop and the position). -/
theorem CropItem_writes_only_handle_sides (dock : CanvasDock) (pos : vec2) (item : ItemData) :
    (hasFlag dock.stretchHandle.flags ITEM_LEFT = false →
      (CropItem dock pos item).crop.left = dock.startCrop.left) ∧
    (hasFlag dock.stretchHandle.flags ITEM_RIGHT = false →
      (CropItem dock pos item).crop.right = dock.startCrop.right) ∧
    (hasFlag dock.stretchHandle.flags ITEM_TOP = false →
      (CropItem dock pos item).crop.top = dock.startCrop.top) ∧
    (hasFlag dock.stretchHandle.flags ITEM_BOTTOM = false →
      (CropItem dock pos item).crop.bottom = dock.startCrop.bottom) ∧
    (CropItem dock pos item).rot = item.rot ∧
    (CropItem dock pos item).scale = item.scale ∧
    { CropItem dock pos item with crop := item.crop, pos := item.pos } = item := by
  refine ⟨?_, ?_, ?_, ?_, ?_, ?_, ?_⟩
  · intro h
    simp only [CropItem, CropItem_crop]
    split_ifs <;> simp_all
  · intro h
    simp only [CropItem, CropItem_crop]
    split_ifs <;> simp_all
  · intro h
    simp only [CropItem, CropItem_crop]
    split_ifs <;> simp_all
  · intro h
    simp only [CropItem, CropItem_crop]
    split_ifs <;> simp_all
  · simp only [CropItem]; split_ifs <;> rfl
  · simp only [CropItem]; split_ifs <;> rfl
  · simp only [CropItem]; split_ifs <;> rfl

/-- Instance for C15: with `CenterLeft` only `crop.left` can differ from the
snapshot, with `TopRight` only `crop.top` and `crop.right`. -/
theorem CropItem_writes_only_handle_sides_witness :
    ((CropItem (dragDock .CenterLeft (squareItem .OBS_BOUNDS_NONE ⟨0, 0⟩)) ⟨30, 40⟩
        (squareItem .OBS_BOUNDS_NONE ⟨0, 0⟩)).crop.right = 0 ∧
      (CropItem (dragDock .CenterLeft (squareItem .OBS_BOUNDS_NONE ⟨0, 0⟩)) ⟨30, 40⟩
        (squareItem .OBS_BOUNDS_NONE ⟨0, 0⟩)).crop.top = 0 ∧
      (CropItem (dragDock .CenterLeft (squareItem .OBS_BOUNDS_NONE ⟨0, 0⟩)) ⟨30, 40⟩
        (squareItem .OBS_BOUNDS_NONE ⟨0, 0⟩)).crop.bottom = 0) ∧
    ((CropItem (dragDock .TopRight (squareItem .OBS_BOUNDS_NONE ⟨0, 0⟩)) ⟨30, 40⟩
        (squareItem .OBS_BOUNDS_NONE ⟨0, 0⟩)).crop.left = 0 ∧
      (CropItem (dragDock .TopRight (squareItem .OBS_BOUNDS_NONE ⟨0, 0⟩)) ⟨30, 40⟩
        (squareItem .OBS_BOUNDS_NONE ⟨0, 0⟩)).crop.bottom = 0) := by
  obtain ⟨-, hr, ht, hb, -⟩ := CropItem_writes_only_handle_sides
    (dragDock .CenterLeft (squareItem .OBS_BOUNDS_NONE ⟨0, 0⟩)) ⟨30, 40⟩
    (squareItem .OBS_BOUNDS_NONE ⟨0, 0⟩)
  obtain ⟨hl', -, -, hb', -⟩ := CropItem_writes_only_handle_sides
    (dragDock .TopRight (squareItem .OBS_BOUNDS_NONE ⟨0, 0⟩)) ⟨30, 40⟩
    (squareItem .OBS_BOUNDS_NONE ⟨0, 0⟩)
  exact ⟨⟨hr (by decide), ht (by decide), hb (by decide)⟩, hl' (by decide), hb' (by decide)⟩

/-- C14, the code at the failing input: an item with fixed bounds of 1000 by
1000, scale 1, no crop and a source of 100 by 100 pixels, cropped through the
`CenterLeft` handle with the pointer at x = 500 in item space. `CropItem`
clamps against the bounds size, hands over `crop.left = 500`, and
`sourceWidth - crop.left - crop.right` is `-400`. -/
theorem CropItem_bounded_item_overcrops :
    (CropItem (dragDock .CenterLeft (squareItem .OBS_BOUNDS_STRETCH ⟨1000, 1000⟩)) ⟨500, 300⟩
      (squareItem .OBS_BOUNDS_STRETCH ⟨1000, 1000⟩)).crop = ⟨500, 0, 0, 0⟩ ∧
    (((squareItem .OBS_BOUNDS_STRETCH ⟨1000, 1000⟩).source_width : Int) -
      (CropItem (dragDock .CenterLeft (squareItem .OBS_BOUNDS_STRETCH ⟨1000, 1000⟩)) ⟨500, 300⟩
        (squareItem .OBS_BOUNDS_STRETCH ⟨1000, 1000⟩)).crop.left -
      (CropItem (dragDock .CenterLeft (squareItem .OBS_BOUNDS_STRETCH ⟨1000, 1000⟩)) ⟨500, 300⟩
        (squareItem .OBS_BOUNDS_STRETCH ⟨1000, 1000⟩)).crop.right) = -400 := by
  have hr : roundToInt (500 : ℚ) = 500 := by
    have h := roundToInt_intCast 500 (by decide) (by decide)
    simpa using h
  have hh : (dragDock .CenterLeft (squareItem .OBS_BOUNDS_STRETCH ⟨1000, 1000⟩)).stretchHandle =
      .CenterLeft := rfl
  have hsc : (dragDock .CenterLeft (squareItem .OBS_BOUNDS_STRETCH ⟨1000, 1000⟩)).startCrop =
      ⟨0, 0, 0, 0⟩ := rfl
  have hflagL : hasFlag ItemHandle.CenterLeft.flags ITEM_LEFT = true := by decide
  have hflagT : hasFlag ItemHandle.CenterLeft.flags ITEM_TOP = false := by decide
  have hflagB : hasFlag ItemHandle.CenterLeft.flags ITEM_BOTTOM = false := by decide
  have htl : (CropItem_clamp (dragDock .CenterLeft
      (squareItem .OBS_BOUNDS_STRETCH ⟨1000, 1000⟩)) ⟨500, 300⟩
      (squareItem .OBS_BOUNDS_STRETCH ⟨1000, 1000⟩)).tl_x = 500 := by
    simp [CropItem_clamp, dragDock, idleDock, squareItem, GetItemSize, hflagL,
      vec3_transform, vec3_set, matrix4_identity, wrap_int]
    norm_num [minfunc, maxfunc]
  have hc : (CropItem (dragDock .CenterLeft (squareItem .OBS_BOUNDS_STRETCH ⟨1000, 1000⟩))
      ⟨500, 300⟩ (squareItem .OBS_BOUNDS_STRETCH ⟨1000, 1000⟩)).crop = ⟨500, 0, 0, 0⟩ := by
    simp only [CropItem, CropItem_crop, hh, hsc, htl, hflagL, hflagT, hflagB]
    simp [squareItem, hr, wrap_int]
  rw [hc]
  exact ⟨rfl, by simp [squareItem]⟩

/-- C16, as stated, fails. An item of 100 by 100 without bounds whose
`BottomRight` handle is dragged to x = -50 in item space, past its left edge
(control and shift held), gets the scale (-1/2, 3/10): it is flipped. An item
with bounds of 100 by 100 whose `CenterRight` handle is dragged to x = 1 gets
bounds 1 pixel wide. -/
theorem StretchItem_inverts_counterexample :
    (StretchItem gridEnv (dragDock .BottomRight (squareItem .OBS_BOUNDS_NONE ⟨0, 0⟩)) true true
      ⟨-50, 30⟩ (squareItem .OBS_BOUNDS_NONE ⟨0, 0⟩)).scale = ⟨-1 / 2, 3 / 10⟩ ∧
    (-1 / 2 : ℚ) < 0 ∧
    (StretchItem gridEnv (dragDock .CenterRight (squareItem .OBS_BOUNDS_STRETCH ⟨100, 100⟩))
      false true ⟨1, 30⟩ (squareItem .OBS_BOUNDS_STRETCH ⟨100, 100⟩)).bounds = ⟨1, 100⟩ ∧
    (1 : ℚ) < 2 := by
  have hBR : ItemHandle.BottomRight.flags = 10 := by decide
  have hCR : ItemHandle.CenterRight.flags = 2 := by decide
  have f1 : hasFlag 10 ITEM_LEFT = false := by decide
  have f2 : hasFlag 10 ITEM_RIGHT = true := by decide
  have f3 : hasFlag 10 ITEM_TOP = false := by decide
  have f4 : hasFlag 10 ITEM_BOTTOM = true := by decide
  have g1 : hasFlag 2 ITEM_LEFT = false := by decide
  have g2 : hasFlag 2 ITEM_RIGHT = true := by decide
  have g3 : hasFlag 2 ITEM_TOP = false := by decide
  have g4 : hasFlag 2 ITEM_BOTTOM = false := by decide
  refine ⟨?_, by norm_num, ?_, by norm_num⟩
  · simp [StretchItem, StretchItem_corners, dragDock, idleDock, squareItem, GetItemSize,
      uint32_minus, wrap_int, hBR, f1, f2, f3, f4, vec3_transform, vec3_set, matrix4_identity,
      vec2_div]
    norm_num
  · simp [StretchItem, StretchItem_corners, dragDock, idleDock, squareItem, GetItemSize,
      hCR, g1, g2, g3, g4, vec3_transform, vec3_set, matrix4_identity, vec2_abs]

/-- C16, amended: `StretchItem` applies no minimum-size clamp. For an item
with fixed bounds the bounds it writes are the absolute values of the derived
size, so they are never negative, and the scale is not written. For an item
without bounds the bounds are not written and, with shift and control held (no
aspect clamp, no snapping), the scale written is the derived size divided by
the cropped source size, the derived size being `br - tl` with the dragged edge
at the pointer in item space; so a right (or bottom) handle dragged past the
opposite edge writes a negative scale. -/
theorem StretchItem_no_minimum (env : CanvasEnv) (dock : CanvasDock) (shiftDown ctrlDown : Bool)
    (pos : vec2) (item : ItemData) :
    (item.bounds_type ≠ .OBS_BOUNDS_NONE →
      0 ≤ (StretchItem env dock shiftDown ctrlDown pos item).bounds.x ∧
      0 ≤ (StretchItem env dock shiftDown ctrlDown pos item).bounds.y ∧
      (StretchItem env dock shiftDown ctrlDown pos item).scale = item.scale) ∧
    (item.bounds_type = .OBS_BOUNDS_NONE →
      (StretchItem env dock shiftDown ctrlDown pos item).bounds = item.bounds ∧
      (StretchItem env dock true true pos item).scale.x =
        ((if hasFlag dock.stretchHandle.flags ITEM_LEFT then dock.stretchItemSize.x
          else if hasFlag dock.stretchHandle.flags ITEM_RIGHT then
            (vec3_transform (vec3_set pos.x pos.y 0) dock.screenToItem).x
          else dock.stretchItemSize.x) -
         (if hasFlag dock.stretchHandle.flags ITEM_LEFT then
            (vec3_transform (vec3_set pos.x pos.y 0) dock.screenToItem).x else 0)) /
          ((item.source_width : ℚ) - (wrap_int (item.crop.left + item.crop.right) : ℚ)) ∧
      (StretchItem env dock true true pos item).scale.y =
        ((if hasFlag dock.stretchHandle.flags ITEM_TOP then dock.stretchItemSize.y
          else if hasFlag dock.stretchHandle.flags ITEM_BOTTOM then
            (vec3_transform (vec3_set pos.x pos.y 0) dock.screenToItem).y
          else dock.stretchItemSize.y) -
         (if hasFlag dock.stretchHandle.flags ITEM_TOP then
            (vec3_transform (vec3_set pos.x pos.y 0) dock.screenToItem).y else 0)) /
          ((item.source_height : ℚ) - (wrap_int (item.crop.top + item.crop.bottom) : ℚ)) ∧
      (hasFlag dock.stretchHandle.flags ITEM_LEFT = false →
        hasFlag dock.stretchHandle.flags ITEM_RIGHT = true →
        (vec3_transform (vec3_set pos.x pos.y 0) dock.screenToItem).x < 0 →
        0 < (item.source_width : ℚ) - (wrap_int (item.crop.left + item.crop.right) : ℚ) →
        (StretchItem env dock true true pos item).scale.x < 0)) := by
  constructor
  · intro hb
    simp only [StretchItem, hb, ne_eq, not_false_eq_true, if_true]
    exact ⟨abs_nonneg _, abs_nonneg _, trivial⟩
  · intro hb
    have hx : (StretchItem env dock true true pos item).scale.x =
        ((if hasFlag dock.stretchHandle.flags ITEM_LEFT then dock.stretchItemSize.x
          else if hasFlag dock.stretchHandle.flags ITEM_RIGHT then
            (vec3_transform (vec3_set pos.x pos.y 0) dock.screenToItem).x
          else dock.stretchItemSize.x) -
         (if hasFlag dock.stretchHandle.flags ITEM_LEFT then
            (vec3_transform (vec3_set pos.x pos.y 0) dock.screenToItem).x else 0)) /
          ((item.source_width : ℚ) - (wrap_int (item.crop.left + item.crop.right) : ℚ)) := by
      simp [StretchItem, StretchItem_corners, hb, vec2_div]
    refine ⟨?_, hx, ?_, ?_⟩
    · simp [StretchItem, hb]
    · simp [StretchItem, StretchItem_corners, hb, vec2_div]
    · intro hl hr hneg hbase
      rw [hx]
      simp only [hl, hr, if_true, Bool.false_eq_true, if_false, sub_zero]
      exact div_neg_of_neg_of_pos hneg hbase

/-- Instance for C16: the flipped item of the counterexample, through the
amended statement. -/
theorem StretchItem_no_minimum_witness :
    (StretchItem gridEnv (dragDock .BottomRight (squareItem .OBS_BOUNDS_NONE ⟨0, 0⟩)) true true
      ⟨-50, 30⟩ (squareItem .OBS_BOUNDS_NONE ⟨0, 0⟩)).scale.x < 0 ∧
    0 ≤ (StretchItem gridEnv (dragDock .CenterRight (squareItem .OBS_BOUNDS_STRETCH ⟨100, 100⟩))
      false true ⟨1, 30⟩ (squareItem .OBS_BOUNDS_STRETCH ⟨100, 100⟩)).bounds.x := by
  constructor
  · refine ((StretchItem_no_minimum gridEnv
      (dragDock .BottomRight (squareItem .OBS_BOUNDS_NONE ⟨0, 0⟩)) true true ⟨-50, 30⟩
      (squareItem .OBS_BOUNDS_NONE ⟨0, 0⟩)).2 rfl).2.2.2 (by decide) (by decide) ?_ ?_
    · simp [dragDock, idleDock, vec3_transform, vec3_set, matrix4_identity]
    · simp [squareItem, wrap_int]
  · exact ((StretchItem_no_minimum gridEnv
      (dragDock .CenterRight (squareItem .OBS_BOUNDS_STRETCH ⟨100, 100⟩)) false true ⟨1, 30⟩
      (squareItem .OBS_BOUNDS_STRETCH ⟨100, 100⟩)).1 (by simp [squareItem])).1

/-- C19: after a processed `HandleMouseReleaseEvent` (canvas not locked, button
press recorded) the flags `mouseDown`, `mouseMoved`, `cropping` and
`selectionBox` are false, `stretchItem` and `stretchGroup` are null, the
retained list is empty, and the hover list holds exactly the result of
`GetItemAtPos` at the release point on the scene as the release left it. -/
theorem HandleMouseReleaseEvent_returns_to_idle (env : CanvasEnv) (dock : CanvasDock)
    (event : MouseEvent)
    (hlocked : dock.locked = false) (hdown : dock.mouseDown = true) :
    (HandleMouseReleaseEvent env dock event).mouseDown = false ∧
    (HandleMouseReleaseEvent env dock event).mouseMoved = false ∧
    (HandleMouseReleaseEvent env dock event).cropping = false ∧
    (HandleMouseReleaseEvent env dock event).selectionBox = false ∧
    (HandleMouseReleaseEvent env dock event).stretchItem = none ∧
    (HandleMouseReleaseEvent env dock event).stretchGroup = none ∧
    (HandleMouseReleaseEvent env dock event).selectedItems = [] ∧
    (HandleMouseReleaseEvent env dock event).hoveredPreviewItems =
      [(GetItemAtPos env.lib (HandleMouseReleaseEvent env dock event).scene event.pos true).map
        fun i => i.data.id] := by
  simp [HandleMouseReleaseEvent, hlocked, hdown]

/-- Instance for C19: a crop drag on item 1 is released over the item; the
dock is idle again and the hover list holds item 1. -/
theorem HandleMouseReleaseEvent_returns_to_idle_witness :
    (HandleMouseReleaseEvent gridEnv
      { idleDock [plainItem 1 false true 0 0] with
        mouseDown := true, mouseMoved := true, cropping := true,
        stretchHandle := .CenterLeft, stretchItem := some 1 }
      (leftEvent false ⟨5, 5⟩ true false false)).mouseDown = false ∧
    (HandleMouseReleaseEvent gridEnv
      { idleDock [plainItem 1 false true 0 0] with
        mouseDown := true, mouseMoved := true, cropping := true,
        stretchHandle := .CenterLeft, stretchItem := some 1 }
      (leftEvent false ⟨5, 5⟩ true false false)).cropping = false ∧
    (HandleMouseReleaseEvent gridEnv
      { idleDock [plainItem 1 false true 0 0] with
        mouseDown := true, mouseMoved := true, cropping := true,
        stretchHandle := .CenterLeft, stretchItem := some 1 }
      (leftEvent false ⟨5, 5⟩ true false false)).stretchItem = none ∧
    (HandleMouseReleaseEvent gridEnv
      { idleDock [plainItem 1 false true 0 0] with
        mouseDown := true, mouseMoved := true, cropping := true,
        stretchHandle := .CenterLeft, stretchItem := some 1 }
      (leftEvent false ⟨5, 5⟩ true false false)).hoveredPreviewItems = [some 1] := by
  obtain ⟨h1, -, h3, -, h5, -, -, h8⟩ := HandleMouseReleaseEvent_returns_to_idle gridEnv
    { idleDock [plainItem 1 false true 0 0] with
      mouseDown := true, mouseMoved := true, cropping := true,
      stretchHandle := .CenterLeft, stretchItem := some 1 }
    (leftEvent false ⟨5, 5⟩ true false false) rfl rfl
  refine ⟨h1, h3, h5, ?_⟩
  rw [h8, HandleMouseReleaseEvent_scene _ _ _ rfl rfl]
  have hget : GetItemAtPos gridLib [plainItem 1 false true 0 0] ⟨5, 5⟩ true =
      some (plainItem 1 false true 0 0) := by
    simp [GetItemAtPos, obs_scene_enum_items, FindItemAtPos, plainItem, SceneItemHasVideo,
      obs_sceneitem_locked, obs_sceneitem_selected, pointInItem, gridLib, boxAt, diagonalInv,
      vec3_transform, vec3_set, CloseFloat, SceneItem.data]
    norm_num
  simp only [idleDock, Bool.not_true, Bool.false_eq_true, if_false]
  show [Option.map (fun i => i.data.id)
    (GetItemAtPos gridLib [plainItem 1 false true 0 0] ⟨5, 5⟩ true)] = [some 1]
  rw [hget]
  rfl

/-- C20, the code on the failing trace: over a scene with the selected item 1
the pointer hovers onto the top left corner of the item, the left button is
pressed, released and pressed again. The dock then has the button down and the
handle `TopLeft` active with a null target, and the next move with the button
down runs `StretchItem` on the null target. -/
theorem drag_step_with_null_target :
    (handleEvents gridEnv (idleDock [plainItem 1 false true 0 0]) clickThenPress).mouseDown
      = true ∧
    (handleEvents gridEnv (idleDock [plainItem 1 false true 0 0]) clickThenPress).stretchHandle
      = .TopLeft ∧
    (handleEvents gridEnv (idleDock [plainItem 1 false true 0 0]) clickThenPress).stretchItem
      = none ∧
    (HandleMouseMoveEvent gridEnv
      (handleEvents gridEnv (idleDock [plainItem 1 false true 0 0]) clickThenPress)
      (leftEvent true ⟨30, 0⟩ false false false)).calls.getLast? =
        some (Call.StretchItem none) := by
  have hfind : (FindHandleAtPos_items gridEnv [plainItem 1 false true 0 0]
      (handleSearch gridEnv ⟨0, 0⟩)).handle = .TopLeft := by
    simp only [FindHandleAtPos_items, plainItem]
    rw [FindHandleAtPos_corner gridEnv _ _ _ rfl
      (by norm_num [handleSearch, HANDLE_SEL_RADIUS, HANDLE_RADIUS])
      (by norm_num [handleSearch, gridEnv, gridLib, boxAt, matrix4_identity, GetTransformedPos,
        vec3_transform, vec3_set, vec3_dist_sq, SceneItem.data])]
  obtain ⟨a1, -, -, a4, a5, a6, a7, a8⟩ := HandleMouseMoveEvent_hover gridEnv
    (idleDock [plainItem 1 false true 0 0]) (leftEvent false ⟨0, 0⟩ false false false)
    rfl rfl rfl rfl
  obtain ⟨b1, -, -, b4, b5, b6, -, -, -⟩ := HandleMousePressEvent_left gridEnv
    (HandleMouseMoveEvent gridEnv (idleDock [plainItem 1 false true 0 0])
      (leftEvent false ⟨0, 0⟩ false false false))
    (leftEvent true ⟨0, 0⟩ false false false) a4 a5 rfl
  obtain ⟨c1, c2, c3, c4, -, -, c7⟩ := HandleMouseReleaseEvent_keeps_handle gridEnv
    (HandleMousePressEvent gridEnv
      (HandleMouseMoveEvent gridEnv (idleDock [plainItem 1 false true 0 0])
        (leftEvent false ⟨0, 0⟩ false false false))
      (leftEvent true ⟨0, 0⟩ false false false))
    (leftEvent false ⟨0, 0⟩ false false false) b4 b6
  obtain ⟨d1, d2, -, d4, d5, d6, -, d8, -⟩ := HandleMousePressEvent_left gridEnv
    (HandleMouseReleaseEvent gridEnv
      (HandleMousePressEvent gridEnv
        (HandleMouseMoveEvent gridEnv (idleDock [plainItem 1 false true 0 0])
          (leftEvent false ⟨0, 0⟩ false false false))
        (leftEvent true ⟨0, 0⟩ false false false))
      (leftEvent false ⟨0, 0⟩ false false false))
    (leftEvent true ⟨0, 0⟩ false false false) c3 (c4.trans b5) rfl
  have hh : (handleEvents gridEnv (idleDock [plainItem 1 false true 0 0])
      clickThenPress).stretchHandle = .TopLeft :=
    d1.trans (c1.trans (b1.trans (a1.trans hfind)))
  have hi : (handleEvents gridEnv (idleDock [plainItem 1 false true 0 0])
      clickThenPress).stretchItem = none := d2.trans c2
  have hc : (handleEvents gridEnv (idleDock [plainItem 1 false true 0 0])
      clickThenPress).cropping = false :=
    d8.trans (by rw [c7]; rfl)
  refine ⟨d6, hh, hi, ?_⟩
  rw [HandleMouseMoveEvent_null_target gridEnv
    (handleEvents gridEnv (idleDock [plainItem 1 false true 0 0]) clickThenPress)
    (leftEvent true ⟨30, 0⟩ false false false) d4 d5 d6 (by rw [hh]; decide) hi, hh, hc]
  simp

/-- C22, counterexample: for the top side (index 0) with the item edge exactly
on the canvas edge the measured distance is 0, which is non-negative, and
`RenderSpacingHelper` draws nothing. -/
theorem RenderSpacingHelper_zero_counterexample :
    measuredDistance 0 ⟨1 / 2, 0, 1⟩ ⟨1 / 2, 0, 1⟩ = 0 ∧
    RenderSpacingHelper axisSpacing 0 ⟨1 / 2, 0, 1⟩ ⟨1 / 2, 0, 1⟩ ⟨1920, 1080, 1⟩ 1 = none := by
  constructor
  · simp [measuredDistance]
  · simp [RenderSpacingHelper, axisSpacing]

/-- C22, amended: `RenderSpacingHelper` draws exactly when `end >= start` on
the measured axis and the pixel length `vec3_dist(start, end)` times the base
extent is strictly positive. Hence, for end points whose distance is the
absolute measured distance (they differ on the measured axis only) and a
positive base extent, it draws exactly when the measured distance is strictly
positive, and nothing at a distance of 0 or below; what it draws is the line
from `start` to `end` and the number `(int)px`. -/
theorem RenderSpacingHelper_draws_iff_positive (env : SpacingEnv) (sourceIndex : Int)
    (start endp viewport : vec3) (pixelRatio : ℚ) :
    ((RenderSpacingHelper env sourceIndex start endp viewport pixelRatio).isSome = true ↔
      0 ≤ measuredDistance sourceIndex start endp ∧
      0 < env.vec3_dist start endp * (measuredExtent env sourceIndex : ℚ)) ∧
    (0 < measuredExtent env sourceIndex →
      env.vec3_dist start endp = abs (measuredDistance sourceIndex start endp) →
      ((RenderSpacingHelper env sourceIndex start endp viewport pixelRatio).isSome = true ↔
        0 < measuredDistance sourceIndex start endp)) ∧
    (∀ r, RenderSpacingHelper env sourceIndex start endp viewport pixelRatio = some r →
      r.line_start = start ∧ r.line_end = endp ∧
      r.px = truncToInt (env.vec3_dist start endp * (measuredExtent env sourceIndex : ℚ))) := by
  have key : (RenderSpacingHelper env sourceIndex start endp viewport pixelRatio).isSome = true ↔
      0 ≤ measuredDistance sourceIndex start endp ∧
      0 < env.vec3_dist start endp * (measuredExtent env sourceIndex : ℚ) := by
    by_cases h : sourceIndex = 2 ∨ sourceIndex = 3
    · simp only [RenderSpacingHelper, measuredDistance, measuredExtent, h, decide_True,
        if_true, Bool.true_and, Bool.not_true, Bool.false_and, Bool.or_false]
      by_cases h1 : endp.x ≥ start.x
      · by_cases h2 : env.vec3_dist start endp * (env.base_width : ℚ) ≤ 0
        · simp [h1, h2]
        · simp [h1, h2, not_le.mp h2]
      · simp [h1]
    · simp only [RenderSpacingHelper, measuredDistance, measuredExtent, h, decide_False,
        if_false, Bool.false_and, Bool.not_false, Bool.true_and, Bool.false_or]
      by_cases h1 : endp.y ≥ start.y
      · by_cases h2 : env.vec3_dist start endp * (env.base_height : ℚ) ≤ 0
        · simp [h1, h2]
        · simp [h1, h2, not_le.mp h2]
      · simp [h1]
  refine ⟨key, ?_, ?_⟩
  · intro hext hdist
    rw [key, hdist]
    have hpos : (0 : ℚ) < (measuredExtent env sourceIndex : ℚ) := by exact_mod_cast hext
    constructor
    · rintro ⟨h0, h1⟩
      have habs : 0 < abs (measuredDistance sourceIndex start endp) :=
        pos_of_mul_pos_left h1 (le_of_lt hpos)
      rcases lt_or_eq_of_le h0 with h | h
      · exact h
      · rw [← h] at habs; simp at habs
    · intro h
      exact ⟨le_of_lt h, mul_pos (abs_pos.mpr (ne_of_gt h)) hpos⟩
  · intro r hr
    by_cases h : sourceIndex = 2 ∨ sourceIndex = 3
    · have he : measuredExtent env sourceIndex = env.base_width := by
        simp [measuredExtent, h]
      rw [he]
      simp only [RenderSpacingHelper, h, decide_True, ↓reduceIte] at hr
      split_ifs at hr
      simp only [Option.some.injEq] at hr
      subst hr
      exact ⟨rfl, rfl, rfl⟩
    · have he : measuredExtent env sourceIndex = env.base_height := by
        simp [measuredExtent, h]
      rw [he]
      simp only [RenderSpacingHelper, h, decide_False, Bool.false_eq_true, ↓reduceIte] at hr
      split_ifs at hr
      simp only [Option.some.injEq] at hr
      subst hr
      exact ⟨rfl, rfl, rfl⟩

/-- Instance for C22: for the left side (index 2) an item edge a quarter of
the canvas width inside the canvas is drawn with the label 480, and an edge on
the canvas edge is not drawn. -/
theorem RenderSpacingHelper_draws_iff_positive_witness :
    (RenderSpacingHelper axisSpacing 2 ⟨0, 1 / 2, 1⟩ ⟨1 / 4, 1 / 2, 1⟩ ⟨1920, 1080, 1⟩ 1).isSome
      = true ∧
    (∀ r, RenderSpacingHelper axisSpacing 2 ⟨0, 1 / 2, 1⟩ ⟨1 / 4, 1 / 2, 1⟩ ⟨1920, 1080, 1⟩ 1
      = some r → r.px = 480) ∧
    (RenderSpacingHelper axisSpacing 2 ⟨0, 1 / 2, 1⟩ ⟨0, 1 / 2, 1⟩ ⟨1920, 1080, 1⟩ 1).isSome
      = false := by
  obtain ⟨-, h2, h3⟩ := RenderSpacingHelper_draws_iff_positive axisSpacing 2 ⟨0, 1 / 2, 1⟩
    ⟨1 / 4, 1 / 2, 1⟩ ⟨1920, 1080, 1⟩ 1
  obtain ⟨-, h2', -⟩ := RenderSpacingHelper_draws_iff_positive axisSpacing 2 ⟨0, 1 / 2, 1⟩
    ⟨0, 1 / 2, 1⟩ ⟨1920, 1080, 1⟩ 1
  have hd : axisSpacing.vec3_dist ⟨0, 1 / 2, 1⟩ ⟨1 / 4, 1 / 2, 1⟩ = 1 / 4 := by
    simp only [axisSpacing]
    norm_num [abs_of_nonneg]
  have hm : measuredDistance 2 ⟨0, 1 / 2, 1⟩ ⟨1 / 4, 1 / 2, 1⟩ = 1 / 4 := by
    simp [measuredDistance]
  have he : measuredExtent axisSpacing 2 = 1920 := by simp [measuredExtent, axisSpacing]
  refine ⟨?_, ?_, ?_⟩
  · refine (h2 (by rw [he]; norm_num) ?_).mpr (by rw [hm]; norm_num)
    rw [hd, hm]; norm_num [abs_of_nonneg]
  · intro r hr
    rw [(h3 r hr).2.2, hd, he]
    have : ((1 : ℚ) / 4 * ((1920 : ℕ) : ℚ)) = 480 := by norm_num
    rw [this]
    simp [truncToInt, float_to_int, INT_MIN, INT_MAX]
  · have hd0 : axisSpacing.vec3_dist ⟨0, 1 / 2, 1⟩ ⟨0, 1 / 2, 1⟩ =
        abs (measuredDistance 2 ⟨0, 1 / 2, 1⟩ ⟨0, 1 / 2, 1⟩) := by
      simp [axisSpacing, measuredDistance]
    have := h2' (by rw [he]; norm_num) hd0
    rw [Bool.eq_false_iff]
    intro hs
    have := this.mp hs
    simp [measuredDistance] at this

/-- C23: `GetItemAtPos(pos, true)` over the hit items in enumeration order.
When no hit item is selected the result is the last (topmost) hit, and no item
when there is no hit. When the hit items are `below ++ x :: above` with `x` the
first selected one, the result is the last item of `below`, the hit just below
`x`, if `below` is not empty, and the topmost hit if `x` is the back-most
hit. -/
theorem GetItemAtPos_select_below (lib : Libobs) (scene : List SceneItem) (pos : vec2) :
    ((∀ h ∈ hitItems lib pos scene, obs_sceneitem_selected h = false) →
      GetItemAtPos lib scene pos true = (hitItems lib pos scene).getLast?) ∧
    (hitItems lib pos scene = [] → GetItemAtPos lib scene pos true = none) ∧
    (∀ (below above : List SceneItem) (x : SceneItem),
      hitItems lib pos scene = below ++ x :: above →
      (∀ h ∈ below, obs_sceneitem_selected h = false) →
      obs_sceneitem_selected x = true →
      GetItemAtPos lib scene pos true =
        if below.isEmpty then (hitItems lib pos scene).getLast? else below.getLast?) := by
  have hplain : (∀ h ∈ hitItems lib pos scene, obs_sceneitem_selected h = false) →
      GetItemAtPos lib scene pos true = (hitItems lib pos scene).getLast? := by
    intro h
    unfold GetItemAtPos
    rw [enum_FindItemAtPos_plain lib pos true scene none]
    · simp [hitItems]
    · intro y hy hhit
      simp [h y (List.mem_filter.mpr ⟨hy, hhit⟩)]
  refine ⟨hplain, ?_, ?_⟩
  · intro hnil
    rw [hplain (by rw [hnil]; simp), hnil]
    rfl
  · intro below above x hdec hbelow hsel
    unfold hitItems at hdec
    obtain ⟨l1, r, hscene, hf1, hfr⟩ := List.filter_eq_append_iff.mp hdec
    obtain ⟨m, l2, hr, hm, hxhit, hf2⟩ := List.filter_eq_cons_iff.mp hfr
    have hsplit : scene = (l1 ++ m) ++ x :: l2 := by
      rw [hscene, hr, List.append_assoc]
    have hfm : List.filter (isHit lib pos) m = [] :=
      List.filter_eq_nil_iff.mpr (fun y hy => hm y hy)
    have hf1m : List.filter (isHit lib pos) (l1 ++ m) = below := by
      rw [List.filter_append, hf1, hfm, List.append_nil]
    have hun : ∀ y ∈ l1 ++ m, isHit lib pos y = true → obs_sceneitem_selected y = false := by
      intro y hy hhit
      apply hbelow
      rw [← hf1m]
      exact List.mem_filter.mpr ⟨hy, hhit⟩
    unfold GetItemAtPos hitItems
    rw [hdec]
    have key := enum_FindItemAtPos_first_selected lib pos x l2 hxhit hsel (l1 ++ m) none hun
    rw [← hsplit, hf1m, hf2] at key
    rw [key]
    simp only [Option.toList, List.nil_append]
    cases below with
    | nil => simp
    | cons b bs => simp

/-- Instance for C23: three stacked items. With the middle one selected the
result is the bottom one; with the bottom one selected it is the top one. -/
theorem GetItemAtPos_select_below_witness :
    GetItemAtPos gridLib
      [plainItem 1 false false 0 0, plainItem 2 false true 0 0, plainItem 3 false false 0 0]
      ⟨5, 5⟩ true = some (plainItem 1 false false 0 0) ∧
    GetItemAtPos gridLib
      [plainItem 1 false true 0 0, plainItem 2 false false 0 0, plainItem 3 false false 0 0]
      ⟨5, 5⟩ true = some (plainItem 3 false false 0 0) := by
  have hhit : ∀ (id : Nat) (sel : Bool), isHit gridLib ⟨5, 5⟩ (plainItem id false sel 0 0) = true := by
    intro id sel
    simp [isHit, plainItem, SceneItemHasVideo, obs_sceneitem_locked, pointInItem, gridLib,
      boxAt, diagonalInv, vec3_transform, vec3_set, CloseFloat, SceneItem.data]
    norm_num
  constructor
  · have h := (GetItemAtPos_select_below gridLib
      [plainItem 1 false false 0 0, plainItem 2 false true 0 0, plainItem 3 false false 0 0]
      ⟨5, 5⟩).2.2 [plainItem 1 false false 0 0] [plainItem 3 false false 0 0]
      (plainItem 2 false true 0 0) (by simp [hitItems, List.filter_cons, hhit])
      (by simp [plainItem, obs_sceneitem_selected, SceneItem.data])
      (by simp [plainItem, obs_sceneitem_selected, SceneItem.data])
    rw [h]
    simp
  · have h := (GetItemAtPos_select_below gridLib
      [plainItem 1 false true 0 0, plainItem 2 false false 0 0, plainItem 3 false false 0 0]
      ⟨5, 5⟩).2.2 [] [plainItem 2 false false 0 0, plainItem 3 false false 0 0]
      (plainItem 1 false true 0 0) (by simp [hitItems, List.filter_cons, hhit])
      (by simp)
      (by simp [plainItem, obs_sceneitem_selected, SceneItem.data])
    rw [h]
    simp [hitItems, List.filter_cons, hhit]

/-- C24: with shift held, for a proposed angle `d` in the range (-90, 270]
degrees, the rotation `RotateItem` applies is the multiple `15 * k` of 15
degrees nearest to `d` whenever `d` is not exactly halfway between two
multiples of 15; an angle exactly halfway is left unchanged, in any range.
Angles are given in degrees; the code holds `RAD(d)` and applies `DEG` of the
snapped value. -/
theorem RotateItem_angle_fine_nearest (m : FloatMath) (hk : 0 < m.RAD_factor)
    (hinv : m.RAD_factor * m.DEG_factor = 1) (ctrlDown : Bool) (rotateAngle d : ℚ) :
    (-90 < d → d ≤ 270 → (∀ j : ℤ, d ≠ 15 * (j : ℚ) + 15 / 2) →
      ∀ k : ℤ, (∀ k' : ℤ, abs (d - 15 * (k : ℚ)) ≤ abs (d - 15 * (k' : ℚ))) →
        DEG m (RotateItem_angle m true ctrlDown rotateAngle (RAD m d)) = 15 * (k : ℚ)) ∧
    ((∃ j : ℤ, d = 15 * (j : ℚ) + 15 / 2) →
      DEG m (RotateItem_angle m true ctrlDown rotateAngle (RAD m d)) = d) := by
  constructor
  · intro hlo hhi hhalf k hnear
    -- the nearest multiple is strictly within 7.5 degrees
    have hk0 := hnear ⌊d / 15 + 1 / 2⌋
    have hfl1 : ((⌊d / 15 + 1 / 2⌋ : ℤ) : ℚ) ≤ d / 15 + 1 / 2 := Int.floor_le _
    have hfl2 : d / 15 + 1 / 2 < ((⌊d / 15 + 1 / 2⌋ : ℤ) : ℚ) + 1 := Int.lt_floor_add_one _
    have hle : abs (d - 15 * (k : ℚ)) ≤ 15 / 2 := by
      refine le_trans hk0 ?_
      rw [abs_le]
      constructor <;> linarith
    have hlt : abs (d - 15 * (k : ℚ)) < 15 / 2 := by
      rcases lt_or_eq_of_le hle with h | h
      · exact h
      · exfalso
        rcases abs_eq (by norm_num : (0 : ℚ) ≤ 15 / 2) |>.mp h with h1 | h1
        · exact hhalf k (by linarith)
        · refine hhalf (k - 1) ?_
          push_cast
          linarith
    rw [abs_lt] at hlt
    have hk1 : (-6 : ℚ) - 1 / 2 < (k : ℚ) := by linarith [hlt.2]
    have hk2 : (k : ℚ) < 18 + 1 / 2 := by linarith [hlt.1]
    have hk1' : -6 ≤ k := by
      by_contra hc
      have : k ≤ -7 := by omega
      have : (k : ℚ) ≤ -7 := by exact_mod_cast this
      linarith
    have hk2' : k ≤ 18 := by
      by_contra hc
      have : 19 ≤ k := by omega
      have : (19 : ℚ) ≤ (k : ℚ) := by exact_mod_cast this
      linarith
    have hmem : 15 * (k : ℚ) ∈ fineRotations := (mem_fineRotations _).mpr ⟨k, hk1', hk2', rfl⟩
    rw [RotateItem_angle_fine,
      snapRun_hit m (15 / 2) fineRotations (RAD m d) (15 * (k : ℚ)) (fineRotations_apart m hk)
        hmem ((RAD_near_iff m hk d (15 * (k : ℚ)) (15 / 2)).mpr (abs_lt.mpr hlt))]
    exact DEG_RAD m hinv _
  · rintro ⟨j, rfl⟩
    rw [RotateItem_angle_fine, snapRun_none, DEG_RAD m hinv]
    intro c hc hlt
    obtain ⟨k, -, -, rfl⟩ := (mem_fineRotations c).mp hc
    rw [RAD_near_iff m hk] at hlt
    rw [abs_lt] at hlt
    have h1 : (j : ℚ) - (k : ℚ) < 0 := by linarith [hlt.2]
    have h2 : -1 < (j : ℚ) - (k : ℚ) := by linarith [hlt.1]
    have h1' : j - k < 0 := by exact_mod_cast h1
    have h2' : -1 < j - k := by exact_mod_cast h2
    omega

/-- Instance for C24: with shift held 50 degrees becomes 45, the nearest
multiple of 15, and 52.5 degrees, exactly halfway, stays. -/
theorem RotateItem_angle_fine_nearest_witness :
    DEG flatMath (RotateItem_angle flatMath true false 0 (RAD flatMath 50)) = 45 ∧
    DEG flatMath (RotateItem_angle flatMath true false 0 (RAD flatMath (105 / 2))) = 105 / 2 := by
  have hk : 0 < flatMath.RAD_factor := by norm_num [flatMath]
  have hinv : flatMath.RAD_factor * flatMath.DEG_factor = 1 := by norm_num [flatMath]
  constructor
  · have h := (RotateItem_angle_fine_nearest flatMath hk hinv false 0 50).1 (by norm_num)
      (by norm_num)
      (by
        intro j hj
        have h2 : (2 : ℚ) * 50 = 2 * (15 * (j : ℚ) + 15 / 2) := by rw [← hj]
        have h3 : (100 : ℚ) = ((30 * j + 15 : ℤ) : ℚ) := by push_cast; linarith
        have h4 : (100 : ℤ) = 30 * j + 15 := by exact_mod_cast h3
        omega)
      3
      (by
        intro k'
        have h45 : abs ((50 : ℚ) - 15 * ((3 : ℤ) : ℚ)) = 5 := by norm_num [abs_of_nonneg]
        rw [h45]
        by_contra hc
        push_neg at hc
        rw [abs_lt] at hc
        have h1 : (3 : ℚ) < (k' : ℚ) := by linarith [hc.2]
        have h2 : (k' : ℚ) < 11 / 3 := by linarith [hc.1]
        have h1' : 3 < k' := by exact_mod_cast h1
        have h2' : (k' : ℚ) < 4 := by linarith
        have h2'' : k' < 4 := by exact_mod_cast h2'
        omega)
    rw [h]; norm_num
  · exact (RotateItem_angle_fine_nearest flatMath hk hinv false 0 (105 / 2)).2
      ⟨3, by norm_num⟩

/-- C25: for segments `P1 P2` and `P3 P4` with no three of the four end points
collinear, `IntersectLine` answers true exactly when the segments cross, `P3`
and `P4` being strictly on opposite sides of the line `P1 P2` and `P1` and `P2`
strictly on opposite sides of the line `P3 P4`; and it answers false whenever
one of the segments has zero length. -/
theorem IntersectLine_iff_segments_cross (x1 x2 x3 x4 y1 y2 y3 y4 : ℚ) :
    (sideOfLine x1 y1 x2 y2 x3 y3 ≠ 0 → sideOfLine x1 y1 x2 y2 x4 y4 ≠ 0 →
      sideOfLine x3 y3 x4 y4 x1 y1 ≠ 0 → sideOfLine x3 y3 x4 y4 x2 y2 ≠ 0 →
      (IntersectLine x1 x2 x3 x4 y1 y2 y3 y4 = true ↔
        segmentsCross x1 x2 x3 x4 y1 y2 y3 y4)) ∧
    (x1 = x2 → y1 = y2 → IntersectLine x1 x2 x3 x4 y1 y2 y3 y4 = false) ∧
    (x3 = x4 → y3 = y4 → IntersectLine x1 x2 x3 x4 y1 y2 y3 y4 = false) := by
  refine ⟨?_, ?_, ?_⟩
  · intro h3 h4 h1 h2
    simp only [IntersectLine, segmentsCross, Bool.and_eq_true]
    rw [bne_iff_opposite _ _ _ _ (CounterClockwise_iff x1 x2 x3 y1 y2 y3)
        (CounterClockwise_iff x1 x2 x4 y1 y2 y4) h3 h4,
      bne_iff_opposite _ _ _ _ (CounterClockwise_iff x3 x4 x1 y3 y4 y1)
        (CounterClockwise_iff x3 x4 x2 y3 y4 y2) h1 h2]
  · rintro rfl rfl
    simp [IntersectLine, CounterClockwise]
  · rintro rfl rfl
    simp [IntersectLine, CounterClockwise]

/-- Instance for C25: the diagonals of the square from (0, 0) to (2, 2) cross,
and `IntersectLine` answers true; two parallel segments do not, and it answers
false. -/
theorem IntersectLine_iff_segments_cross_witness :
    IntersectLine 0 2 0 2 0 2 2 0 = true ∧ segmentsCross 0 2 0 2 0 2 2 0 ∧
    IntersectLine 0 2 0 2 0 1 2 3 = false := by
  have h := (IntersectLine_iff_segments_cross 0 2 0 2 0 2 2 0).1
    (by norm_num [sideOfLine]) (by norm_num [sideOfLine]) (by norm_num [sideOfLine])
    (by norm_num [sideOfLine])
  have hc : segmentsCross 0 2 0 2 0 2 2 0 := by
    constructor <;> norm_num [sideOfLine]
  have h' := (IntersectLine_iff_segments_cross 0 2 0 2 0 1 2 3).1
    (by norm_num [sideOfLine]) (by norm_num [sideOfLine]) (by norm_num [sideOfLine])
    (by norm_num [sideOfLine])
  refine ⟨h.mpr hc, hc, ?_⟩
  rw [Bool.eq_false_iff]
  intro ht
  have := (h'.mp ht).1
  norm_num [sideOfLine] at this

/-- C26: let `c` be the recorded pivot `rotatePoint` and let the recorded
`offsetPoint` be the offset `p0 - c` turned back by the recorded rotation `r0`,
as `FindHandleAtPos` records them. For every pointer position `RotateItem`
writes `DEG(a)` as rotation, `a` being the applied angle, and, the cosine and
sine obeying the addition formulas at `a` and `-RAD(r0)`, the position
`c + R(a - RAD(r0)) (p0 - c)`. The written position is as far from `c` as `p0`
when cosine and sine of `a - RAD(r0)` lie on the unit circle, and it is `p0`
when `a = RAD(r0)` and the cosine and sine of 0 are 1 and 0. -/
theorem RotateItem_keeps_pivot (m : FloatMath) (dock : CanvasDock) (shiftDown ctrlDown : Bool)
    (pos : vec2) (item : ItemData) (p0 : vec2) (r0 : ℚ)
    (hoff : dock.offsetPoint =
      RotatePos m ⟨p0.x - dock.rotatePoint.x, p0.y - dock.rotatePoint.y⟩ (-RAD m r0))
    (hcos : m.cos (RotateItem_applied m dock shiftDown ctrlDown pos - RAD m r0) =
      m.cos (RotateItem_applied m dock shiftDown ctrlDown pos) * m.cos (-RAD m r0) -
        m.sin (RotateItem_applied m dock shiftDown ctrlDown pos) * m.sin (-RAD m r0))
    (hsin : m.sin (RotateItem_applied m dock shiftDown ctrlDown pos - RAD m r0) =
      m.sin (RotateItem_applied m dock shiftDown ctrlDown pos) * m.cos (-RAD m r0) +
        m.cos (RotateItem_applied m dock shiftDown ctrlDown pos) * m.sin (-RAD m r0)) :
    (RotateItem m dock shiftDown ctrlDown pos item).rot =
      DEG m (RotateItem_applied m dock shiftDown ctrlDown pos) ∧
    (RotateItem m dock shiftDown ctrlDown pos item).pos =
      vec2_add dock.rotatePoint
        (RotatePos m ⟨p0.x - dock.rotatePoint.x, p0.y - dock.rotatePoint.y⟩
          (RotateItem_applied m dock shiftDown ctrlDown pos - RAD m r0)) ∧
    (m.cos (RotateItem_applied m dock shiftDown ctrlDown pos - RAD m r0) ^ 2 +
        m.sin (RotateItem_applied m dock shiftDown ctrlDown pos - RAD m r0) ^ 2 = 1 →
      vec2_dist_sq (RotateItem m dock shiftDown ctrlDown pos item).pos dock.rotatePoint =
        vec2_dist_sq p0 dock.rotatePoint) ∧
    (RotateItem_applied m dock shiftDown ctrlDown pos = RAD m r0 → m.cos 0 = 1 → m.sin 0 = 0 →
      (RotateItem m dock shiftDown ctrlDown pos item).pos = p0) := by
  have hpos : (RotateItem m dock shiftDown ctrlDown pos item).pos =
      vec2_add dock.rotatePoint
        (RotatePos m ⟨p0.x - dock.rotatePoint.x, p0.y - dock.rotatePoint.y⟩
          (RotateItem_applied m dock shiftDown ctrlDown pos - RAD m r0)) := by
    have h : (RotateItem m dock shiftDown ctrlDown pos item).pos =
        ⟨(RotatePos m dock.offsetPoint (RotateItem_applied m dock shiftDown ctrlDown pos)).x +
            dock.rotatePoint.x,
         (RotatePos m dock.offsetPoint (RotateItem_applied m dock shiftDown ctrlDown pos)).y +
            dock.rotatePoint.y⟩ := rfl
    rw [h, hoff]
    simp only [RotatePos, vec2_add, hcos, hsin, vec2.mk.injEq]
    constructor <;> ring
  refine ⟨rfl, hpos, ?_, ?_⟩
  · intro hunit
    rw [hpos]
    simp only [vec2_dist_sq, vec2_add, RotatePos, add_sub_cancel_left]
    have e1 : ∀ (c s u v : ℚ), c ^ 2 + s ^ 2 = 1 →
        (c * u - s * v) * (c * u - s * v) + (s * u + c * v) * (s * u + c * v) =
          u * u + v * v := by
      intro c s u v h
      have : (c * u - s * v) * (c * u - s * v) + (s * u + c * v) * (s * u + c * v) =
          (c ^ 2 + s ^ 2) * (u * u + v * v) := by ring
      rw [this, h, one_mul]
    exact e1 _ _ (p0.x - dock.rotatePoint.x) (p0.y - dock.rotatePoint.y) hunit
  · intro ha h0 h1
    rw [hpos, ha, sub_self]
    simp only [RotatePos, vec2_add, h0, h1]
    cases p0
    simp

/-- Instance for C26: with angles in quarter turns, an item at (10, 0) with
rotation 0 and pivot (0, 0), and the pointer on the positive x axis, control
held: the applied angle is a quarter turn and the item is moved to (0, 10), as
far from the pivot as before. -/
theorem RotateItem_keeps_pivot_witness :
    (RotateItem quarterMath
      { idleDock [] with stretchHandle := .Rot, offsetPoint := ⟨10, 0⟩ } false true ⟨10, 0⟩
      (plainItem 1 false true 10 0).data).pos = ⟨0, 10⟩ ∧
    (RotateItem quarterMath
      { idleDock [] with stretchHandle := .Rot, offsetPoint := ⟨10, 0⟩ } false true ⟨10, 0⟩
      (plainItem 1 false true 10 0).data).rot = 90 ∧
    vec2_dist_sq (RotateItem quarterMath
      { idleDock [] with stretchHandle := .Rot, offsetPoint := ⟨10, 0⟩ } false true ⟨10, 0⟩
      (plainItem 1 false true 10 0).data).pos ⟨0, 0⟩ = vec2_dist_sq ⟨10, 0⟩ ⟨0, 0⟩ := by
  have ha : RotateItem_applied quarterMath
      { idleDock [] with stretchHandle := .Rot, offsetPoint := ⟨10, 0⟩ } false true ⟨10, 0⟩ = 1 := by
    simp [RotateItem_applied, RotateItem_angle, quarterMath, RAD, idleDock, vec2_zero]
  have hr : RAD quarterMath 0 = 0 := by simp [RAD]
  have hc0 : quarterMath.cos 0 = 1 := by simp [quarterMath, quarterCos]
  have hs0 : quarterMath.sin 0 = 0 := by simp [quarterMath, quarterSin]
  have hc1 : quarterMath.cos 1 = 0 := by simp [quarterMath, quarterCos]
  have hs1 : quarterMath.sin 1 = 1 := by simp [quarterMath, quarterSin]
  obtain ⟨h1, h2, h3, -⟩ := RotateItem_keeps_pivot quarterMath
    { idleDock [] with stretchHandle := .Rot, offsetPoint := ⟨10, 0⟩ } false true ⟨10, 0⟩
    (plainItem 1 false true 10 0).data ⟨10, 0⟩ 0
    (by simp [RotatePos, hr, hc0, hs0, idleDock, vec2_zero])
    (by rw [ha, hr, neg_zero, sub_zero, hc0, hs0, hc1, hs1]; norm_num)
    (by rw [ha, hr, neg_zero, sub_zero, hc0, hs0, hc1, hs1]; norm_num)
  refine ⟨?_, ?_, ?_⟩
  · rw [h2, ha, hr, sub_zero]
    simp [RotatePos, vec2_add, hc1, hs1, idleDock, vec2_zero]
  · rw [h1, ha]
    simp [DEG, quarterMath]
  · exact h3 (by rw [ha, hr, sub_zero, hc1, hs1]; norm_num)

/-- C27: for every bounding box, canvas size and configuration, each of the
components x and y of the offset `GetSnapOffset` returns is 0 or has an
absolute value strictly below `SnapDistance`, and the component z is 0; with a
snap distance of 0 or less the offset is zero. -/
theorem GetSnapOffset_bounded (lib : Libobs) (cfg : BasicWindowConfig)
    (base_width base_height : Nat) (tl br : vec3) :
    ((GetSnapOffset lib cfg base_width base_height tl br).x = 0 ∨
      abs (GetSnapOffset lib cfg base_width base_height tl br).x < cfg.SnapDistance) ∧
    ((GetSnapOffset lib cfg base_width base_height tl br).y = 0 ∨
      abs (GetSnapOffset lib cfg base_width base_height tl br).y < cfg.SnapDistance) ∧
    (GetSnapOffset lib cfg base_width base_height tl br).z = 0 ∧
    (cfg.SnapDistance ≤ 0 →
      GetSnapOffset lib cfg base_width base_height tl br = vec3_zero) := by
  cases hs : cfg.SnappingEnabled
  · have h0 : GetSnapOffset lib cfg base_width base_height tl br = vec3_zero := by
      simp [GetSnapOffset, hs]
    rw [h0]
    exact ⟨Or.inl rfl, Or.inl rfl, rfl, fun _ => rfl⟩
  · rw [GetSnapOffset_eq_snapAxis lib cfg base_width base_height tl br hs]
    refine ⟨snapAxis_bounded lib cfg _ _ _, snapAxis_bounded lib cfg _ _ _, rfl, ?_⟩
    intro hd
    have hx := snapAxis_bounded lib cfg base_width tl.x br.x
    have hy := snapAxis_bounded lib cfg base_height tl.y br.y
    have hx0 : snapAxis lib cfg base_width tl.x br.x = 0 := by
      rcases hx with h | h
      · exact h
      · exact absurd (lt_of_le_of_lt (abs_nonneg _) h) (not_lt.mpr hd)
    have hy0 : snapAxis lib cfg base_height tl.y br.y = 0 := by
      rcases hy with h | h
      · exact h
      · exact absurd (lt_of_le_of_lt (abs_nonneg _) h) (not_lt.mpr hd)
    rw [hx0, hy0]
    rfl

/-- Instance for C27: on a canvas of 100 by 100 with all snapping enabled a box
from (4, 20) to (50, 60) is snapped by (-4, 0) at snap distance 10 and not at
all at snap distance 0. -/
theorem GetSnapOffset_bounded_witness :
    GetSnapOffset gridLib ⟨true, true, true, true, 10⟩ 100 100 ⟨4, 20, 0⟩ ⟨50, 60, 0⟩ =
      ⟨-4, 0, 0⟩ ∧
    abs (-4 : ℚ) < 10 ∧
    GetSnapOffset gridLib ⟨true, true, true, true, 0⟩ 100 100 ⟨4, 20, 0⟩ ⟨50, 60, 0⟩ =
      vec3_zero := by
  refine ⟨?_, by norm_num [abs_lt], ?_⟩
  · rw [GetSnapOffset_eq_snapAxis _ _ _ _ _ _ rfl]
    simp [snapAxis, gridLib]
    norm_num [abs_lt, abs_of_pos, abs_of_nonneg]
  · exact (GetSnapOffset_bounded gridLib ⟨true, true, true, true, 0⟩ 100 100 ⟨4, 20, 0⟩
      ⟨50, 60, 0⟩).2.2.2 (le_refl _)

/-- C29, counterexample: with the handle `TopCenter`, base size (16, 9) and the
corners (0, 0) and (100, 90), whose difference is the size (100, 90) handed in,
`ClampAspect` recomputes the width as 160 and leaves both corners alone on the
x axis, so that `br.x - tl.x` is 100 and not the clamped width. -/
theorem ClampAspect_edge_handle_counterexample :
    (⟨100, 90, 0⟩ : vec3).x - (⟨0, 0, 0⟩ : vec3).x = (⟨100, 90⟩ : vec2).x ∧
    (⟨100, 90, 0⟩ : vec3).y - (⟨0, 0, 0⟩ : vec3).y = (⟨100, 90⟩ : vec2).y ∧
    (ClampAspect .TopCenter ⟨0, 0, 0⟩ ⟨100, 90, 0⟩ ⟨100, 90⟩ ⟨16, 9⟩).size.x = 160 ∧
    (ClampAspect .TopCenter ⟨0, 0, 0⟩ ⟨100, 90, 0⟩ ⟨100, 90⟩ ⟨16, 9⟩).br.x -
      (ClampAspect .TopCenter ⟨0, 0, 0⟩ ⟨100, 90, 0⟩ ⟨100, 90⟩ ⟨16, 9⟩).tl.x = 100 := by
  have hf : hasFlag ItemHandle.TopCenter.flags ITEM_LEFT = false := by decide
  have hg : hasFlag ItemHandle.TopCenter.flags ITEM_RIGHT = false := by decide
  have hr : roundf (160 : ℚ) = 160 := by
    have hfl : ⌊(160 : ℚ) + 1 / 2⌋ = 160 := by
      rw [Int.floor_eq_iff]; constructor <;> norm_num
    unfold roundf
    rw [if_pos (by norm_num), hfl]
    norm_num
  have hs : sameSign ⟨100, 90⟩ = true := by simp [sameSign]
  have hsz : ∀ (tl br : vec3) (size baseSize : vec2),
      (ClampAspect .TopCenter tl br size baseSize).size.x =
        roundf (if sameSign size then size.y * (baseSize.x / baseSize.y)
          else size.y * (baseSize.x / baseSize.y) * -1) := by
    intro tl br size baseSize
    simp only [ClampAspect, reduceCtorEq, false_or, or_false, if_false, true_or, if_true]
    split_ifs <;> rfl
  refine ⟨by norm_num, by norm_num, ?_, ?_⟩
  · rw [hsz, hs, if_pos rfl]
    have : (90 : ℚ) * (16 / 9) = 160 := by norm_num
    rw [this, hr]
  · obtain ⟨htx, hbx⟩ := ClampAspect_x .TopCenter ⟨0, 0, 0⟩ ⟨100, 90, 0⟩ ⟨100, 90⟩ ⟨16, 9⟩
    rw [htx, hbx, hf, hg]
    norm_num

/-- C29, amended: after `ClampAspect`, on every axis on which the active handle
has a side, the corners span exactly the clamped size: `br.x - tl.x = size.x`
for a handle with a left or right side and `br.y - tl.y = size.y` for a handle
with a top or bottom side, whatever the corners were on entry; hence on both
axes for the four corner handles. On an axis on which the handle has no side
the corners are left as they were: for `TopCenter` and `BottomCenter` on the x
axis, for `CenterLeft` and `CenterRight` on the y axis, where `size` holds the
recomputed extent. -/
theorem ClampAspect_corners_on_handle_axes (stretchHandle : ItemHandle) (tl br : vec3)
    (size baseSize : vec2) :
    ((hasFlag stretchHandle.flags ITEM_LEFT = true ∨
        hasFlag stretchHandle.flags ITEM_RIGHT = true) →
      (ClampAspect stretchHandle tl br size baseSize).br.x -
        (ClampAspect stretchHandle tl br size baseSize).tl.x =
        (ClampAspect stretchHandle tl br size baseSize).size.x) ∧
    ((hasFlag stretchHandle.flags ITEM_TOP = true ∨
        hasFlag stretchHandle.flags ITEM_BOTTOM = true) →
      (ClampAspect stretchHandle tl br size baseSize).br.y -
        (ClampAspect stretchHandle tl br size baseSize).tl.y =
        (ClampAspect stretchHandle tl br size baseSize).size.y) ∧
    ((stretchHandle = .TopLeft ∨ stretchHandle = .TopRight ∨ stretchHandle = .BottomLeft ∨
        stretchHandle = .BottomRight) →
      (ClampAspect stretchHandle tl br size baseSize).br.x -
        (ClampAspect stretchHandle tl br size baseSize).tl.x =
        (ClampAspect stretchHandle tl br size baseSize).size.x ∧
      (ClampAspect stretchHandle tl br size baseSize).br.y -
        (ClampAspect stretchHandle tl br size baseSize).tl.y =
        (ClampAspect stretchHandle tl br size baseSize).size.y) ∧
    ((stretchHandle = .TopCenter ∨ stretchHandle = .BottomCenter) →
      (ClampAspect stretchHandle tl br size baseSize).tl.x = tl.x ∧
      (ClampAspect stretchHandle tl br size baseSize).br.x = br.x) ∧
    ((stretchHandle = .CenterLeft ∨ stretchHandle = .CenterRight) →
      (ClampAspect stretchHandle tl br size baseSize).tl.y = tl.y ∧
      (ClampAspect stretchHandle tl br size baseSize).br.y = br.y) := by
  obtain ⟨htx, hbx⟩ := ClampAspect_x stretchHandle tl br size baseSize
  obtain ⟨hty, hby⟩ := ClampAspect_y stretchHandle tl br size baseSize
  have hx : (hasFlag stretchHandle.flags ITEM_LEFT = true ∨
      hasFlag stretchHandle.flags ITEM_RIGHT = true) →
      (ClampAspect stretchHandle tl br size baseSize).br.x -
        (ClampAspect stretchHandle tl br size baseSize).tl.x =
        (ClampAspect stretchHandle tl br size baseSize).size.x := by
    intro h
    rw [htx, hbx]
    by_cases hl : hasFlag stretchHandle.flags ITEM_LEFT = true
    · rw [if_pos hl, if_pos hl]; ring
    · rw [if_neg hl, if_neg hl, if_pos (h.resolve_left hl)]; ring
  have hy : (hasFlag stretchHandle.flags ITEM_TOP = true ∨
      hasFlag stretchHandle.flags ITEM_BOTTOM = true) →
      (ClampAspect stretchHandle tl br size baseSize).br.y -
        (ClampAspect stretchHandle tl br size baseSize).tl.y =
        (ClampAspect stretchHandle tl br size baseSize).size.y := by
    intro h
    rw [hty, hby]
    by_cases ht : hasFlag stretchHandle.flags ITEM_TOP = true
    · rw [if_pos ht, if_pos ht]; ring
    · rw [if_neg ht, if_neg ht, if_pos (h.resolve_left ht)]; ring
  refine ⟨hx, hy, ?_, ?_, ?_⟩
  · intro h
    rcases h with h | h | h | h <;> subst h
    · exact ⟨hx (Or.inl (by decide)), hy (Or.inl (by decide))⟩
    · exact ⟨hx (Or.inr (by decide)), hy (Or.inl (by decide))⟩
    · exact ⟨hx (Or.inl (by decide)), hy (Or.inr (by decide))⟩
    · exact ⟨hx (Or.inr (by decide)), hy (Or.inr (by decide))⟩
  · intro h
    have hf : hasFlag stretchHandle.flags ITEM_LEFT = false := by
      rcases h with h | h <;> subst h <;> decide
    have hg : hasFlag stretchHandle.flags ITEM_RIGHT = false := by
      rcases h with h | h <;> subst h <;> decide
    rw [htx, hbx, hf, hg]
    exact ⟨rfl, rfl⟩
  · intro h
    have hf : hasFlag stretchHandle.flags ITEM_TOP = false := by
      rcases h with h | h <;> subst h <;> decide
    have hg : hasFlag stretchHandle.flags ITEM_BOTTOM = false := by
      rcases h with h | h <;> subst h <;> decide
    rw [hty, hby, hf, hg]
    exact ⟨rfl, rfl⟩

/-- Instance for C29: with the handle `BottomRight`, base size (16, 9) and the
corners (0, 0) and (100, 40), the clamped size is (100, 56) and the corners
span it on both axes. -/
theorem ClampAspect_corners_on_handle_axes_witness :
    (ClampAspect .BottomRight ⟨0, 0, 0⟩ ⟨100, 40, 0⟩ ⟨100, 40⟩ ⟨16, 9⟩).br.x -
      (ClampAspect .BottomRight ⟨0, 0, 0⟩ ⟨100, 40, 0⟩ ⟨100, 40⟩ ⟨16, 9⟩).tl.x =
      (ClampAspect .BottomRight ⟨0, 0, 0⟩ ⟨100, 40, 0⟩ ⟨100, 40⟩ ⟨16, 9⟩).size.x ∧
    (ClampAspect .BottomRight ⟨0, 0, 0⟩ ⟨100, 40, 0⟩ ⟨100, 40⟩ ⟨16, 9⟩).br.y -
      (ClampAspect .BottomRight ⟨0, 0, 0⟩ ⟨100, 40, 0⟩ ⟨100, 40⟩ ⟨16, 9⟩).tl.y =
      (ClampAspect .BottomRight ⟨0, 0, 0⟩ ⟨100, 40, 0⟩ ⟨100, 40⟩ ⟨16, 9⟩).size.y :=
  (ClampAspect_corners_on_handle_axes .BottomRight ⟨0, 0, 0⟩ ⟨100, 40, 0⟩ ⟨100, 40⟩
    ⟨16, 9⟩).2.2.1 (Or.inr (Or.inr (Or.inr rfl)))

/-- C30, the code on the failing trace: the scene holds the unselected group 10
with the selected child item 1. The pointer hovers onto the top left corner of
the child, the left button is pressed and released. The only notification
issued is `obs_sceneitem_defer_group_resize_end` for the group 10: one end and
no begin. -/
theorem group_resize_end_without_begin :
    (handleEvents gridEnv (idleDock [groupItem 10 [plainItem 1 false true 0 0]])
      hoverThenClick).calls = [Call.defer_group_resize_end 10] ∧
    beginCount 10 (handleEvents gridEnv (idleDock [groupItem 10 [plainItem 1 false true 0 0]])
      hoverThenClick).calls = 0 ∧
    endCount 10 (handleEvents gridEnv (idleDock [groupItem 10 [plainItem 1 false true 0 0]])
      hoverThenClick).calls = 1 := by
  have hfind : FindHandleAtPos_items gridEnv [groupItem 10 [plainItem 1 false true 0 0]]
      (handleSearch gridEnv ⟨0, 0⟩) =
      { handleSearch gridEnv ⟨0, 0⟩ with handle := .TopLeft, item := some 1 } := by
    simp only [FindHandleAtPos_items, groupItem]
    rw [FindHandleAtPos_unselected_group gridEnv _ _ _ rfl rfl]
    simp only [FindHandleAtPos_items, plainItem]
    rw [FindHandleAtPos_corner gridEnv _ _ _ rfl
      (by norm_num [handleSearch, HANDLE_SEL_RADIUS, HANDLE_RADIUS])
      (by norm_num [handleSearch, gridEnv, gridLib, boxAt, matrix4_identity, GetTransformedPos,
        vec3_transform, vec3_set, vec3_dist_sq, SceneItem.data])]
  have hmove0 : HandleMouseMoveEvent gridEnv
      (idleDock [groupItem 10 [plainItem 1 false true 0 0]])
      (leftEvent false ⟨0, 0⟩ false false false) =
      GetStretchHandleData gridEnv
        { idleDock [groupItem 10 [plainItem 1 false true 0 0]] with
          changed := true,
          hoveredPreviewItems := [(GetItemAtPos gridEnv.lib
            [groupItem 10 [plainItem 1 false true 0 0]] ⟨0, 0⟩ true).map fun i => i.data.id],
          mousePos := ⟨0, 0⟩, startPos := ⟨0, 0⟩ } ⟨0, 0⟩ true := by
    simp [HandleMouseMoveEvent, idleDock, leftEvent]
  obtain ⟨gcalls, ggroup⟩ := GetStretchHandleData_ignoreGroup gridEnv
    { idleDock [groupItem 10 [plainItem 1 false true 0 0]] with
      changed := true,
      hoveredPreviewItems := [(GetItemAtPos gridEnv.lib
        [groupItem 10 [plainItem 1 false true 0 0]] ⟨0, 0⟩ true).map fun i => i.data.id],
      mousePos := ⟨0, 0⟩, startPos := ⟨0, 0⟩ } ⟨0, 0⟩
  have hitem : itemOfPointer [groupItem 10 [plainItem 1 false true 0 0]] (some 1) =
      some (plainItem 1 false true 0 0) := by
    simp [itemOfPointer, findItem_items, findItem, groupItem, plainItem]
  have hgroup : obs_sceneitem_get_group [groupItem 10 [plainItem 1 false true 0 0]] (some 1) =
      some (groupItem 10 [plainItem 1 false true 0 0]) := by
    simp only [obs_sceneitem_get_group, hitem]
    simp [obs_sceneitem_is_group, plainItem, groupItem, SceneItem.data, SceneItem.children]
  have m_calls : (HandleMouseMoveEvent gridEnv
      (idleDock [groupItem 10 [plainItem 1 false true 0 0]])
      (leftEvent false ⟨0, 0⟩ false false false)).calls = [] := by
    rw [hmove0, gcalls]; rfl
  have m_group : (HandleMouseMoveEvent gridEnv
      (idleDock [groupItem 10 [plainItem 1 false true 0 0]])
      (leftEvent false ⟨0, 0⟩ false false false)).stretchGroup = some 10 := by
    rw [hmove0, ggroup
      (by
        show (FindHandleAtPos_items gridEnv [groupItem 10 [plainItem 1 false true 0 0]]
          (handleSearch gridEnv ⟨0, 0⟩)).handle ≠ .None
        rw [hfind]; simp)
      (by
        show (itemOfPointer [groupItem 10 [plainItem 1 false true 0 0]]
          (FindHandleAtPos_items gridEnv [groupItem 10 [plainItem 1 false true 0 0]]
            (handleSearch gridEnv ⟨0, 0⟩)).item).isSome = true
        rw [hfind]
        show (itemOfPointer [groupItem 10 [plainItem 1 false true 0 0]] (some 1)).isSome = true
        rw [hitem]; rfl)]
    show (obs_sceneitem_get_group [groupItem 10 [plainItem 1 false true 0 0]]
      (FindHandleAtPos_items gridEnv [groupItem 10 [plainItem 1 false true 0 0]]
        (handleSearch gridEnv ⟨0, 0⟩)).item).map (fun g => g.data.id) = some 10
    rw [hfind]
    show (obs_sceneitem_get_group [groupItem 10 [plainItem 1 false true 0 0]]
      (some 1)).map (fun g => g.data.id) = some 10
    rw [hgroup]; rfl
  obtain ⟨-, -, -, a4, a5, -, -, -⟩ := HandleMouseMoveEvent_hover gridEnv
    (idleDock [groupItem 10 [plainItem 1 false true 0 0]])
    (leftEvent false ⟨0, 0⟩ false false false) rfl rfl rfl rfl
  obtain ⟨-, -, -, b4, -, b6, -, -, b9⟩ := HandleMousePressEvent_left gridEnv
    (HandleMouseMoveEvent gridEnv (idleDock [groupItem 10 [plainItem 1 false true 0 0]])
      (leftEvent false ⟨0, 0⟩ false false false))
    (leftEvent true ⟨0, 0⟩ false false false) a4 a5 rfl
  have bg := HandleMousePressEvent_left_group gridEnv
    (HandleMouseMoveEvent gridEnv (idleDock [groupItem 10 [plainItem 1 false true 0 0]])
      (leftEvent false ⟨0, 0⟩ false false false))
    (leftEvent true ⟨0, 0⟩ false false false) a4 a5 rfl
  have hcalls : (handleEvents gridEnv (idleDock [groupItem 10 [plainItem 1 false true 0 0]])
      hoverThenClick).calls = [Call.defer_group_resize_end 10] := by
    have h := HandleMouseReleaseEvent_calls gridEnv
      (HandleMousePressEvent gridEnv
        (HandleMouseMoveEvent gridEnv (idleDock [groupItem 10 [plainItem 1 false true 0 0]])
          (leftEvent false ⟨0, 0⟩ false false false))
        (leftEvent true ⟨0, 0⟩ false false false))
      (leftEvent false ⟨0, 0⟩ false false false) b4 b6 10 (bg.trans m_group)
    rw [b9, m_calls] at h
    exact h
  rw [hcalls]
  exact ⟨rfl, by decide, by decide⟩

/-- C21, counterexample: two selected items, the pointer exactly on the top
left handle of the first one and 3 pixels from the top left handle of the
second one, both within the radius of 6. The lookup reports the second item,
the one enumerated last, and not the handle nearest to the pointer. -/
theorem GetStretchHandleData_nearest_counterexample :
    handleDist (gridEnv.lib.box_transform (plainItem 1 false true 0 0)) 0 0
      (handleSearch gridEnv ⟨0, 0⟩) = 0 ∧
    handleDist (gridEnv.lib.box_transform (plainItem 2 false true 3 0)) 0 0
      (handleSearch gridEnv ⟨0, 0⟩) = 9 ∧
    (9 : ℚ) < (handleSearch gridEnv ⟨0, 0⟩).radius * (handleSearch gridEnv ⟨0, 0⟩).radius ∧
    (GetStretchHandleData gridEnv (idleDock overlappingPair) ⟨0, 0⟩ true).stretchItem =
      some 2 ∧
    (GetStretchHandleData gridEnv (idleDock overlappingPair) ⟨0, 0⟩ true).stretchHandle =
      .TopLeft := by
  obtain ⟨h1, h2, -⟩ := GetStretchHandleData_fields gridEnv (idleDock overlappingPair) ⟨0, 0⟩
    true
  refine ⟨?_, ?_, ?_, ?_, ?_⟩
  · norm_num [handleDist, handleSearch, gridEnv, gridLib, boxAt, plainItem, matrix4_identity,
      GetTransformedPos, vec3_transform, vec3_set, vec3_dist_sq, SceneItem.data]
  · norm_num [handleDist, handleSearch, gridEnv, gridLib, boxAt, plainItem, matrix4_identity,
      GetTransformedPos, vec3_transform, vec3_set, vec3_dist_sq, SceneItem.data]
  · norm_num [handleSearch, HANDLE_SEL_RADIUS, HANDLE_RADIUS]
  · rw [h2]; exact overlappingPair_lookup.1
  · rw [h1]; exact overlappingPair_lookup.2

/-- C21, amended: let the visits be the selected items `FindHandleAtPos` comes
to, in enumeration order, children of unselected groups under the draw
transform and rotation of their group. `GetStretchHandleData` reports the
handle `None` exactly when no visited item has a handle strictly within the
radius. Otherwise it reports the last visited item that has a handle strictly
within the radius, with a handle of that item that is within the radius and
nearest to the pointer among the nine handles of that item. Distances are
compared by their squares. -/
theorem GetStretchHandleData_last_item_nearest (env : CanvasEnv) (dock : CanvasDock)
    (pos : vec2) (ignoreGroup : Bool) :
    ((∀ v ∈ handleVisits_items env dock.scene matrix4_identity 0,
        ¬ handleInRange env (handleSearch env pos) v) ↔
      (GetStretchHandleData env dock pos ignoreGroup).stretchHandle = .None) ∧
    (∀ (V1 V2 : List (SceneItem × matrix4 × ℚ)) (v : SceneItem × matrix4 × ℚ),
      handleVisits_items env dock.scene matrix4_identity 0 = V1 ++ v :: V2 →
      handleInRange env (handleSearch env pos) v →
      (∀ w ∈ V2, ¬ handleInRange env (handleSearch env pos) w) →
      (GetStretchHandleData env dock pos ignoreGroup).stretchItem = some v.1.data.id ∧
      ∃ c ∈ handleDistances env v.1 (visitData (handleSearch env pos) v),
        (GetStretchHandleData env dock pos ignoreGroup).stretchHandle = c.1 ∧
        c.2 < (handleSearch env pos).radius * (handleSearch env pos).radius ∧
        ∀ c' ∈ handleDistances env v.1 (visitData (handleSearch env pos) v), c.2 ≤ c'.2) := by
  obtain ⟨h1, h2, -⟩ := GetStretchHandleData_fields env dock pos ignoreGroup
  have hvis : FindHandleAtPos_items env dock.scene (handleSearch env pos) =
      (handleVisits_items env dock.scene matrix4_identity 0).foldl (visitStep env)
        (handleSearch env pos) :=
    FindHandleAtPos_items_visits env dock.scene (handleSearch env pos)
  have hsel := handleVisits_items_selected env dock.scene matrix4_identity 0
  rw [h1, h2, hvis]
  have hlast : ∀ (V1 V2 : List (SceneItem × matrix4 × ℚ)) (v : SceneItem × matrix4 × ℚ),
      handleVisits_items env dock.scene matrix4_identity 0 = V1 ++ v :: V2 →
      handleInRange env (handleSearch env pos) v →
      (∀ w ∈ V2, ¬ handleInRange env (handleSearch env pos) w) →
      ((handleVisits_items env dock.scene matrix4_identity 0).foldl (visitStep env)
        (handleSearch env pos)).item = some v.1.data.id ∧
      ∃ c ∈ handleDistances env v.1 (visitData (handleSearch env pos) v),
        ((handleVisits_items env dock.scene matrix4_identity 0).foldl (visitStep env)
          (handleSearch env pos)).handle = c.1 ∧
        c.2 < (handleSearch env pos).radius * (handleSearch env pos).radius ∧
        ∀ c' ∈ handleDistances env v.1 (visitData (handleSearch env pos) v), c.2 ≤ c'.2 := by
    intro V1 V2 v hV hin hout
    rw [hV] at hsel ⊢
    exact foldl_visitStep_last env (handleSearch env pos) V1 V2 v hsel hin hout
  refine ⟨⟨?_, ?_⟩, hlast⟩
  · intro hout
    rw [foldl_visitStep_out_of_range env _ _ hsel hout]
    rfl
  · intro hnone
    by_contra hex
    push_neg at hex
    obtain ⟨V1, v, V2, hV, hin, hout⟩ := exists_last_satisfying
      (handleInRange env (handleSearch env pos)) _ hex
    obtain ⟨-, c, hc, hh, -, -⟩ := hlast V1 V2 v hV hin hout
    rw [hnone] at hh
    exact handleDistances_not_None env _ _ c hc hh.symm

/-- Instance for C21: over the two selected items of `overlappingPair` with the
pointer at the origin the second item is the last one with a handle within the
radius, and it is the one reported. -/
theorem GetStretchHandleData_last_item_nearest_witness :
    (GetStretchHandleData gridEnv (idleDock overlappingPair) ⟨0, 0⟩ true).stretchItem =
      some 2 ∧
    (GetStretchHandleData gridEnv (idleDock overlappingPair) ⟨0, 0⟩ true).stretchHandle ≠
      .None := by
  have hr : (handleSearch gridEnv ⟨0, 0⟩).radius = 6 := by
    norm_num [handleSearch, HANDLE_SEL_RADIUS, HANDLE_RADIUS]
  have hd := overlappingPair_distances
    (visitData (handleSearch gridEnv ⟨0, 0⟩) (plainItem 2 false true 3 0, matrix4_identity, 0))
    (by simp [visitData, handleSearch]) hr rfl rfl
  have hin : handleInRange gridEnv (handleSearch gridEnv ⟨0, 0⟩)
      (plainItem 2 false true 3 0, matrix4_identity, 0) := by
    refine ⟨(.TopLeft, 9), ?_, ?_⟩
    · rw [hd]; simp
    · rw [hr]; norm_num
  obtain ⟨hi, c, hc, hh, -, -⟩ := (GetStretchHandleData_last_item_nearest gridEnv
    (idleDock overlappingPair) ⟨0, 0⟩ true).2
    [(plainItem 1 false true 0 0, matrix4_identity, 0)] []
    (plainItem 2 false true 3 0, matrix4_identity, 0)
    (by simp [idleDock, overlappingPair, handleVisits_items, handleVisits, plainItem])
    hin (by simp)
  refine ⟨hi, ?_⟩
  rw [hh]
  exact handleDistances_not_None gridEnv _ _ c hc

end MultiCanvas
